import Mathlib

/-!
# Verification of the arcade-games repository

Shallow embedding of the six game components (falling-block puzzle,
alien invaders, breakout, snake, frog crossing, asteroids) and proofs of
the specification claims about them.

Conventions of the embedding:
* JS numbers that only ever hold integers are modelled as `Int` or `Nat`;
  general coordinates, speeds and timers are modelled as `ℚ`.
* `Math.random()` draws are modelled as an explicit stream `rand : Nat → ℚ`
  stored in the game state together with a cursor `ridx`; each call to the
  source's `Math.random()` consumes one stream element.
* Trigonometric functions of the host `Math` library are modelled as
  abstract function parameters (`cosF`, `sinF`).
* Arrays are `List`s; `arr[i]` reads out of range are modelled with `getD`
  defaults (the source only performs them on indices that are in range in
  reachable states, as noted at each use).
-/

namespace ShapeDrop

/-- Board width, `COLS = 10` in the source. -/
def COLS : Nat := 10

/-- Board height, `ROWS = 20` in the source. -/
def ROWS : Nat := 20

/-- A board row: one entry per column, `0` = empty, otherwise a colour index
plus one, exactly as the source stores it. -/
abbrev Row := List Nat

/-- The board: `ROWS` rows, top row first, as in the source's
`board: number[][]`. -/
abbrev Board := List Row

/-- Cell read `board[y][x]`, with the JS out-of-range read modelled as `0`. -/
def cellAt (board : Board) (y x : Nat) : Nat :=
  (board.getD y []).getD x 0

/-- Pattern cell read `pattern[row][col]` with out-of-range modelled as `0`. -/
def patCell (pattern : List (List Nat)) (row col : Nat) : Nat :=
  (pattern.getD row []).getD col 0

/-- Embedding of `ShapeDropComponent.isValidMove(x, y, pattern)`:
every nonzero pattern cell, placed at `(x+col, y+row)`, must be inside the
horizontal bounds and above the bottom, and must not overlap a settled cell
(cells above the board, `newY < 0`, are not tested for overlap). -/
def isValidMove (board : Board) (x y : Int) (pattern : List (List Nat)) : Bool :=
  (List.range pattern.length).all fun row =>
    (List.range (pattern.getD row []).length).all fun col =>
      if patCell pattern row col ≠ 0 then
        let newX := x + col
        let newY := y + row
        if newX < 0 ∨ (COLS : Int) ≤ newX ∨ (ROWS : Int) ≤ newY then false
        else if 0 ≤ newY ∧ cellAt board newY.toNat newX.toNat ≠ 0 then false
        else true
      else true

/-- Embedding of `ShapeDropComponent.rotatePattern`: the source fills a fresh
`size × size` grid with `rotated[col][size - 1 - row] = pattern[row][col]`,
i.e. entry `(r, c)` of the result is entry `(size - 1 - c, r)` of the input. -/
def rotatePattern (pattern : List (List Nat)) : List (List Nat) :=
  let size := pattern.length
  (List.range size).map fun r =>
    (List.range size).map fun c => patCell pattern (size - 1 - c) r

/-- The wall-kick offset table of `ShapeDropComponent.rotate`, in source
order: left 1, right 1, left 2, right 2, up 1. -/
def kicks : List (Int × Int) :=
  [(-1, 0), (1, 0), (-2, 0), (2, 0), (0, -1)]

/-- Embedding of the placement search inside `ShapeDropComponent.rotate`:
given the board, the anchor `(x, y)` and the current pattern, return the new
anchor and pattern.  The source first tries the rotated pattern at the
unchanged anchor, then each kick offset in order, and leaves both pattern and
position untouched when every attempt is invalid. -/
def rotateAttempt (board : Board) (x y : Int) (pattern : List (List Nat)) :
    (Int × Int) × List (List Nat) :=
  let rotated := rotatePattern pattern
  if isValidMove board x y rotated then ((x, y), rotated)
  else
    match kicks.find? (fun k => isValidMove board (x + k.1) (y + k.2) rotated) with
    | some k => ((x + k.1, y + k.2), rotated)
    | none => ((x, y), pattern)

/-- `board[row].every(cell => cell !== 0)`: the row has no empty cell. -/
def rowFull (r : Row) : Bool := r.all fun c => c ≠ 0

/-- An empty row, `Array(COLS).fill(0)`. -/
def emptyRow : Row := List.replicate COLS 0

/-- The scan loop of `ShapeDropComponent.clearLines`, written on the
bottom-first list of rows (the source iterates `row` from `ROWS - 1` down
to `0`).  Removing a full row and *not* advancing the index (the source's
`row++` before the loop's `row--`) means the scan continues with the row
that was directly above, which is exactly the head of the remaining
bottom-first list; each removal also unshifts one empty row at the top,
collected in the count. -/
def clearScan : List Row → List Row × Nat
  | [] => ([], 0)
  | r :: rest =>
    if rowFull r then
      let (kept, c) := clearScan rest
      (kept, c + 1)
    else
      let (kept, c) := clearScan rest
      (r :: kept, c)

/-- Embedding of `ShapeDropComponent.clearLines`: scan the rows bottom-to-top,
drop every full row, unshift one empty row at the top per removal, and
return the new board together with the number of cleared lines. -/
def clearLines (board : Board) : Board × Nat :=
  let (kept, c) := clearScan board.reverse
  (List.replicate c emptyRow ++ kept.reverse, c)

/-- The seven `SHAPES` patterns of the source (I, O, T, S, Z, J, L), without
the colour strings; a piece's colour is identified with its index in this
list, so the value locked into the board for piece `i` is `i + 1`
(the source computes it as `SHAPES.findIndex(s => s.color === color) + 1`
and the seven colour strings are pairwise distinct). -/
def SHAPES : List (List (List Nat)) :=
  [ [[0, 0, 0, 0], [1, 1, 1, 1], [0, 0, 0, 0], [0, 0, 0, 0]],
    [[1, 1], [1, 1]],
    [[0, 1, 0], [1, 1, 1], [0, 0, 0]],
    [[0, 1, 1], [1, 1, 0], [0, 0, 0]],
    [[1, 1, 0], [0, 1, 1], [0, 0, 0]],
    [[1, 0, 0], [1, 1, 1], [0, 0, 0]],
    [[0, 0, 1], [1, 1, 1], [0, 0, 0]] ]

/-- State of `ShapeDropComponent`.  `pattern`/`color` are the current piece
(`currentPiece.pattern` and the index of `currentPiece.color` in `SHAPES`),
`nextPattern`/`nextColor` the next piece.  The `Math.floor(Math.random() *
SHAPES.length)` draws of `createRandomPiece` are modelled by the stream
`pieceStream` with cursor `pieceIdx`. -/
structure Game where
  board : Board
  pattern : List (List Nat)
  color : Nat
  posX : Int
  posY : Int
  nextPattern : List (List Nat)
  nextColor : Nat
  pieceStream : Nat → Fin 7
  pieceIdx : Nat
  score : Int
  lines : Int
  level : Int
  gameOver : Bool
  paused : Bool
  dropCounter : ℚ
  dropInterval : ℚ
  lastTime : ℚ

/-- `createRandomPiece` + `spawnPiece`: promote the next piece to current,
draw a new next piece from the stream, place the current piece at
`x = ⌊COLS / 2⌋ - ⌊width / 2⌋, y = 0`, and set `gameOver` when that spawn
position is invalid. -/
def spawnPiece (g : Game) : Game :=
  let fresh := g.pieceStream g.pieceIdx
  let pat := g.nextPattern
  let x : Int := (COLS / 2 : Nat) - ((pat.getD 0 []).length / 2 : Nat)
  let g' := { g with
    pattern := pat
    color := g.nextColor
    nextPattern := SHAPES.getD fresh.val []
    nextColor := fresh.val
    pieceIdx := g.pieceIdx + 1
    posX := x
    posY := 0 }
  if isValidMove g'.board g'.posX g'.posY g'.pattern then g'
  else { g' with gameOver := true }

/-- Write one locked cell: `board[y][x] = color + 1`, guarded exactly like
the source (`y >= 0 && y < ROWS && x >= 0 && x < COLS`). -/
def setCell (board : Board) (y x : Int) (v : Nat) : Board :=
  if 0 ≤ y ∧ y < (ROWS : Int) ∧ 0 ≤ x ∧ x < (COLS : Int) then
    board.set y.toNat ((board.getD y.toNat []).set x.toNat v)
  else board

/-- The double loop of `lockPiece` that stamps every nonzero pattern cell
into the board. -/
def stampPiece (board : Board) (x y : Int) (pattern : List (List Nat))
    (v : Nat) : Board :=
  (List.range pattern.length).foldl
    (fun b row =>
      (List.range (pattern.getD row []).length).foldl
        (fun b' col =>
          if patCell pattern row col ≠ 0 then
            setCell b' (y + row) (x + col) v
          else b')
        b)
    board

/-- The line-clear score table `[0, 100, 300, 500, 800]`.  The source indexes
it directly; at most four lines can clear at once in a reachable state, so
the out-of-range default `0` is never used there. -/
def clearPoints (linesCleared : Nat) : Int :=
  ([0, 100, 300, 500, 800] : List Int).getD linesCleared 0

/-- Embedding of `ShapeDropComponent.lockPiece`: stamp the piece, clear
lines, update `lines`, `score`, `level` and `dropInterval`, then spawn the
next piece. -/
def lockPiece (g : Game) : Game :=
  let board := stampPiece g.board g.posX g.posY g.pattern (g.color + 1)
  let cl := clearLines board
  let linesCleared := cl.2
  let g' := { g with board := cl.1 }
  let g'' :=
    if 0 < linesCleared then
      let lines' := g'.lines + (linesCleared : Int)
      let score' := g'.score + clearPoints linesCleared * g'.level
      let newLevel := lines' / 10 + 1
      if g'.level < newLevel then
        { g' with lines := lines', score := score', level := newLevel,
                  dropInterval := max 100 (1000 - (newLevel - 1) * 100) }
      else { g' with lines := lines', score := score' }
    else g'
  spawnPiece g''

/-- `moveLeft`. -/
def moveLeft (g : Game) : Game :=
  if isValidMove g.board (g.posX - 1) g.posY g.pattern then
    { g with posX := g.posX - 1 }
  else g

/-- `moveRight`. -/
def moveRight (g : Game) : Game :=
  if isValidMove g.board (g.posX + 1) g.posY g.pattern then
    { g with posX := g.posX + 1 }
  else g

/-- `moveDown`: advance one row when valid, otherwise lock the piece. -/
def moveDown (g : Game) : Game :=
  if isValidMove g.board g.posX (g.posY + 1) g.pattern then
    { g with posY := g.posY + 1 }
  else lockPiece g

/-- The descent loop of `hardDrop`, with fuel: a nonempty pattern can fall at
most `ROWS` rows in a reachable state, so the fuel used below never runs
out there. -/
def hardDropDist (board : Board) (pattern : List (List Nat)) (x y : Int) :
    Nat → Nat
  | 0 => 0
  | fuel + 1 =>
    if isValidMove board x (y + 1) pattern then
      hardDropDist board pattern x (y + 1) fuel + 1
    else 0

/-- `hardDrop`: drop as far as possible, score `2` per row fallen, lock. -/
def hardDrop (g : Game) : Game :=
  let d := hardDropDist g.board g.pattern g.posX g.posY (ROWS + 4)
  let g' := { g with posY := g.posY + d }
  let g'' := if 0 < d then { g' with score := g'.score + 2 * d } else g'
  lockPiece g''

/-- `rotate` on the game state, via the placement search `rotateAttempt`. -/
def rotate (g : Game) : Game :=
  let r := rotateAttempt g.board g.posX g.posY g.pattern
  { g with posX := r.1.1, posY := r.1.2, pattern := r.2 }

/-- `togglePause`. -/
def togglePause (g : Game) : Game := { g with paused := !g.paused }

/-- The keys the component's `handleKeyDown` reacts to. -/
inductive Key where
  | left | right | down | up | space | pause | other
  deriving DecidableEq

/-- Embedding of `handleKeyDown`: ignored entirely while `gameOver` or
`paused`, otherwise dispatch to the movement/rotation/drop/pause actions. -/
def handleKeyDown (k : Key) (g : Game) : Game :=
  if g.gameOver || g.paused then g
  else
    match k with
    | Key.left => moveLeft g
    | Key.right => moveRight g
    | Key.down => moveDown g
    | Key.up => rotate g
    | Key.space => hardDrop g
    | Key.pause => togglePause g
    | Key.other => g

/-- Embedding of `ShapeDropComponent.update(deltaTime)`. -/
def update (delta : ℚ) (g : Game) : Game :=
  if g.gameOver || g.paused then g
  else
    let counter := g.dropCounter + delta
    if g.dropInterval < counter then
      { moveDown g with dropCounter := 0 }
    else { g with dropCounter := counter }

/-- Embedding of `ShapeDropComponent.gameLoop(timestamp)`: while paused only
`lastTime` is refreshed (and the frozen frame re-rendered); otherwise the
elapsed time since the previous frame is fed to `update`. -/
def gameLoopStep (t : ℚ) (g : Game) : Game :=
  if g.paused then { g with lastTime := t }
  else
    let delta := t - g.lastTime
    update delta { g with lastTime := t }

/-- One session operation of the falling-block game: a scheduler tick or a
key event (the restart button re-initialises the game and is outside a
single session). -/
inductive Op where
  | tick (t : ℚ)
  | key (k : Key)
  | pauseButton

/-- Apply one session operation. -/
def step : Op → Game → Game
  | Op.tick t => gameLoopStep t
  | Op.key k => handleKeyDown k
  | Op.pauseButton => togglePause

end ShapeDrop

namespace Invaders

/-- The `x/y/width/height` part of a `GameObject`, used by `checkCollision`. -/
structure Rect where
  x : ℚ
  y : ℚ
  w : ℚ
  h : ℚ

/-- Embedding of `AlienInvadersComponent.checkCollision`: open axis-aligned
rectangle overlap. -/
def checkCollision (o1 o2 : Rect) : Bool :=
  decide (o1.x < o2.x + o2.w ∧ o2.x < o1.x + o1.w ∧
          o1.y < o2.y + o2.h ∧ o2.y < o1.y + o1.h)

/-- One invader. -/
structure Invader where
  x : ℚ
  y : ℚ
  width : ℚ
  height : ℚ
  active : Bool
  type : Nat
  animFrame : Nat
  deriving DecidableEq

/-- Fallback value for the (unreachable) out-of-range list reads. -/
def defInvader : Invader :=
  { x := 0, y := 0, width := 0, height := 0, active := false, type := 0, animFrame := 0 }

def Invader.rect (i : Invader) : Rect := ⟨i.x, i.y, i.width, i.height⟩

/-- One bullet. -/
structure Bullet where
  x : ℚ
  y : ℚ
  width : ℚ
  height : ℚ
  active : Bool
  speed : ℚ
  deriving DecidableEq

def Bullet.rect (b : Bullet) : Rect := ⟨b.x, b.y, b.width, b.height⟩

/-- One barrier segment. -/
structure Barrier where
  x : ℚ
  y : ℚ
  width : ℚ
  height : ℚ
  active : Bool
  health : Int
  deriving DecidableEq

def Barrier.rect (b : Barrier) : Rect := ⟨b.x, b.y, b.width, b.height⟩

/-- The mother ship. -/
structure MotherShip where
  x : ℚ
  y : ℚ
  width : ℚ
  height : ℚ
  active : Bool
  direction : ℚ
  points : Int
  deriving DecidableEq

def MotherShip.rect (m : MotherShip) : Rect := ⟨m.x, m.y, m.width, m.height⟩

/-- The player tank. -/
structure Player where
  x : ℚ
  y : ℚ
  width : ℚ
  height : ℚ
  active : Bool
  speed : ℚ
  deriving DecidableEq

def Player.rect (p : Player) : Rect := ⟨p.x, p.y, p.width, p.height⟩

/-- The held-key flags the component's `update` reads from its `keys` map. -/
structure Keys where
  arrowLeft : Bool
  arrowRight : Bool
  keyA : Bool
  keyD : Bool
  deriving DecidableEq

/-- State of `AlienInvadersComponent`.  The `Math.random()` draws are
modelled by the stream `rand` with cursor `ridx`. -/
structure Game where
  score : Int
  lives : Int
  level : Int
  gameOver : Bool
  paused : Bool
  player : Player
  invaders : List Invader
  invaderDirection : ℚ
  invaderSpeed : ℚ
  baseInvaderSpeed : ℚ
  invaderDropAmount : ℚ
  animationCounter : ℚ
  animationSpeed : ℚ
  baseAnimationSpeed : ℚ
  motherShip : MotherShip
  playerBullets : List Bullet
  invaderBullets : List Bullet
  barriers : List Barrier
  keys : Keys
  lastTime : ℚ
  invaderShootTimer : ℚ
  motherShipTimer : ℚ
  scale : ℚ
  canvasW : ℚ
  canvasH : ℚ
  barrierLeftBoundary : ℚ
  barrierRightBoundary : ℚ
  rand : Nat → ℚ
  ridx : Nat

/-- Consume one `Math.random()` draw. -/
def draw1 (g : Game) : ℚ × Game :=
  (g.rand g.ridx, { g with ridx := g.ridx + 1 })

/-- The boundary probe of `updateInvaders`: would this invader's next
horizontal step reach the left boundary or push its right edge to the right
boundary? -/
def probeCross (g : Game) (inv : Invader) : Bool :=
  let nextX := inv.x + g.invaderDirection * g.invaderSpeed * g.scale
  decide (nextX ≤ g.barrierLeftBoundary ∨ g.barrierRightBoundary ≤ nextX + inv.width)

/-- Embedding of `AlienInvadersComponent.updateInvaders(deltaTime)`.  The
movement body runs only when the accumulated animation counter exceeds
`animationSpeed`.  The source's probe loop breaks at the first active
invader whose next step would cross a boundary, which is `List.any`; on a
crossing the single shared direction flip happens once, every active
invader drops by `invaderDropAmount * scale` exactly once, and any dropped
invader whose bottom edge reaches the player's row sets `gameOver`;
finally every active invader advances by the (possibly flipped) direction
and toggles its animation frame. -/
def updateInvaders (delta : ℚ) (g : Game) : Game :=
  let counter := g.animationCounter + delta
  if g.animationSpeed < counter then
    let g0 := { g with animationCounter := 0 }
    let shouldDrop := g0.invaders.any fun inv => inv.active && probeCross g0 inv
    let dir := if shouldDrop then -g0.invaderDirection else g0.invaderDirection
    let invs1 :=
      if shouldDrop then
        g0.invaders.map fun inv =>
          if inv.active then { inv with y := inv.y + g0.invaderDropAmount * g0.scale }
          else inv
      else g0.invaders
    let over :=
      if shouldDrop then
        g0.gameOver || invs1.any fun inv =>
          inv.active && decide (g0.player.y ≤ inv.y + inv.height)
      else g0.gameOver
    let invs2 := invs1.map fun inv =>
      if inv.active then
        { inv with x := inv.x + dir * g0.invaderSpeed * g0.scale,
                   animFrame := (inv.animFrame + 1) % 2 }
      else inv
    { g0 with invaders := invs2, invaderDirection := dir, gameOver := over }
  else { g with animationCounter := counter }

/-- The spawn half of `updateMotherShip(deltaTime)`: accumulate the timer;
the spawn condition short-circuits, so a random number is drawn only when
the ship is inactive and the timer has passed 15000, and the spawn itself
draws two more randoms (direction and point value). -/
def motherShipSpawn (delta : ℚ) (g : Game) : Game :=
  let gA := { g with motherShipTimer := g.motherShipTimer + delta }
  if !gA.motherShip.active && decide ((15000 : ℚ) < gA.motherShipTimer) then
    let d1 := draw1 gA
    if decide (d1.1 < 1 / 100) then
      let d2 := draw1 d1.2
      let d3 := draw1 d2.2
      let g3 := d3.2
      let dir : ℚ := if decide (d2.1 < 1 / 2) then 1 else -1
      let pts : Int := ([50, 100, 150, 300] : List Int).getD (Rat.floor (d3.1 * 4)).toNat 0
      { g3 with
        motherShip := { g3.motherShip with
          active := true
          direction := dir
          x := if decide ((0 : ℚ) < dir) then -50 * g3.scale else g3.canvasW + 50 * g3.scale
          y := 30 * g3.scale
          points := pts }
        motherShipTimer := 0 }
    else d1.2
  else gA

/-- The movement half of `updateMotherShip`: an active ship drifts and is
deactivated once fully off screen. -/
def motherShipMove (g : Game) : Game :=
  if g.motherShip.active then
    let ms1 := { g.motherShip with x := g.motherShip.x + g.motherShip.direction * 2 * g.scale }
    let ms2 :=
      if decide (ms1.x < -100 * g.scale ∨ g.canvasW + 100 * g.scale < ms1.x) then
        { ms1 with active := false }
      else ms1
    { g with motherShip := ms2 }
  else g

/-- Embedding of `AlienInvadersComponent.updateMotherShip(deltaTime)`:
the spawn phase followed by the movement phase. -/
def updateMotherShip (delta : ℚ) (g : Game) : Game :=
  motherShipMove (motherShipSpawn delta g)

/-- Embedding of `AlienInvadersComponent.updateBullets`: each player bullet
moves up by its speed and is removed when `y < 0`; each invader bullet moves
down and is removed past the canvas bottom.  The source's reverse-index
splice loop removes exactly the bullets failing the test and keeps the rest
in order, which is map-then-filter. -/
def updateBullets (g : Game) : Game :=
  let pbs := (g.playerBullets.map fun b => { b with y := b.y - b.speed }).filter
    fun b => decide (0 ≤ b.y)
  let ibs := (g.invaderBullets.map fun b => { b with y := b.y + b.speed }).filter
    fun b => decide (b.y ≤ g.canvasH)
  { g with playerBullets := pbs, invaderBullets := ibs }

/-- Embedding of `AlienInvadersComponent.shootPlayerBullet`: push a new
bullet only while the collection holds fewer than one bullet. -/
def shootPlayerBullet (g : Game) : Game :=
  if g.playerBullets.length < 1 then
    { g with playerBullets := g.playerBullets ++
        [{ x := g.player.x + g.player.width / 2 - 1 * g.scale
           y := g.player.y
           width := 2 * g.scale
           height := 8 * g.scale
           active := true
           speed := 6 * g.scale }] }
  else g

/-- `Math.floor(invader.x / 40)`, the column key of `getBottomInvaders`. -/
def invCol (inv : Invader) : Int := Rat.floor (inv.x / 40)

/-- The occupant of one column key after the `getBottomInvaders` loop: the
first active invader with that key, replaced by each later one of strictly
greater `y`. -/
def colCandidate (invs : List Invader) (c : Int) : Option Invader :=
  invs.foldl
    (fun acc inv =>
      if inv.active && invCol inv == c then
        match acc with
        | none => some inv
        | some j => if decide (j.y < inv.y) then some inv else acc
      else acc)
    none

/-- Insertion into an ascending list. -/
def insertAsc (n : Int) : List Int → List Int
  | [] => [n]
  | m :: rest => if n ≤ m then n :: m :: rest else m :: insertAsc n rest

/-- Ascending sort of a list of integers. -/
def sortAsc (l : List Int) : List Int := l.foldr insertAsc []

/-- Embedding of `AlienInvadersComponent.getBottomInvaders`: one invader per
occupied column key, in ascending key order (JS objects iterate
integer-like keys in ascending numeric order; all keys are nonnegative in
reachable states). -/
def getBottomInvaders (invs : List Invader) : List Invader :=
  let cols := sortAsc ((invs.filterMap fun inv =>
    if inv.active then some (invCol inv) else none).dedup)
  cols.filterMap (colCandidate invs)

/-- Embedding of `AlienInvadersComponent.invaderShoot`: when any invader is
active, pick a random bottom invader and push an invader bullet under it. -/
def invaderShoot (g : Game) : Game :=
  if g.invaders.all (fun inv => !inv.active) then g
  else
    let bottom := getBottomInvaders g.invaders
    if bottom.isEmpty then g
    else
      let (r, g1) := draw1 g
      let shooter := bottom.getD (Rat.floor (r * bottom.length)).toNat defInvader
      { g1 with invaderBullets := g1.invaderBullets ++
          [{ x := shooter.x + shooter.width / 2
             y := shooter.y + shooter.height
             width := 2 * g1.scale
             height := 8 * g1.scale
             active := true
             speed := 3 * g1.scale }] }

/-- The point table of `addScore`: `[10, 20, 40][invaderType] || 10`.  No
listed value is falsy, so the `|| 10` only replaces the out-of-range
`undefined`, which `getD`'s default models. -/
def invaderPoints (t : Nat) : Int := ([10, 20, 40] : List Int).getD t 10

/-- Inner loop of the player-bullets-versus-invaders pass: scan the invaders
in storage order and deactivate the first active one the bullet overlaps,
reporting its type; `none` when the bullet hits nothing. -/
def invaderHitScan (b : Bullet) : List Invader → Option (List Invader × Nat)
  | [] => none
  | inv :: rest =>
    if inv.active && checkCollision b.rect inv.rect then
      some ({ inv with active := false } :: rest, inv.type)
    else
      match invaderHitScan b rest with
      | some (rest', t) => some (inv :: rest', t)
      | none => none

/-- Outer loop of the player-bullets-versus-invaders pass, on the reversed
bullet list (the source iterates bullet indices from high to low).  A
hitting bullet is removed, scores `invaderPoints`, and applies
`increaseInvaderSpeed` (`invaderSpeed += 0.5`,
`animationSpeed = max(300, animationSpeed - 10)`). -/
def bulletsInvadersAux : List Bullet → List Invader → Int → ℚ → ℚ →
    List Bullet × List Invader × Int × ℚ × ℚ
  | [], invs, sc, isp, asp => ([], invs, sc, isp, asp)
  | b :: rest, invs, sc, isp, asp =>
    match invaderHitScan b invs with
    | some (invs', t) =>
      bulletsInvadersAux rest invs' (sc + invaderPoints t) (isp + 1 / 2)
        (max 300 (asp - 10))
    | none =>
      let (restOut, invs', sc', isp', asp') := bulletsInvadersAux rest invs sc isp asp
      (restOut ++ [b], invs', sc', isp', asp')

/-- The player-bullets-versus-invaders pass of `checkCollisions`. -/
def bulletsInvadersPass (bullets : List Bullet) (invs : List Invader)
    (sc : Int) (isp asp : ℚ) : List Bullet × List Invader × Int × ℚ × ℚ :=
  bulletsInvadersAux bullets.reverse invs sc isp asp

/-- The player-bullets-versus-mother-ship pass, on the reversed bullet list.
The source's `break` leaves this outer loop after the first hit, so the
remaining (earlier) bullets are untouched. -/
def bulletsMotherShipAux : List Bullet → MotherShip → Int →
    List Bullet × MotherShip × Int
  | [], ms, sc => ([], ms, sc)
  | b :: rest, ms, sc =>
    if ms.active && checkCollision b.rect ms.rect then
      (rest.reverse, { ms with active := false }, sc + ms.points)
    else
      let (restOut, ms', sc') := bulletsMotherShipAux rest ms sc
      (restOut ++ [b], ms', sc')

/-- The player-bullets-versus-mother-ship pass of `checkCollisions`. -/
def bulletsMotherShipPass (bullets : List Bullet) (ms : MotherShip) (sc : Int) :
    List Bullet × MotherShip × Int :=
  bulletsMotherShipAux bullets.reverse ms sc

/-- `barrier.health--` followed by deactivation at zero. -/
def damageBarrier (bar : Barrier) : Barrier :=
  let h := bar.health - 1
  { bar with health := h, active := if h ≤ 0 then false else bar.active }

/-- Inner loop of a bullets-versus-barriers pass: scan the barriers in
storage order and damage the first active one the bullet overlaps. -/
def barrierHitScan (b : Bullet) : List Barrier → Option (List Barrier)
  | [] => none
  | bar :: rest =>
    if bar.active && checkCollision b.rect bar.rect then
      some (damageBarrier bar :: rest)
    else
      match barrierHitScan b rest with
      | some rest' => some (bar :: rest')
      | none => none

/-- Outer loop of a bullets-versus-barriers pass, on the reversed bullet
list; a hitting bullet is removed and the loop continues with the earlier
bullets. -/
def bulletsBarriersAux : List Bullet → List Barrier → List Bullet × List Barrier
  | [], bars => ([], bars)
  | b :: rest, bars =>
    match barrierHitScan b bars with
    | some bars' => bulletsBarriersAux rest bars'
    | none =>
      let (restOut, bars') := bulletsBarriersAux rest bars
      (restOut ++ [b], bars')

/-- A bullets-versus-barriers pass of `checkCollisions` (used for both the
player's and the invaders' bullets). -/
def bulletsBarriersPass (bullets : List Bullet) (bars : List Barrier) :
    List Bullet × List Barrier :=
  bulletsBarriersAux bullets.reverse bars

/-- The invader-bullets-versus-player pass, on the reversed bullet list.
The first hitting bullet is removed, costs a life and possibly ends the
game; the source's `break` then leaves the loop. -/
def invaderBulletsPlayerAux : List Bullet → Player → Int → Bool →
    List Bullet × Int × Bool
  | [], _, lives, over => ([], lives, over)
  | b :: rest, p, lives, over =>
    if checkCollision b.rect p.rect then
      (rest.reverse, lives - 1, over || decide (lives - 1 ≤ 0))
    else
      let (restOut, lives', over') := invaderBulletsPlayerAux rest p lives over
      (restOut ++ [b], lives', over')

/-- The invader-bullets-versus-player pass of `checkCollisions`. -/
def invaderBulletsPlayerPass (bullets : List Bullet) (p : Player)
    (lives : Int) (over : Bool) : List Bullet × Int × Bool :=
  invaderBulletsPlayerAux bullets.reverse p lives over

/-- Embedding of `AlienInvadersComponent.checkCollisions`: the five passes
in source order (player bullets against invaders, mother ship and barriers;
invader bullets against the player and the barriers). -/
def checkCollisions (g : Game) : Game :=
  let p1 :=
    bulletsInvadersPass g.playerBullets g.invaders g.score g.invaderSpeed g.animationSpeed
  let p2 := bulletsMotherShipPass p1.1 g.motherShip p1.2.2.1
  let p3 := bulletsBarriersPass p2.1 g.barriers
  let p4 := invaderBulletsPlayerPass g.invaderBullets g.player g.lives g.gameOver
  let p5 := bulletsBarriersPass p4.1 p3.2
  { g with
    playerBullets := p3.1
    invaders := p1.2.1
    score := p2.2.2
    invaderSpeed := p1.2.2.2.1
    animationSpeed := p1.2.2.2.2
    motherShip := p2.2.1
    barriers := p5.2
    invaderBullets := p5.1
    lives := p4.2.1
    gameOver := p4.2.2 }

/-- Embedding of `AlienInvadersComponent.createInvaders`: the 5 × 11 grid,
top row type 2, the next two rows type 1, the bottom rows type 0. -/
def createInvaders (scale : ℚ) : List Invader :=
  (List.range 5).flatMap fun row =>
    (List.range 11).map fun col =>
      { x := 180 * scale + (col : ℚ) * (50 * scale)
        y := 80 * scale + (row : ℚ) * (40 * scale)
        width := 36 * scale
        height := 24 * scale
        active := true
        type := if row = 0 then 2 else if row ≤ 2 then 1 else 0
        animFrame := 0 }

/-- Embedding of `AlienInvadersComponent.nextLevel`.  The first two speed
writes are immediately overwritten by the last two, exactly as in the
source. -/
def nextLevel (g : Game) : Game :=
  let g1 := { g with level := g.level + 1 }
  let g2 := { g1 with invaders := createInvaders g1.scale }
  let g3 := { g2 with invaderSpeed := g2.invaderSpeed + 1 / 2 }
  let g4 := { g3 with animationSpeed := max 10 (g3.animationSpeed - 2) }
  let g5 := { g4 with invaderSpeed := g4.baseInvaderSpeed + ((g4.level : ℚ) - 1) * (1 / 2) }
  { g5 with animationSpeed := max 10 (g5.baseAnimationSpeed - ((g5.level : ℚ) - 1) * 2) }

/-- The player-movement block at the top of `update`: held keys move the
tank, clamped to the canvas. -/
def updatePlayer (g : Game) : Game :=
  let px1 :=
    if g.keys.arrowLeft || g.keys.keyA then max 0 (g.player.x - g.player.speed)
    else g.player.x
  let px2 :=
    if g.keys.arrowRight || g.keys.keyD then
      min (g.canvasW - g.player.width) (px1 + g.player.speed)
    else px1
  { g with player := { g.player with x := px2 } }

/-- The invader-shooting timer block of `update`: past 1000 ms an invader
shoots and the timer resets. -/
def shootTimerStep (delta : ℚ) (g : Game) : Game :=
  let timer := g.invaderShootTimer + delta
  if (1000 : ℚ) < timer then { invaderShoot g with invaderShootTimer := 0 }
  else { g with invaderShootTimer := timer }

/-- The wave-cleared check at the bottom of `update`. -/
def winCheck (g : Game) : Game :=
  if g.invaders.all (fun inv => !inv.active) then nextLevel g else g

/-- Embedding of `AlienInvadersComponent.update(deltaTime)`: player
movement from held keys, the invader/mother-ship/bullet updates, the
collision passes, the invader shoot timer, and the wave-cleared check, in
source order. -/
def update (delta : ℚ) (g : Game) : Game :=
  winCheck (shootTimerStep delta
    (checkCollisions (updateBullets (updateMotherShip delta
      (updateInvaders delta (updatePlayer g))))))

/-- Embedding of `AlienInvadersComponent.gameLoop(timestamp)`: the frame
delta is measured against the previous frame's timestamp, `lastTime` is
always refreshed, and `update` runs only when neither paused nor over. -/
def gameLoopStep (t : ℚ) (g : Game) : Game :=
  let delta := t - g.lastTime
  let g1 := { g with lastTime := t }
  if !g1.paused && !g1.gameOver then update delta g1 else g1

/-- The keys of interest to `handleKeyDown`/`handleKeyUp`.  The restart key
re-initialises the game and is outside a single session. -/
inductive Key where
  | arrowLeft | arrowRight | keyA | keyD | space | keyP | other
  deriving DecidableEq

/-- Update the held-key map for a key transition. -/
def setKey (k : Key) (v : Bool) (ks : Keys) : Keys :=
  match k with
  | Key.arrowLeft => { ks with arrowLeft := v }
  | Key.arrowRight => { ks with arrowRight := v }
  | Key.keyA => { ks with keyA := v }
  | Key.keyD => { ks with keyD := v }
  | _ => ks

/-- Embedding of `handleKeyDown`: record the held key, shoot on space when
neither over nor paused, toggle pause on P. -/
def handleKeyDown (k : Key) (g : Game) : Game :=
  let g1 := { g with keys := setKey k true g.keys }
  match k with
  | Key.space => if !g1.gameOver && !g1.paused then shootPlayerBullet g1 else g1
  | Key.keyP => { g1 with paused := !g1.paused }
  | _ => g1

/-- Embedding of `handleKeyUp`. -/
def handleKeyUp (k : Key) (g : Game) : Game :=
  { g with keys := setKey k false g.keys }

/-- `togglePause` (the template button). -/
def togglePause (g : Game) : Game := { g with paused := !g.paused }

/-- One session operation of the invaders game. -/
inductive Op where
  | tick (t : ℚ)
  | keyDown (k : Key)
  | keyUp (k : Key)
  | pauseButton

/-- Apply one session operation. -/
def step : Op → Game → Game
  | Op.tick t => gameLoopStep t
  | Op.keyDown k => handleKeyDown k
  | Op.keyUp k => handleKeyUp k
  | Op.pauseButton => togglePause

end Invaders

namespace SpaceRocks

/-- The IEEE-754 double value of `Math.PI`, as an exact rational
(`884279719003555 / 2^48`).  All angle arithmetic of the source is done on
doubles, which are rationals; only the trigonometric functions themselves
are abstract (the `cosF`/`sinF` fields of the state). -/
def PI : ℚ := 884279719003555 / 281474976710656

/-- A 2-D vector (`Vector` in the source). -/
structure Vec where
  x : ℚ
  y : ℚ
  deriving DecidableEq

/-- Asteroid size category. -/
inductive Size where
  | large | medium | small
  deriving DecidableEq

/-- `radiusMap = { large: 40, medium: 25, small: 15 }`. -/
def radiusMap : Size → ℚ
  | Size.large => 40
  | Size.medium => 25
  | Size.small => 15

/-- `speedMap = { large: 1, medium: 1.5, small: 2 }`. -/
def speedMap : Size → ℚ
  | Size.large => 1
  | Size.medium => 3 / 2
  | Size.small => 2

/-- `scoreMap = { large: 20, medium: 50, small: 100 }` of `destroyAsteroid`. -/
def scoreMap : Size → Int
  | Size.large => 20
  | Size.medium => 50
  | Size.small => 100

/-- One asteroid. -/
structure Asteroid where
  pos : Vec
  vel : Vec
  angle : ℚ
  rotationSpeed : ℚ
  radius : ℚ
  size : Size
  points : List Vec
  deriving DecidableEq

/-- Fallback value for the (unreachable) out-of-range list reads. -/
def defAsteroid : Asteroid :=
  { pos := ⟨0, 0⟩, vel := ⟨0, 0⟩, angle := 0, rotationSpeed := 0, radius := 0,
    size := Size.large, points := [] }

/-- One bullet. -/
structure Bullet where
  pos : Vec
  vel : Vec
  life : Int
  deriving DecidableEq

/-- One explosion particle. -/
structure Particle where
  pos : Vec
  vel : Vec
  life : Int
  maxLife : Int
  deriving DecidableEq

/-- The ship. -/
structure Ship where
  pos : Vec
  vel : Vec
  angle : ℚ
  thrust : Bool
  radius : ℚ
  deriving DecidableEq

/-- The held-key flags `update` and `shoot` read (`keys[...]` stores
lower-cased key names). -/
structure Keys where
  arrowleft : Bool
  arrowright : Bool
  arrowup : Bool
  keyA : Bool
  keyD : Bool
  keyW : Bool
  deriving DecidableEq

/-- State of `SpaceRocksGameComponent`.  `Math.random()` draws come from
the stream `rand` with cursor `ridx`; `Math.cos`/`Math.sin` are the
abstract collaborators `cosF`/`sinF`. -/
structure Game where
  ship : Ship
  asteroids : List Asteroid
  bullets : List Bullet
  particles : List Particle
  gameOver : Bool
  paused : Bool
  lastShot : ℚ
  score : Int
  lives : Int
  level : Int
  gameOverState : Bool
  keys : Keys
  canvasW : ℚ
  canvasH : ℚ
  rand : Nat → ℚ
  ridx : Nat
  cosF : ℚ → ℚ
  sinF : ℚ → ℚ

/-- Consume one `Math.random()` draw. -/
def draw1 (g : Game) : ℚ × Game :=
  (g.rand g.ridx, { g with ridx := g.ridx + 1 })

/-- One iteration of the perimeter-point loop of `createAsteroid`: one
random radial variation draw and one point on the eight-spoke fan. -/
def asteroidPointsStep (size : Size) (acc : List Vec × Game) (i : Nat) :
    List Vec × Game :=
  let d := draw1 acc.2
  let a : ℚ := PI * 2 * i / 8
  let variation := 7 / 10 + d.1 * (3 / 10)
  let radius := radiusMap size * variation
  (⟨d.2.cosF a * radius, d.2.sinF a * radius⟩ :: acc.1, d.2)

/-- Embedding of `createAsteroid(pos, size)`: a random heading
(`rand · π · 2`), a size-dependent base speed scaled by a random factor in
`[0.5, 1.0]`, eight perimeter points with random radial variation, and a
random rotation speed — eleven draws in source order. -/
def createAsteroid (g : Game) (pos : Vec) (size : Size) : Asteroid × Game :=
  let dA := draw1 g
  let angle := dA.1 * PI * 2
  let dS := draw1 dA.2
  let speed := speedMap size * (1 / 2 + dS.1 * (1 / 2))
  let pr := (List.range 8).foldl (asteroidPointsStep size) ([], dS.2)
  let dR := draw1 pr.2
  ({ pos := pos
     vel := ⟨dR.2.cosF angle * speed, dR.2.sinF angle * speed⟩
     angle := 0
     rotationSpeed := (dR.1 - 1 / 2) * (1 / 20)
     radius := radiusMap size
     size := size
     points := pr.1.reverse }, dR.2)

/-- Embedding of `createExplosion(pos, count)`: `count` particles on evenly
spaced headings, each with one random speed draw. -/
def createExplosion (g : Game) (pos : Vec) (count : Nat) : Game :=
  (List.range count).foldl
    (fun gi i =>
      let (r, gj) := draw1 gi
      let a : ℚ := PI * 2 * i / count
      let speed := 2 + r * 2
      { gj with particles := gj.particles ++
          [{ pos := pos, vel := ⟨gj.cosF a * speed, gj.sinF a * speed⟩,
             life := 30, maxLife := 30 }] })
    g

/-- Embedding of `destroyAsteroid(index)`: score by size, an 8-particle
explosion, two next-smaller children pushed at the parent's position for a
large or medium parent (none for a small one), then the parent spliced
out. -/
def destroyAsteroid (g : Game) (index : Nat) : Game :=
  let ast := g.asteroids.getD index defAsteroid
  let g1 := { g with score := g.score + scoreMap ast.size }
  let g2 := createExplosion g1 ast.pos 8
  let g3 :=
    if ast.size = Size.large then
      let p1 := createAsteroid g2 ast.pos Size.medium
      let p2 := createAsteroid p1.2 ast.pos Size.medium
      { p2.2 with asteroids := p2.2.asteroids ++ [p1.1, p2.1] }
    else if ast.size = Size.medium then
      let p1 := createAsteroid g2 ast.pos Size.small
      let p2 := createAsteroid p1.2 ast.pos Size.small
      { p2.2 with asteroids := p2.2.asteroids ++ [p1.1, p2.1] }
    else g2
  { g3 with asteroids := g3.asteroids.eraseIdx index }

/-- Embedding of `destroyShip`: a 20-particle explosion, one life lost;
at zero lives the game ends, otherwise the ship is reset to the centre. -/
def destroyShip (g : Game) : Game :=
  let g1 := createExplosion g g.ship.pos 20
  let g2 := { g1 with lives := g1.lives - 1 }
  if g2.lives ≤ 0 then { g2 with gameOver := true, gameOverState := true }
  else
    { g2 with ship := { g2.ship with
        pos := ⟨g2.canvasW / 2, g2.canvasH / 2⟩
        vel := ⟨0, 0⟩
        angle := -(PI / 2) } }

/-- Embedding of `checkCircleCollision`: the source compares
`sqrt(dx² + dy²) < r1 + r2`; over the reals that is equivalent to
`0 < r1 + r2 ∧ dx² + dy² < (r1 + r2)²`, which is the rational form used
here. -/
def checkCircleCollision (p1 : Vec) (r1 : ℚ) (p2 : Vec) (r2 : ℚ) : Bool :=
  let dx := p1.x - p2.x
  let dy := p1.y - p2.y
  decide (0 < r1 + r2 ∧ dx * dx + dy * dy < (r1 + r2) * (r1 + r2))

/-- Embedding of `wrapPosition`: the source's two sequential `if`s per
axis (left/top exits teleport to the far edge, then right/bottom exits to
zero). -/
def wrapPosition (p : Vec) (width height : ℚ) : Vec :=
  let x1 := if decide (p.x < 0) then width else p.x
  let x2 := if decide (width < x1) then 0 else x1
  let y1 := if decide (p.y < 0) then height else p.y
  let y2 := if decide (height < y1) then 0 else y1
  ⟨x2, y2⟩

/-- Embedding of `updateShip`: turn by ±0.08 per held key, set the thrust
flag, add thrust impulse along the heading, apply friction 0.98, move, and
wrap. -/
def updateShip (g : Game) : Game :=
  let a1 := if g.keys.arrowleft || g.keys.keyA then g.ship.angle - 2 / 25 else g.ship.angle
  let a2 := if g.keys.arrowright || g.keys.keyD then a1 + 2 / 25 else a1
  let thrust := g.keys.arrowup || g.keys.keyW
  let v1 :=
    if thrust then
      Vec.mk (g.ship.vel.x + g.cosF a2 * (3 / 20)) (g.ship.vel.y + g.sinF a2 * (3 / 20))
    else g.ship.vel
  let v2 := Vec.mk (v1.x * (49 / 50)) (v1.y * (49 / 50))
  let pos := wrapPosition ⟨g.ship.pos.x + v2.x, g.ship.pos.y + v2.y⟩ g.canvasW g.canvasH
  { g with ship := { g.ship with angle := a2, thrust := thrust, vel := v2, pos := pos } }

/-- Embedding of `updateBullets`: move, age, wrap, and keep only bullets
with remaining life. -/
def updateBullets (g : Game) : Game :=
  let bs := (g.bullets.map fun b =>
    { b with pos := wrapPosition ⟨b.pos.x + b.vel.x, b.pos.y + b.vel.y⟩ g.canvasW g.canvasH,
             life := b.life - 1 }).filter fun b => decide (0 < b.life)
  { g with bullets := bs }

/-- Embedding of `updateAsteroids`: drift, spin, wrap. -/
def updateAsteroids (g : Game) : Game :=
  let asts := g.asteroids.map fun a =>
    { a with pos := wrapPosition ⟨a.pos.x + a.vel.x, a.pos.y + a.vel.y⟩ g.canvasW g.canvasH,
             angle := a.angle + a.rotationSpeed }
  { g with asteroids := asts }

/-- Embedding of `updateParticles`: drift with decay 0.98, age, keep only
live particles. -/
def updateParticles (g : Game) : Game :=
  let ps := (g.particles.map fun p =>
    { p with pos := ⟨p.pos.x + p.vel.x, p.pos.y + p.vel.y⟩,
             vel := ⟨p.vel.x * (49 / 50), p.vel.y * (49 / 50)⟩,
             life := p.life - 1 }).filter fun p => decide (0 < p.life)
  { g with particles := ps }

/-- The inner loop of the bullet-asteroid collision pass: the source scans
asteroid indices from the highest downwards and reacts to the first
overlap. -/
def findAsteroidHit (b : Bullet) (asts : List Asteroid) : Option Nat :=
  ((asts.enum.reverse).find? fun p =>
    checkCircleCollision b.pos 2 p.2.pos p.2.radius).map (·.1)

/-- Outer loop of the bullet-asteroid pass on the reversed bullet list: a
hitting bullet destroys the hit asteroid (which splits it and consumes
random draws) and is removed. -/
def bulletsAsteroidsAux : List Bullet → Game → List Bullet × Game
  | [], g => ([], g)
  | b :: rest, g =>
    match findAsteroidHit b g.asteroids with
    | some j => bulletsAsteroidsAux rest (destroyAsteroid g j)
    | none =>
      let (restOut, g') := bulletsAsteroidsAux rest g
      (restOut ++ [b], g')

/-- The bullet-asteroid pass of `checkCollisions`. -/
def bulletsAsteroidsPass (g : Game) : Game :=
  let p := bulletsAsteroidsAux g.bullets.reverse g
  { p.2 with bullets := p.1 }

/-- The ship-asteroid pass of `checkCollisions`: the source scans asteroid
indices from the highest downwards, and on the first overlap destroys the
ship and then that asteroid. -/
def shipAsteroidsPass (g : Game) : Game :=
  match (g.asteroids.enum.reverse).find? (fun p =>
    checkCircleCollision g.ship.pos g.ship.radius p.2.pos p.2.radius) with
  | some (j, _) => destroyAsteroid (destroyShip g) j
  | none => g

/-- Embedding of `checkCollisions`. -/
def checkCollisions (g : Game) : Game :=
  shipAsteroidsPass (bulletsAsteroidsPass g)

/-- The rejection loop of `createAsteroids` that re-draws positions until
one is at least 150 away from the ship (`Math.hypot(...) < 150` is
`dx² + dy² < 150²`), with fuel; on exhaustion the last candidate is kept
(unreachable for streams with values in `[0, 1)` and canvases that are not
almost fully covered by the exclusion disc). -/
def pickPos : Game → Nat → Vec × Game
  | g, 0 =>
    let (rx, g1) := draw1 g
    let (ry, g2) := draw1 g1
    (⟨rx * g2.canvasW, ry * g2.canvasH⟩, g2)
  | g, fuel + 1 =>
    let (rx, g1) := draw1 g
    let (ry, g2) := draw1 g1
    let pos : Vec := ⟨rx * g2.canvasW, ry * g2.canvasH⟩
    let dx := pos.x - g2.ship.pos.x
    let dy := pos.y - g2.ship.pos.y
    if decide (dx * dx + dy * dy < 150 * 150) then pickPos g2 fuel else (pos, g2)

/-- Embedding of `createAsteroids(count)`: `count` large asteroids at
ship-avoiding random positions. -/
def createAsteroids (g : Game) (count : Nat) : Game :=
  (List.range count).foldl
    (fun gi _ =>
      let pp := pickPos gi 64
      let ca := createAsteroid pp.2 pp.1 Size.large
      { ca.2 with asteroids := ca.2.asteroids ++ [ca.1] })
    g

/-- Embedding of `SpaceRocksGameComponent.update`. -/
def update (g : Game) : Game :=
  let g1 := updateShip g
  let g2 := updateBullets g1
  let g3 := updateAsteroids g2
  let g4 := updateParticles g3
  let g5 := checkCollisions g4
  if g5.asteroids.isEmpty && !g5.gameOver then
    let g6 := { g5 with level := g5.level + 1 }
    createAsteroids g6 (4 + g6.level).toNat
  else g5

/-- Embedding of the per-frame `gameLoop` body: `update` runs only when
neither paused nor over (this game's loop passes no timestamps). -/
def gameLoopStep (g : Game) : Game :=
  if !g.paused && !g.gameOver then update g else g

/-- Embedding of `shoot()`: refuse while over or paused, rate-limit by
`SHOT_DELAY = 250` against `Date.now()` (the `now` argument), then push a
bullet at the ship's nose with speed 7 plus the ship's velocity and life
60. -/
def shoot (now : ℚ) (g : Game) : Game :=
  if g.gameOver || g.paused then g
  else if decide (now - g.lastShot < 250) then g
  else
    let g1 := { g with lastShot := now }
    let b : Bullet :=
      { pos := ⟨g1.ship.pos.x + g1.cosF g1.ship.angle * g1.ship.radius,
                g1.ship.pos.y + g1.sinF g1.ship.angle * g1.ship.radius⟩
        vel := ⟨g1.cosF g1.ship.angle * 7 + g1.ship.vel.x,
                g1.sinF g1.ship.angle * 7 + g1.ship.vel.y⟩
        life := 60 }
    { g1 with bullets := g1.bullets ++ [b] }

/-- The keys of interest to the key handlers.  The restart key re-runs
`initGame` and is outside a single session; Escape only emits the exit
event. -/
inductive Key where
  | arrowleft | arrowright | arrowup | keyA | keyD | keyW | space | keyP | other
  deriving DecidableEq

/-- Update the held-key map for a key transition. -/
def setKey (k : Key) (v : Bool) (ks : Keys) : Keys :=
  match k with
  | Key.arrowleft => { ks with arrowleft := v }
  | Key.arrowright => { ks with arrowright := v }
  | Key.arrowup => { ks with arrowup := v }
  | Key.keyA => { ks with keyA := v }
  | Key.keyD => { ks with keyD := v }
  | Key.keyW => { ks with keyW := v }
  | _ => ks

/-- Embedding of `handleKeyDown` (with the current `Date.now()` as `now`). -/
def handleKeyDown (k : Key) (now : ℚ) (g : Game) : Game :=
  let g1 := { g with keys := setKey k true g.keys }
  match k with
  | Key.space => shoot now g1
  | Key.keyP => { g1 with paused := !g1.paused }
  | _ => g1

/-- Embedding of `handleKeyUp`. -/
def handleKeyUp (k : Key) (g : Game) : Game :=
  { g with keys := setKey k false g.keys }

/-- One session operation of the asteroids game. -/
inductive Op where
  | tick
  | keyDown (k : Key) (now : ℚ)
  | keyUp (k : Key)

/-- Apply one session operation. -/
def step : Op → Game → Game
  | Op.tick => gameLoopStep
  | Op.keyDown k now => handleKeyDown k now
  | Op.keyUp k => handleKeyUp k

end SpaceRocks

namespace Snake

/-- Movement directions. -/
inductive Direction where
  | up | down | left | right
  deriving DecidableEq

/-- The game-state machine of the snake component. -/
inductive GState where
  | ready | playing | pausedS | over
  deriving DecidableEq

/-- A grid cell. -/
structure Point where
  x : Int
  y : Int
  deriving DecidableEq

/-- The durable key-value store (`localStorage`) restricted to the single
key `snakeHighScore` the component uses, instrumented with access
counters so that "read once" and "written only when" are statable. -/
structure Store where
  val : Option Int
  reads : Nat
  writes : Nat
  deriving DecidableEq

/-- `localStorage.getItem('snakeHighScore')`. -/
def Store.getItem (s : Store) : Option Int × Store :=
  (s.val, { s with reads := s.reads + 1 })

/-- `localStorage.setItem('snakeHighScore', v)`. -/
def Store.setItem (s : Store) (v : Int) : Store :=
  { s with val := some v, writes := s.writes + 1 }

/-- State of `SnakeGameComponent`. -/
structure Game where
  gameState : GState
  score : Int
  highScore : Int
  cols : Int
  rows : Int
  snake : List Point
  direction : Direction
  nextDirection : Direction
  apple : Point
  currentSpeed : Int
  rand : Nat → ℚ
  ridx : Nat

/-- Consume one `Math.random()` draw. -/
def draw1 (g : Game) : ℚ × Game :=
  (g.rand g.ridx, { g with ridx := g.ridx + 1 })

/-- Embedding of `loadHighScore`: one `getItem`; a stored value (a
non-empty string in JS, a `some` here) is parsed and installed. -/
def loadHighScore (g : Game) (st : Store) : Game × Store :=
  let (v, st') := st.getItem
  match v with
  | some n => ({ g with highScore := n }, st')
  | none => (g, st')

/-- Embedding of `saveHighScore`: one `setItem` with the current
high-score signal. -/
def saveHighScore (g : Game) (st : Store) : Game × Store :=
  (g, st.setItem g.highScore)

/-- Embedding of `endGame`: stop the loop, enter `GAME_OVER`, and persist
the score exactly when it strictly exceeds the high-score signal. -/
def endGame (g : Game) (st : Store) : Game × Store :=
  let g1 := { g with gameState := GState.over }
  if g1.highScore < g1.score then
    saveHighScore { g1 with highScore := g1.score } st
  else (g1, st)

/-- The rejection loop of `spawnApple`, with fuel: draw cells until one is
off the snake (two draws per attempt); on exhaustion the last candidate is
kept (unreachable while the snake does not cover the whole grid and the
stream is fair). -/
def spawnAppleAux : Game → Nat → Game
  | g, 0 =>
    let (rx, g1) := draw1 g
    let (ry, g2) := draw1 g1
    { g2 with apple := ⟨Rat.floor (rx * g2.cols), Rat.floor (ry * g2.rows)⟩ }
  | g, fuel + 1 =>
    let (rx, g1) := draw1 g
    let (ry, g2) := draw1 g1
    let cand : Point := ⟨Rat.floor (rx * g2.cols), Rat.floor (ry * g2.rows)⟩
    if g2.snake.any (fun seg => seg = cand) then spawnAppleAux g2 fuel
    else { g2 with apple := cand }

/-- `spawnApple` with the fuel bound used throughout. -/
def spawnApple (g : Game) : Game := spawnAppleAux g 4096

/-- The head cell one step onwards in a direction. -/
def stepHead (d : Direction) (p : Point) : Point :=
  match d with
  | Direction.up => ⟨p.x, p.y - 1⟩
  | Direction.down => ⟨p.x, p.y + 1⟩
  | Direction.left => ⟨p.x - 1, p.y⟩
  | Direction.right => ⟨p.x + 1, p.y⟩

/-- Embedding of `SnakeGameComponent.update`: commit the buffered
direction, compute the new head, end the game on a wall or self collision,
otherwise advance (growing on the apple, with score +10, a new apple and a
speed-up; popping the tail otherwise). -/
def update (g : Game) (st : Store) : Game × Store :=
  let g0 := { g with direction := g.nextDirection }
  let head := g0.snake.getD 0 ⟨0, 0⟩
  let newHead := stepHead g0.direction head
  if newHead.x < 0 ∨ g0.cols ≤ newHead.x ∨ newHead.y < 0 ∨ g0.rows ≤ newHead.y then
    endGame g0 st
  else if g0.snake.any (fun seg => seg = newHead) then
    endGame g0 st
  else
    let g1 := { g0 with snake := newHead :: g0.snake }
    if newHead = g1.apple then
      let g2 := spawnApple { g1 with score := g1.score + 10 }
      let g3 :=
        if 50 < g2.currentSpeed then
          { g2 with currentSpeed := max 50 (g2.currentSpeed - 5) }
        else g2
      (g3, st)
    else ({ g1 with snake := g1.snake.dropLast }, st)

/-- `pauseGame`. -/
def pauseGame (g : Game) : Game :=
  if g.gameState = GState.playing then { g with gameState := GState.pausedS } else g

/-- `resumeGame`. -/
def resumeGame (g : Game) : Game :=
  if g.gameState = GState.pausedS then { g with gameState := GState.playing } else g

/-- `startGame`. -/
def startGame (g : Game) : Game := { g with gameState := GState.playing }

/-- The keys `onKeyDown` reacts to. -/
inductive Key where
  | up | down | left | right | space | enter | keyP | other
  deriving DecidableEq

/-- Embedding of `onKeyDown`.  In `GAME_OVER`, space/enter trigger
`restartGame`, which re-initialises the session and is out of scope here
(modelled as the identity). -/
def onKeyDown (k : Key) (g : Game) : Game :=
  match g.gameState with
  | GState.ready =>
    if k = Key.space ∨ k = Key.enter then startGame g else g
  | GState.playing =>
    match k with
    | Key.up => if g.direction ≠ Direction.down then { g with nextDirection := Direction.up } else g
    | Key.down => if g.direction ≠ Direction.up then { g with nextDirection := Direction.down } else g
    | Key.left => if g.direction ≠ Direction.right then { g with nextDirection := Direction.left } else g
    | Key.right => if g.direction ≠ Direction.left then { g with nextDirection := Direction.right } else g
    | Key.space => pauseGame g
    | Key.keyP => pauseGame g
    | _ => g
  | GState.pausedS =>
    if k = Key.space ∨ k = Key.keyP then resumeGame g else g
  | GState.over => g

/-- One session operation of the snake game; every operation also carries
the store through, so storage accesses are observable. -/
inductive Op where
  | tick
  | key (k : Key)

/-- Apply one session operation. -/
def step : Op → Game × Store → Game × Store
  | Op.tick, (g, st) => update g st
  | Op.key k, (g, st) => (onKeyDown k g, st)

/-- The constructor runs `loadHighScore` on the fresh signal values; this
is the only storage read of the component. -/
def construct (st : Store) (cols rows : Int) (rand : Nat → ℚ) : Game × Store :=
  let g : Game :=
    { gameState := GState.ready, score := 0, highScore := 0, cols := cols,
      rows := rows, snake := [], direction := Direction.right,
      nextDirection := Direction.right, apple := ⟨0, 0⟩, currentSpeed := 150,
      rand := rand, ridx := 0 }
  loadHighScore g st

/-- Embedding of `initGame` (called from `ngOnInit`): centre snake of
length three, initial speed, score zero, a fresh apple, `READY`. -/
def initGame (g : Game) : Game :=
  let cx := g.cols / 2
  let cy := g.rows / 2
  let g1 := { g with
    snake := [⟨cx, cy⟩, ⟨cx - 1, cy⟩, ⟨cx - 2, cy⟩]
    direction := Direction.right
    nextDirection := Direction.right
    currentSpeed := 150
    score := 0 }
  { spawnApple g1 with gameState := GState.ready }

/-- Component startup: the constructor (with its single storage read)
followed by `ngOnInit`'s `initGame`; no further storage access. -/
def startup (st : Store) (cols rows : Int) (rand : Nat → ℚ) : Game × Store :=
  let p := construct st cols rows rand
  (initGame p.1, p.2)

end Snake

namespace Hopper

/-- Canvas width, `CANVAS_WIDTH = 896`. -/
def CANVAS_W : ℚ := 896

/-- Cell size, `CELL_SIZE = 32`. -/
def CELL : ℚ := 32

/-- Frog size, `FROG_SIZE = 24`. -/
def FROG_SIZE : ℚ := 24

/-- A `GameObject` (frog, car, log, turtle). -/
structure Obj where
  x : ℚ
  y : ℚ
  width : ℚ
  height : ℚ
  speed : ℚ
  deriving DecidableEq

/-- A snake riding a log. -/
structure RSnake where
  x : ℚ
  y : ℚ
  width : ℚ
  height : ℚ
  speed : ℚ
  logIndex : Nat
  direction : ℚ
  localX : ℚ
  deriving DecidableEq

/-- An alligator lurking in a goal slot. -/
structure Alligator where
  goalIndex : Nat
  isActive : Bool
  timer : ℚ
  activeTime : ℚ
  inactiveTime : ℚ
  deriving DecidableEq

/-- The bonus female frog. -/
structure FemaleFrog where
  goalIndex : Nat
  isActive : Bool
  timer : ℚ
  duration : ℚ
  deriving DecidableEq

/-- State of `HopperComponent`. -/
structure Game where
  frog : Obj
  cars : List Obj
  logs : List Obj
  turtles : List Obj
  snakes : List RSnake
  alligators : List Alligator
  femaleFrog : Option FemaleFrog
  score : Int
  lives : Int
  gameOver : Bool
  won : Bool
  level : Int
  goals : List Bool
  rand : Nat → ℚ
  ridx : Nat

/-- Consume one `Math.random()` draw. -/
def draw1 (g : Game) : ℚ × Game :=
  (g.rand g.ridx, { g with ridx := g.ridx + 1 })

/-- Shorthand for the obstacle rows of `createObstacles`. -/
def mkObj (x y w s : ℚ) : Obj := { x := x, y := y, width := w, height := 24, speed := s }

/-- The fixed car/log/turtle rows of `createObstacles`, scaled by the
level's speed multiplier, and the level-dependent log snakes. -/
def baseObstacles (g : Game) : Game :=
  let m : ℚ := 3 / 10 + ((g.level : ℚ) - 1) * (3 / 20)
  { g with
    cars := [
      mkObj 0 (8 * CELL) 48 (2 * m), mkObj 200 (8 * CELL) 48 (2 * m),
      mkObj 400 (8 * CELL) 48 (2 * m), mkObj 600 (8 * CELL) 48 (2 * m),
      mkObj 0 (9 * CELL) 40 (-(3 / 2) * m), mkObj 250 (9 * CELL) 40 (-(3 / 2) * m),
      mkObj 500 (9 * CELL) 40 (-(3 / 2) * m), mkObj 750 (9 * CELL) 40 (-(3 / 2) * m),
      mkObj 0 (10 * CELL) 56 (3 * m), mkObj 300 (10 * CELL) 56 (3 * m),
      mkObj 600 (10 * CELL) 56 (3 * m),
      mkObj 0 (11 * CELL) 40 (-(5 / 2) * m), mkObj 220 (11 * CELL) 40 (-(5 / 2) * m),
      mkObj 440 (11 * CELL) 40 (-(5 / 2) * m), mkObj 660 (11 * CELL) 40 (-(5 / 2) * m),
      mkObj 0 (12 * CELL) 48 ((3 / 2) * m), mkObj 250 (12 * CELL) 48 ((3 / 2) * m),
      mkObj 500 (12 * CELL) 48 ((3 / 2) * m), mkObj 750 (12 * CELL) 48 ((3 / 2) * m)]
    logs := [
      mkObj 0 (2 * CELL) 128 ((3 / 2) * m), mkObj 300 (2 * CELL) 128 ((3 / 2) * m),
      mkObj 600 (2 * CELL) 128 ((3 / 2) * m),
      mkObj 0 (3 * CELL) 160 (-2 * m), mkObj 350 (3 * CELL) 160 (-2 * m),
      mkObj 700 (3 * CELL) 160 (-2 * m),
      mkObj 0 (5 * CELL) 96 ((5 / 2) * m), mkObj 250 (5 * CELL) 96 ((5 / 2) * m),
      mkObj 500 (5 * CELL) 96 ((5 / 2) * m), mkObj 750 (5 * CELL) 96 ((5 / 2) * m)]
    turtles := [
      mkObj 0 (4 * CELL) 72 (-1 * m), mkObj 220 (4 * CELL) 72 (-1 * m),
      mkObj 440 (4 * CELL) 72 (-1 * m), mkObj 660 (4 * CELL) 72 (-1 * m),
      mkObj 0 (6 * CELL) 80 ((9 / 5) * m), mkObj 250 (6 * CELL) 80 ((9 / 5) * m),
      mkObj 500 (6 * CELL) 80 ((9 / 5) * m), mkObj 750 (6 * CELL) 80 ((9 / 5) * m)]
    snakes :=
      (if 2 ≤ g.level then
        [({ x := 0, y := 2 * CELL, width := 32, height := 20, speed := 4 / 5,
            logIndex := 1, direction := 1, localX := 20 } : RSnake)]
       else []) ++
      (if 3 ≤ g.level then
        [({ x := 0, y := 3 * CELL, width := 32, height := 20, speed := 4 / 5,
            logIndex := 4, direction := -1, localX := 80 } : RSnake)]
       else []) ++
      (if 5 ≤ g.level then
        [({ x := 0, y := 5 * CELL, width := 32, height := 20, speed := 4 / 5,
            logIndex := 7, direction := 1, localX := 30 } : RSnake)]
       else []) }

/-- The level-gated alligator block of `createObstacles`: one random timer
draw per alligator slot. -/
def alligatorSetup (g0 : Game) : Game :=
  if (3 : Int) ≤ g0.level then
    let alligatorGoals : List Nat :=
      if (6 : Int) ≤ g0.level then [0, 2, 4]
      else if (4 : Int) ≤ g0.level then [1, 3] else [2]
    alligatorGoals.foldl
      (fun gi goalIndex =>
        let (r, gj) := draw1 gi
        { gj with alligators := gj.alligators ++
            [{ goalIndex := goalIndex, isActive := false, timer := r * 180 + 60,
               activeTime := 120, inactiveTime := 180 }] })
      { g0 with alligators := [] }
  else { g0 with alligators := [] }

/-- The optional-female-frog block of `createObstacles`: one probability
draw, then one slot draw when an empty goal exists. -/
def femaleFrogSetup (g2 : Game) : Game :=
  if 2 ≤ g2.level then
    let (r, g3) := draw1 g2
    if decide (r < 3 / 10) then
      let emptyGoals := (List.range 5).filter fun i => !(g3.goals.getD i false)
      if emptyGoals.isEmpty then g3
      else
        let (r2, g4) := draw1 g3
        let chosen := emptyGoals.getD (Rat.floor (r2 * emptyGoals.length)).toNat 0
        let ff : FemaleFrog :=
          { goalIndex := chosen, isActive := true, timer := 600, duration := 600 }
        { g4 with femaleFrog := some ff }
    else g3
  else g2

/-- Embedding of `createObstacles`: the fixed car/log/turtle rows and the
log snakes, the level-dependent alligators, and (after clearing the old
female frog) the optional new female frog. -/
def createObstacles (g : Game) : Game :=
  femaleFrogSetup { alligatorSetup (baseObstacles g) with femaleFrog := none }

/-- The wrap-around movement of cars/logs/turtles: advance by the signed
speed, then the source's two sequential edge teleports. -/
def moveWrap (o : Obj) : Obj :=
  let x1 := o.x + o.speed
  let x2 := if decide (0 < o.speed) ∧ decide (CANVAS_W < x1) then -o.width else x1
  let x3 := if decide (o.speed < 0) ∧ decide (x2 < -o.width) then CANVAS_W else x2
  { o with x := x3 }

/-- One log snake's update: pace along its log (bouncing at the ends) and
inherit the log's position and speed (`logs[logIndex]` is in range in every
reachable state; out of range is modelled by a default log). -/
def moveSnake (logs : List Obj) (s : RSnake) : RSnake :=
  let log := logs.getD s.logIndex (mkObj 0 0 0 0)
  let lx1 := s.localX + s.speed * s.direction
  let bounce := decide (lx1 ≤ 0) ∨ decide (log.width - s.width ≤ lx1)
  let dir := if bounce then -s.direction else s.direction
  let lx2 := if bounce then max 0 (min (log.width - s.width) lx1) else lx1
  { s with direction := dir, localX := lx2, x := log.x + lx2, y := log.y, speed := log.speed }

/-- One alligator's update: count down, toggle at zero, reload the timer. -/
def moveAlligator (a : Alligator) : Alligator :=
  let t := a.timer - 1
  if t ≤ 0 then
    let act := !a.isActive
    { a with isActive := act, timer := if act then a.activeTime else a.inactiveTime }
  else { a with timer := t }

/-- `loseLife`: one life fewer; at zero the game ends, otherwise the frog
resets to the start cell. -/
def loseLife (g : Game) : Game :=
  let g1 := { g with lives := g.lives - 1 }
  if g1.lives ≤ 0 then { g1 with gameOver := true }
  else { g1 with frog := { g1.frog with x := 14 * CELL, y := 14 * CELL } }

/-- `resetFrog`. -/
def resetFrog (g : Game) : Game :=
  { g with frog := { g.frog with x := 14 * CELL, y := 14 * CELL } }

/-- Embedding of `checkOverlap`. -/
def checkOverlap (ax ay aw ah bx b_y bw bh : ℚ) : Bool :=
  decide (ax < bx + bw ∧ bx < ax + aw ∧ ay < b_y + bh ∧ b_y < ay + ah)

/-- Overlap of the frog with a plain obstacle. -/
def frogHits (f : Obj) (o : Obj) : Bool :=
  checkOverlap f.x f.y f.width f.height o.x o.y o.width o.height

/-- Overlap of the frog with a log snake. -/
def frogHitsSnake (f : Obj) (s : RSnake) : Bool :=
  checkOverlap f.x f.y f.width f.height s.x s.y s.width s.height

/-- The goal-row branch of `checkCollisions` (frog row 1). -/
def goalRowCheck (g : Game) : Game :=
  let goalIndex : Int := Rat.floor ((g.frog.x + FROG_SIZE / 2) / (CANVAS_W / 5))
  let goalX : ℚ := (goalIndex : ℚ) * (CANVAS_W / 5) + 60
  if 0 ≤ goalIndex ∧ goalIndex < 5 ∧
      decide (goalX < g.frog.x + FROG_SIZE) ∧ decide (g.frog.x < goalX + 80) then
    let gator := g.alligators.find? fun a => (a.goalIndex : Int) = goalIndex
    if (gator.map (·.isActive)).getD false then loseLife g
    else
      let idx := goalIndex.toNat
      let hitFemale : Bool :=
        match g.femaleFrog with
        | some f => decide (f.goalIndex = idx) && f.isActive
        | none => false
      let bonus : Int := if hitFemale then 500 else 0
      let g1 := if hitFemale then { g with femaleFrog := none } else g
      if !(g1.goals.getD idx false) then
        let g2 := { g1 with goals := g1.goals.set idx true,
                            score := g1.score + 100 + bonus }
        let g3 := resetFrog g2
        if g3.goals.all id then
          let g4 := { g3 with level := g3.level + 1,
                              goals := [false, false, false, false, false] }
          resetFrog (createObstacles g4)
        else g3
      else loseLife g1
  else loseLife g

/-- The river branch of `checkCollisions` (frog rows 2–6): ride every
overlapping platform (the frog's `x` moves during the scan, as in the
source's `forEach`), drown when on no platform or carried off screen,
then die once per overlapping snake. -/
def riverRowCheck (g : Game) : Game :=
  let scan := (g.logs ++ g.turtles).foldl
    (fun (acc : Obj × Bool) p =>
      if frogHits acc.1 p then ({ acc.1 with x := acc.1.x + p.speed }, true) else acc)
    (g.frog, false)
  let g1 := { g with frog := scan.1 }
  if !scan.2 ∨ decide (g1.frog.x < 0) ∨ decide (CANVAS_W - FROG_SIZE < g1.frog.x) then
    loseLife g1
  else
    g1.snakes.foldl (fun gi s => if frogHitsSnake gi.frog s then loseLife gi else gi) g1

/-- The road branch of `checkCollisions` (frog rows 8–12): die once per
overlapping car, rechecking against the frog position current at each
step of the source's `forEach`. -/
def roadRowCheck (g : Game) : Game :=
  g.cars.foldl (fun gi c => if frogHits gi.frog c then loseLife gi else gi) g

/-- Embedding of `HopperComponent.checkCollisions`, dispatching on the
frog's row. -/
def checkCollisions (g : Game) : Game :=
  let frogRow : Int := Rat.floor (g.frog.y / CELL)
  if frogRow = 1 then goalRowCheck g
  else if 2 ≤ frogRow ∧ frogRow ≤ 6 then riverRowCheck g
  else if 8 ≤ frogRow ∧ frogRow ≤ 12 then roadRowCheck g
  else g

/-- Embedding of `HopperComponent.update`: frozen once over or won;
otherwise move every obstacle class, run the alligator and female-frog
timers, and check collisions. -/
def update (g : Game) : Game :=
  if g.gameOver || g.won then g
  else
    let g1 := { g with
      cars := g.cars.map moveWrap
      logs := g.logs.map moveWrap
      turtles := g.turtles.map moveWrap }
    let g2 := { g1 with snakes := g1.snakes.map (moveSnake g1.logs) }
    let g3 := { g2 with alligators := g2.alligators.map moveAlligator }
    let g4 :=
      match g3.femaleFrog with
      | some f =>
        let t := f.timer - 1
        if t ≤ 0 then { g3 with femaleFrog := none }
        else { g3 with femaleFrog := some { f with timer := t } }
      | none => g3
    checkCollisions g4

/-- The keys of interest to `handleKeyDown`.  Enter restarts a finished
game and is outside a single session. -/
inductive Key where
  | up | down | left | right | keyN | other
  deriving DecidableEq

/-- Embedding of `handleKeyDown`: the N cheat advances the level and
regenerates obstacles; hops move one cell inside the bounds, an upward
hop scoring 10. -/
def handleKeyDown (k : Key) (g : Game) : Game :=
  if k = Key.keyN then
    let g1 := { g with level := g.level + 1,
                       goals := [false, false, false, false, false] }
    resetFrog (createObstacles g1)
  else if g.gameOver || g.won then g
  else
    match k with
    | Key.up =>
      if decide (CELL < g.frog.y) then
        { g with frog := { g.frog with y := g.frog.y - CELL }, score := g.score + 10 }
      else g
    | Key.down =>
      if decide (g.frog.y < 14 * CELL) then
        { g with frog := { g.frog with y := g.frog.y + CELL } }
      else g
    | Key.left =>
      if decide (0 < g.frog.x) then
        { g with frog := { g.frog with x := g.frog.x - CELL } }
      else g
    | Key.right =>
      if decide (g.frog.x < CANVAS_W - FROG_SIZE) then
        { g with frog := { g.frog with x := g.frog.x + CELL } }
      else g
    | _ => g

/-- One session operation of the frog-crossing game. -/
inductive Op where
  | tick
  | key (k : Key)

/-- Apply one session operation. -/
def step : Op → Game → Game
  | Op.tick => update
  | Op.key k => handleKeyDown k

end Hopper

namespace Bustout

/-- One brick; `color` is the index into the component's palette
(`row % colors.length`). -/
structure Brick where
  x : ℚ
  y : ℚ
  width : ℚ
  height : ℚ
  active : Bool
  color : Nat
  points : Int
  deriving DecidableEq

/-- One ball. -/
structure Ball where
  x : ℚ
  y : ℚ
  dx : ℚ
  dy : ℚ
  radius : ℚ
  deriving DecidableEq

/-- State of `BustoutGameComponent`. -/
structure Game where
  gameStarted : Bool
  gameOver : Bool
  score : Int
  lives : Int
  level : Int
  paddleWidth : ℚ
  paddleHeight : ℚ
  paddleX : ℚ
  paddleSpeed : ℚ
  rightPressed : Bool
  leftPressed : Bool
  balls : List Ball
  ballSpeed : ℚ
  bricks : List Brick
  brickWidth : ℚ
  canvasW : ℚ
  canvasH : ℚ
  rand : Nat → ℚ
  ridx : Nat

/-- Consume one `Math.random()` draw. -/
def draw1 (g : Game) : ℚ × Game :=
  (g.rand g.ridx, { g with ridx := g.ridx + 1 })

/-- Embedding of `initBricks`: 8 rows of 14 bricks; row `r` is worth
`(8 - r) * 10` points and wears palette colour `r % 8`. -/
def initBricks (g : Game) : Game :=
  { g with bricks :=
      (List.range 8).flatMap fun row =>
        (List.range 14).map fun col =>
          { x := (col : ℚ) * (g.brickWidth + 4) + 4
            y := (row : ℚ) * (20 + 4) + 60
            width := g.brickWidth
            height := 20
            active := true
            color := row % 8
            points := (8 - (row : Int)) * 10 } }

/-- The fresh ball pushed by `startGame`, the respawn after a lost life,
and the level-up reset: centred above the bottom, horizontal direction by
one random draw. -/
def freshBall (g : Game) : Ball × Game :=
  let (r, g1) := draw1 g
  ({ x := g1.canvasW / 2
     y := g1.canvasH - 100
     dx := g1.ballSpeed * (if decide ((1 : ℚ) / 2 < r) then 1 else -1)
     dy := -g1.ballSpeed
     radius := 6 }, g1)

/-- Inner loop of one ball's brick collision: scan the bricks in storage
order and deactivate the first active one the ball overlaps, reporting its
points. -/
def brickScan (b : Ball) : List Brick → Option (List Brick × Int)
  | [] => none
  | br :: rest =>
    if br.active && decide (br.x < b.x + b.radius ∧ b.x - b.radius < br.x + br.width ∧
        br.y < b.y + b.radius ∧ b.y - b.radius < br.y + br.height) then
      some ({ br with active := false } :: rest, br.points)
    else
      match brickScan b rest with
      | some (rest', pts) => some (br :: rest', pts)
      | none => none

/-- One ball's movement and wall/top/paddle handling inside `update`. -/
def moveBall (g : Game) (b0 : Ball) : Ball :=
  let b1 := { b0 with x := b0.x + b0.dx, y := b0.y + b0.dy }
  let b2 :=
    if decide (g.canvasW < b1.x + b1.radius ∨ b1.x - b1.radius < 0) then
      { b1 with dx := -b1.dx }
    else b1
  let b3 := if decide (b2.y - b2.radius < 0) then { b2 with dy := -b2.dy } else b2
  if decide (g.canvasH - g.paddleHeight - 20 < b3.y + b3.radius ∧
      b3.y + b3.radius < g.canvasH - 15 ∧
      g.paddleX < b3.x ∧ b3.x < g.paddleX + g.paddleWidth) then
    let hitPos := (b3.x - g.paddleX) / g.paddleWidth
    { b3 with dx := (hitPos - 1 / 2) * g.ballSpeed * 2, dy := -|b3.dy| }
  else b3

/-- The reverse-index ball loop of `update`, on the reversed ball list.
`kept` accumulates the already-processed (later) surviving balls; a ball
leaving the bottom is spliced out, and when it was the last ball in the
array a life is lost and (unless the game ends) one respawn ball is
pushed; a surviving ball then reacts to its first overlapping brick. -/
def ballsAux : List Ball → List Ball → Game → Game
  | [], kept, g => { g with balls := kept }
  | b0 :: rest, kept, g =>
    let b := moveBall g b0
    if decide (g.canvasH < b.y + b.radius) then
      if rest.length + kept.length = 0 then
        let g1 := { g with lives := g.lives - 1 }
        if g1.lives ≤ 0 then
          ballsAux rest kept { g1 with gameOver := true, gameStarted := false }
        else
          let fb := freshBall g1
          ballsAux rest (kept ++ [fb.1]) fb.2
      else ballsAux rest kept g
    else
      match brickScan b g.bricks with
      | some (bricks', pts) =>
        ballsAux rest ({ b with dy := -b.dy } :: kept)
          { g with bricks := bricks', score := g.score + pts }
      | none => ballsAux rest (b :: kept) g

/-- The held-key paddle movement at the top of `update`. -/
def paddleStep (g : Game) : Game :=
  let px1 :=
    if g.rightPressed && decide (g.paddleX < g.canvasW - g.paddleWidth) then
      g.paddleX + g.paddleSpeed
    else g.paddleX
  let px2 :=
    if g.leftPressed && decide (0 < px1) then px1 - g.paddleSpeed else px1
  { g with paddleX := px2 }

/-- The all-bricks-destroyed level-up at the bottom of `update`. -/
def levelUp (g1 : Game) : Game :=
  if (g1.bricks.filter (·.active)).length = 0 then
    let g2 := { g1 with level := g1.level + 1, ballSpeed := g1.ballSpeed + 1 / 2 }
    let g3 := initBricks g2
    let fb := freshBall g3
    { fb.2 with balls := [fb.1] }
  else g1

/-- Embedding of `BustoutGameComponent.update`: paddle movement from held
keys, the ball loop, then the all-bricks-destroyed level-up. -/
def update (g : Game) : Game :=
  levelUp (ballsAux g.balls.reverse [] (paddleStep g))

/-- Embedding of `startGame`: mark the game running and push the single
initial ball (the score is not reset here; only `resetGame` does that). -/
def startGame (g : Game) : Game :=
  let g1 := { g with gameStarted := true, gameOver := false }
  let fb := freshBall g1
  { fb.2 with balls := [fb.1] }

/-- The keys of interest to the key handlers.  The restart key calls
`resetGame` and is outside a single session. -/
inductive Key where
  | right | left | space | other
  deriving DecidableEq

/-- Embedding of `handleKeyDown`. -/
def handleKeyDown (k : Key) (g : Game) : Game :=
  match k with
  | Key.right => { g with rightPressed := true }
  | Key.left => { g with leftPressed := true }
  | Key.space => if !g.gameStarted then startGame g else g
  | Key.other => g

/-- Embedding of `handleKeyUp`. -/
def handleKeyUp (k : Key) (g : Game) : Game :=
  match k with
  | Key.right => { g with rightPressed := false }
  | Key.left => { g with leftPressed := false }
  | _ => g

/-- Embedding of `handleMouseMove` with the canvas-relative x. -/
def handleMouseMove (relativeX : ℚ) (g : Game) : Game :=
  if decide (0 < relativeX ∧ relativeX < g.canvasW) then
    { g with paddleX := relativeX - g.paddleWidth / 2 }
  else g

/-- One session operation of the breakout game (the frame loop only runs
while started and not over, and each of its steps applies `update`). -/
inductive Op where
  | tick
  | keyDown (k : Key)
  | keyUp (k : Key)
  | mouseMove (relativeX : ℚ)

/-- Apply one session operation. -/
def step : Op → Game → Game
  | Op.tick => update
  | Op.keyDown k => handleKeyDown k
  | Op.keyUp k => handleKeyUp k
  | Op.mouseMove x => handleMouseMove x

end Bustout

/-! ## Theorems -/

namespace ShapeDrop

/-- The bottom-to-top scan keeps exactly the non-full rows, in order, and
counts the full rows. -/
theorem clearScan_eq (l : List Row) :
    clearScan l = (l.filter (fun r => !rowFull r), l.countP (fun r => rowFull r)) := by
  induction l with
  | nil => rfl
  | cons r rest ih =>
    simp only [clearScan, ih, List.filter_cons, List.countP_cons]
    cases h : rowFull r <;> simp [h]

/-- `clearLines` drops the full rows (preserving the order of the others),
prepends one empty row per removal, and returns the number of full rows. -/
theorem clearLines_eq (b : Board) :
    clearLines b =
      (List.replicate (b.countP (fun r => rowFull r)) emptyRow ++
        b.filter (fun r => !rowFull r),
       b.countP (fun r => rowFull r)) := by
  simp [clearLines, clearScan_eq, List.filter_reverse, List.countP_reverse,
    List.reverse_reverse]

end ShapeDrop

/-- C1: After a piece locks, clearing scans rows bottom-to-top, removes
every row with no empty cell, unshifts one new empty row at the top per
removal, and re-checks the same index after a removal.  First conjunct: on
every board the result is the non-full rows in their original relative
order under one fresh empty row per removed full row, with the cleared
count equal to the number of full rows.  Second conjunct: for any
20-row board in which exactly rows 2 and 5 are full and all other rows
are partial, the result removes those two rows, inserts two empty rows at
the top, keeps the remaining rows in order, and returns cleared-count 2. -/
theorem clearLines_spec :
    (∀ b : ShapeDrop.Board,
      ShapeDrop.clearLines b =
        (List.replicate (b.countP (fun r => ShapeDrop.rowFull r)) ShapeDrop.emptyRow ++
          b.filter (fun r => !ShapeDrop.rowFull r),
         b.countP (fun r => ShapeDrop.rowFull r))) ∧
    (∀ r0 r1 f2 r3 r4 f5 r6 r7 r8 r9 r10 r11 r12 r13 r14 r15 r16 r17 r18 r19 :
        ShapeDrop.Row,
      ShapeDrop.rowFull f2 = true → ShapeDrop.rowFull f5 = true →
      ShapeDrop.rowFull r0 = false → ShapeDrop.rowFull r1 = false →
      ShapeDrop.rowFull r3 = false → ShapeDrop.rowFull r4 = false →
      ShapeDrop.rowFull r6 = false → ShapeDrop.rowFull r7 = false →
      ShapeDrop.rowFull r8 = false → ShapeDrop.rowFull r9 = false →
      ShapeDrop.rowFull r10 = false → ShapeDrop.rowFull r11 = false →
      ShapeDrop.rowFull r12 = false → ShapeDrop.rowFull r13 = false →
      ShapeDrop.rowFull r14 = false → ShapeDrop.rowFull r15 = false →
      ShapeDrop.rowFull r16 = false → ShapeDrop.rowFull r17 = false →
      ShapeDrop.rowFull r18 = false → ShapeDrop.rowFull r19 = false →
      ShapeDrop.clearLines
          [r0, r1, f2, r3, r4, f5, r6, r7, r8, r9, r10, r11, r12, r13, r14,
           r15, r16, r17, r18, r19] =
        (ShapeDrop.emptyRow :: ShapeDrop.emptyRow ::
          [r0, r1, r3, r4, r6, r7, r8, r9, r10, r11, r12, r13, r14, r15, r16,
           r17, r18, r19], 2)) := by
  constructor
  · exact ShapeDrop.clearLines_eq
  · intro r0 r1 f2 r3 r4 f5 r6 r7 r8 r9 r10 r11 r12 r13 r14 r15 r16 r17 r18 r19
      h2 h5 h0 h1 h3 h4 h6 h7 h8 h9 h10 h11 h12 h13 h14 h15 h16 h17 h18 h19
    rw [ShapeDrop.clearLines_eq]
    simp [List.filter_cons, List.countP_cons, h0, h1, h2, h3, h4, h5, h6, h7,
      h8, h9, h10, h11, h12, h13, h14, h15, h16, h17, h18, h19,
      List.replicate_succ]

/-- Witness for `clearLines_spec` on a concrete board: rows 2 and 5 full of
ones, every other row a single block. -/
theorem clearLines_spec_witness :
    ShapeDrop.clearLines
        [1 :: List.replicate 9 0, 1 :: List.replicate 9 0, List.replicate 10 1,
         1 :: List.replicate 9 0, 1 :: List.replicate 9 0, List.replicate 10 1,
         1 :: List.replicate 9 0, 1 :: List.replicate 9 0, 1 :: List.replicate 9 0,
         1 :: List.replicate 9 0, 1 :: List.replicate 9 0, 1 :: List.replicate 9 0,
         1 :: List.replicate 9 0, 1 :: List.replicate 9 0, 1 :: List.replicate 9 0,
         1 :: List.replicate 9 0, 1 :: List.replicate 9 0, 1 :: List.replicate 9 0,
         1 :: List.replicate 9 0, 1 :: List.replicate 9 0] =
      (ShapeDrop.emptyRow :: ShapeDrop.emptyRow ::
        [1 :: List.replicate 9 0, 1 :: List.replicate 9 0, 1 :: List.replicate 9 0,
         1 :: List.replicate 9 0, 1 :: List.replicate 9 0, 1 :: List.replicate 9 0,
         1 :: List.replicate 9 0, 1 :: List.replicate 9 0, 1 :: List.replicate 9 0,
         1 :: List.replicate 9 0, 1 :: List.replicate 9 0, 1 :: List.replicate 9 0,
         1 :: List.replicate 9 0, 1 :: List.replicate 9 0, 1 :: List.replicate 9 0,
         1 :: List.replicate 9 0, 1 :: List.replicate 9 0, 1 :: List.replicate 9 0],
       2) :=
  clearLines_spec.2
    (1 :: List.replicate 9 0) (1 :: List.replicate 9 0) (List.replicate 10 1)
    (1 :: List.replicate 9 0) (1 :: List.replicate 9 0) (List.replicate 10 1)
    (1 :: List.replicate 9 0) (1 :: List.replicate 9 0) (1 :: List.replicate 9 0)
    (1 :: List.replicate 9 0) (1 :: List.replicate 9 0) (1 :: List.replicate 9 0)
    (1 :: List.replicate 9 0) (1 :: List.replicate 9 0) (1 :: List.replicate 9 0)
    (1 :: List.replicate 9 0) (1 :: List.replicate 9 0) (1 :: List.replicate 9 0)
    (1 :: List.replicate 9 0) (1 :: List.replicate 9 0)
    (by decide) (by decide) (by decide) (by decide) (by decide) (by decide)
    (by decide) (by decide) (by decide) (by decide) (by decide) (by decide)
    (by decide) (by decide) (by decide) (by decide) (by decide) (by decide)
    (by decide) (by decide)

namespace ShapeDrop

/-- `rotatePattern` produces as many rows as the input. -/
theorem rotatePattern_length (p : List (List Nat)) :
    (rotatePattern p).length = p.length := by
  simp [rotatePattern]

/-- Every row of `rotatePattern p` has the input's row count as length. -/
theorem rotatePattern_mem_length (p : List (List Nat)) :
    ∀ r ∈ rotatePattern p, r.length = p.length := by
  intro r hr
  simp only [rotatePattern, List.mem_map, List.mem_range] at hr
  obtain ⟨i, _, rfl⟩ := hr
  simp

/-- Cell formula of one rotation: entry `(i, j)` of the rotated pattern is
entry `(n - 1 - j, i)` of the input. -/
theorem patCell_rotatePattern (p : List (List Nat)) (i j : Nat)
    (hi : i < p.length) (hj : j < p.length) :
    patCell (rotatePattern p) i j = patCell p (p.length - 1 - j) i := by
  have hi2 : i < (rotatePattern p).length := by rw [rotatePattern_length]; exact hi
  unfold patCell
  rw [List.getD_eq_getElem _ _ hi2]
  unfold rotatePattern
  simp only [List.getElem_map, List.getElem_range]
  have hj2 : j < ((List.range p.length).map fun c =>
      patCell p (p.length - 1 - c) i).length := by simpa using hj
  rw [List.getD_eq_getElem _ _ hj2]
  simp only [List.getElem_map, List.getElem_range]
  rfl

/-- `patCell` agrees with in-range indexing. -/
theorem patCell_eq_getElem (q : List (List Nat)) (i j : Nat)
    (hi : i < q.length) (hj : j < q[i].length) :
    patCell q i j = q[i][j] := by
  unfold patCell
  rw [List.getD_eq_getElem _ _ hi, List.getD_eq_getElem _ _ hj]

end ShapeDrop

namespace ShapeDrop

/-- Cell formula of one rotation, stated against an abstract side length. -/
theorem patCell_rotatePattern_of_length (q : List (List Nat)) (n i j : Nat)
    (hq : q.length = n) (hi : i < n) (hj : j < n) :
    patCell (rotatePattern q) i j = patCell q (n - 1 - j) i := by
  subst hq; exact patCell_rotatePattern q i j hi hj

end ShapeDrop

/-- C7: applying the discrete 90° rotation `(row, col) ↦ (col, N-1-row)`
four times to any N×N pattern returns the original pattern exactly. -/
theorem rotatePattern_roundtrip (p : List (List Nat))
    (hsq : ∀ r ∈ p, r.length = p.length) :
    ShapeDrop.rotatePattern (ShapeDrop.rotatePattern (ShapeDrop.rotatePattern
      (ShapeDrop.rotatePattern p))) = p := by
  have l1 : (ShapeDrop.rotatePattern p).length = p.length :=
    ShapeDrop.rotatePattern_length p
  have l2 : (ShapeDrop.rotatePattern (ShapeDrop.rotatePattern p)).length = p.length := by
    rw [ShapeDrop.rotatePattern_length, l1]
  have l3 : (ShapeDrop.rotatePattern (ShapeDrop.rotatePattern
      (ShapeDrop.rotatePattern p))).length = p.length := by
    rw [ShapeDrop.rotatePattern_length, l2]
  have l4 : (ShapeDrop.rotatePattern (ShapeDrop.rotatePattern (ShapeDrop.rotatePattern
      (ShapeDrop.rotatePattern p)))).length = p.length := by
    rw [ShapeDrop.rotatePattern_length, l3]
  have cell : ∀ i j, i < p.length → j < p.length →
      ShapeDrop.patCell (ShapeDrop.rotatePattern (ShapeDrop.rotatePattern
        (ShapeDrop.rotatePattern (ShapeDrop.rotatePattern p)))) i j =
      ShapeDrop.patCell p i j := by
    intro i j hi hj
    rw [ShapeDrop.patCell_rotatePattern_of_length _ p.length i j l3 hi hj]
    rw [ShapeDrop.patCell_rotatePattern_of_length _ p.length _ _ l2 (by omega) hi]
    rw [ShapeDrop.patCell_rotatePattern_of_length _ p.length _ _ l1 (by omega) (by omega)]
    rw [ShapeDrop.patCell_rotatePattern_of_length _ p.length _ _ rfl (by omega) (by omega)]
    have e1 : p.length - 1 - (p.length - 1 - i) = i := by omega
    have e2 : p.length - 1 - (p.length - 1 - j) = j := by omega
    rw [e1, e2]
  apply List.ext_getElem (by rw [l4])
  intro i h1 h2
  apply List.ext_getElem
  · have m1 := ShapeDrop.rotatePattern_mem_length _ _
      (List.getElem_mem h1)
    rw [m1, l3, hsq _ (List.getElem_mem h2)]
  · intro j hj1 hj2
    have hjp : j < p.length := by
      have := hsq _ (List.getElem_mem h2)
      omega
    rw [← ShapeDrop.patCell_eq_getElem _ i j h1 hj1,
        ← ShapeDrop.patCell_eq_getElem p i j h2 hj2]
    exact cell i j h2 hjp

/-- Witness for `rotatePattern_roundtrip` on the 3×3 T piece. -/
theorem rotatePattern_roundtrip_witness :
    ShapeDrop.rotatePattern (ShapeDrop.rotatePattern (ShapeDrop.rotatePattern
      (ShapeDrop.rotatePattern [[0, 1, 0], [1, 1, 1], [0, 0, 0]]))) =
      [[0, 1, 0], [1, 1, 1], [0, 0, 0]] :=
  rotatePattern_roundtrip [[0, 1, 0], [1, 1, 1], [0, 0, 0]] (by decide)

/-- C2: the rotate action computes the 90° rotation, first tries it at the
unchanged anchor, then the kick offsets in the fixed order left 1, right 1,
left 2, right 2, up 1, accepting the first valid placement and applying
pattern and offset together; when no attempt is valid the piece's pattern
and position are unchanged.  First conjunct: the placement search equals a
first-match search over the anchor-then-kicks list.  Second conjunct: with
no valid attempt the whole game state is untouched by `rotate`. -/
theorem rotate_wall_kick_spec :
    (∀ (board : ShapeDrop.Board) (x y : Int) (pattern : List (List Nat)),
      ShapeDrop.rotateAttempt board x y pattern =
        (match ((0, 0) :: ShapeDrop.kicks).find?
            (fun k => ShapeDrop.isValidMove board (x + k.1) (y + k.2)
              (ShapeDrop.rotatePattern pattern)) with
         | some k => ((x + k.1, y + k.2), ShapeDrop.rotatePattern pattern)
         | none => ((x, y), pattern))) ∧
    (∀ g : ShapeDrop.Game,
      (((0, 0) :: ShapeDrop.kicks).find?
          (fun k => ShapeDrop.isValidMove g.board (g.posX + k.1) (g.posY + k.2)
            (ShapeDrop.rotatePattern g.pattern)) = none) →
      ShapeDrop.rotate g = g) := by
  have main : ∀ (board : ShapeDrop.Board) (x y : Int) (pattern : List (List Nat)),
      ShapeDrop.rotateAttempt board x y pattern =
        (match ((0, 0) :: ShapeDrop.kicks).find?
            (fun k => ShapeDrop.isValidMove board (x + k.1) (y + k.2)
              (ShapeDrop.rotatePattern pattern)) with
         | some k => ((x + k.1, y + k.2), ShapeDrop.rotatePattern pattern)
         | none => ((x, y), pattern)) := by
    intro board x y pattern
    unfold ShapeDrop.rotateAttempt
    rw [List.find?_cons]
    cases h : ShapeDrop.isValidMove board x y (ShapeDrop.rotatePattern pattern) with
    | true =>
      have hp : ShapeDrop.isValidMove board (x + (0 : Int)) (y + (0 : Int))
          (ShapeDrop.rotatePattern pattern) = true := by
        simpa using h
      simp [h, hp]
    | false =>
      have hp : ShapeDrop.isValidMove board (x + (0 : Int)) (y + (0 : Int))
          (ShapeDrop.rotatePattern pattern) = false := by
        simpa using h
      simp only [h, hp, Bool.false_eq_true, if_false]
  refine ⟨main, fun g hnone => ?_⟩
  unfold ShapeDrop.rotate
  rw [main g.board g.posX g.posY g.pattern, hnone]

/-- Witness for `rotate_wall_kick_spec`: a 1×1 piece parked below the
board, where the rotation and all five kicks are invalid, so `rotate`
leaves the game untouched. -/
theorem rotate_wall_kick_spec_witness :
    ShapeDrop.rotate
        { board := [], pattern := [[1]], color := 0, posX := 0, posY := 25,
          nextPattern := [[1]], nextColor := 0, pieceStream := fun _ => 0,
          pieceIdx := 0, score := 0, lines := 0, level := 1, gameOver := false,
          paused := false, dropCounter := 0, dropInterval := 1000,
          lastTime := 0 } =
      { board := [], pattern := [[1]], color := 0, posX := 0, posY := 25,
        nextPattern := [[1]], nextColor := 0, pieceStream := fun _ => 0,
        pieceIdx := 0, score := 0, lines := 0, level := 1, gameOver := false,
        paused := false, dropCounter := 0, dropInterval := 1000,
        lastTime := 0 } :=
  rotate_wall_kick_spec.2 _ (by decide)

/-- A projection untouched by every step of a fold is untouched by the
fold. -/
theorem foldl_proj {α σ β : Type _} (f : σ → α → σ) (proj : σ → β)
    (hf : ∀ s a, proj (f s a) = proj s) :
    ∀ (l : List α) (s : σ), proj (l.foldl f s) = proj s := by
  intro l
  induction l with
  | nil => intro s; rfl
  | cons a t ih => intro s; rw [List.foldl_cons, ih, hf]

namespace SpaceRocks

/-- An explosion never touches the asteroid list. -/
theorem createExplosion_asteroids (g : Game) (pos : Vec) (n : Nat) :
    (createExplosion g pos n).asteroids = g.asteroids := by
  unfold createExplosion
  refine foldl_proj _ (fun s => s.asteroids) (fun s a => ?_) _ g
  rfl

/-- An explosion never touches the score. -/
theorem createExplosion_score (g : Game) (pos : Vec) (n : Nat) :
    (createExplosion g pos n).score = g.score := by
  unfold createExplosion
  refine foldl_proj _ (fun s => s.score) (fun s a => ?_) _ g
  rfl

/-- A created asteroid sits at the requested position. -/
theorem createAsteroid_pos (g : Game) (pos : Vec) (size : Size) :
    (createAsteroid g pos size).1.pos = pos := rfl

/-- A created asteroid has the requested size. -/
theorem createAsteroid_size (g : Game) (pos : Vec) (size : Size) :
    (createAsteroid g pos size).1.size = size := rfl

/-- The point-fan fold never touches the asteroid list. -/
theorem asteroidPointsFold_asteroids (size : Size) (l : List Nat)
    (acc : List Vec × Game) :
    (l.foldl (asteroidPointsStep size) acc).2.asteroids = acc.2.asteroids := by
  refine foldl_proj _ (fun s => s.2.asteroids) (fun s a => ?_) _ acc
  rfl

/-- The point-fan fold never touches the score. -/
theorem asteroidPointsFold_score (size : Size) (l : List Nat)
    (acc : List Vec × Game) :
    (l.foldl (asteroidPointsStep size) acc).2.score = acc.2.score := by
  refine foldl_proj _ (fun s => s.2.score) (fun s a => ?_) _ acc
  rfl

/-- Creating an asteroid value does not touch the asteroid list. -/
theorem createAsteroid_asteroids (g : Game) (pos : Vec) (size : Size) :
    (createAsteroid g pos size).2.asteroids = g.asteroids := by
  unfold createAsteroid
  simp only [draw1]
  exact asteroidPointsFold_asteroids size _ _

/-- Creating an asteroid value does not touch the score. -/
theorem createAsteroid_score (g : Game) (pos : Vec) (size : Size) :
    (createAsteroid g pos size).2.score = g.score := by
  unfold createAsteroid
  simp only [draw1]
  exact asteroidPointsFold_score size _ _

end SpaceRocks

namespace SpaceRocks

/-- Asteroid-list effect of destroying a large asteroid: the parent is
spliced out and the two medium children are appended. -/
theorem destroyAsteroid_large_eq (g : Game) (i : Nat)
    (h : i < g.asteroids.length)
    (hsz : (g.asteroids.getD i defAsteroid).size = Size.large) :
    (destroyAsteroid g i).asteroids =
      g.asteroids.eraseIdx i ++
        [(createAsteroid (createExplosion
            { g with score := g.score + scoreMap Size.large }
            (g.asteroids.getD i defAsteroid).pos 8)
            (g.asteroids.getD i defAsteroid).pos Size.medium).1,
         (createAsteroid (createAsteroid (createExplosion
            { g with score := g.score + scoreMap Size.large }
            (g.asteroids.getD i defAsteroid).pos 8)
            (g.asteroids.getD i defAsteroid).pos Size.medium).2
            (g.asteroids.getD i defAsteroid).pos Size.medium).1] := by
  simp only [destroyAsteroid]
  rw [hsz, if_pos rfl]
  show ((createAsteroid _ _ _).2.asteroids ++ _).eraseIdx i = _
  rw [createAsteroid_asteroids, createAsteroid_asteroids, createExplosion_asteroids]
  exact List.eraseIdx_append_of_lt_length h _

/-- Asteroid-list effect of destroying a medium asteroid. -/
theorem destroyAsteroid_medium_eq (g : Game) (i : Nat)
    (h : i < g.asteroids.length)
    (hsz : (g.asteroids.getD i defAsteroid).size = Size.medium) :
    (destroyAsteroid g i).asteroids =
      g.asteroids.eraseIdx i ++
        [(createAsteroid (createExplosion
            { g with score := g.score + scoreMap Size.medium }
            (g.asteroids.getD i defAsteroid).pos 8)
            (g.asteroids.getD i defAsteroid).pos Size.small).1,
         (createAsteroid (createAsteroid (createExplosion
            { g with score := g.score + scoreMap Size.medium }
            (g.asteroids.getD i defAsteroid).pos 8)
            (g.asteroids.getD i defAsteroid).pos Size.small).2
            (g.asteroids.getD i defAsteroid).pos Size.small).1] := by
  simp only [destroyAsteroid]
  rw [hsz, if_neg (by decide), if_pos rfl]
  show ((createAsteroid _ _ _).2.asteroids ++ _).eraseIdx i = _
  rw [createAsteroid_asteroids, createAsteroid_asteroids, createExplosion_asteroids]
  exact List.eraseIdx_append_of_lt_length h _

end SpaceRocks

/-- C3: destroying a large asteroid removes the parent and adds exactly two
medium asteroids at the destroyed asteroid's position; a medium parent
yields exactly two small children the same way; a small parent yields no
children and awards 100 points, the highest point tier of the three
sizes. -/
theorem asteroid_split_spec (g : SpaceRocks.Game) (i : Nat)
    (h : i < g.asteroids.length) :
    ((g.asteroids.getD i SpaceRocks.defAsteroid).size = SpaceRocks.Size.large →
      ∃ c1 c2 : SpaceRocks.Asteroid,
        (SpaceRocks.destroyAsteroid g i).asteroids =
          g.asteroids.eraseIdx i ++ [c1, c2] ∧
        c1.pos = (g.asteroids.getD i SpaceRocks.defAsteroid).pos ∧
        c1.size = SpaceRocks.Size.medium ∧
        c2.pos = (g.asteroids.getD i SpaceRocks.defAsteroid).pos ∧
        c2.size = SpaceRocks.Size.medium) ∧
    ((g.asteroids.getD i SpaceRocks.defAsteroid).size = SpaceRocks.Size.medium →
      ∃ c1 c2 : SpaceRocks.Asteroid,
        (SpaceRocks.destroyAsteroid g i).asteroids =
          g.asteroids.eraseIdx i ++ [c1, c2] ∧
        c1.pos = (g.asteroids.getD i SpaceRocks.defAsteroid).pos ∧
        c1.size = SpaceRocks.Size.small ∧
        c2.pos = (g.asteroids.getD i SpaceRocks.defAsteroid).pos ∧
        c2.size = SpaceRocks.Size.small) ∧
    ((g.asteroids.getD i SpaceRocks.defAsteroid).size = SpaceRocks.Size.small →
      (SpaceRocks.destroyAsteroid g i).asteroids = g.asteroids.eraseIdx i ∧
      (SpaceRocks.destroyAsteroid g i).score =
        g.score + SpaceRocks.scoreMap SpaceRocks.Size.small ∧
      SpaceRocks.scoreMap SpaceRocks.Size.small = 100 ∧
      (∀ s, SpaceRocks.scoreMap s ≤ SpaceRocks.scoreMap SpaceRocks.Size.small)) := by
  refine ⟨?_, ?_, ?_⟩
  · intro hsz
    exact ⟨_, _, SpaceRocks.destroyAsteroid_large_eq g i h hsz,
      SpaceRocks.createAsteroid_pos _ _ _, SpaceRocks.createAsteroid_size _ _ _,
      SpaceRocks.createAsteroid_pos _ _ _, SpaceRocks.createAsteroid_size _ _ _⟩
  · intro hsz
    exact ⟨_, _, SpaceRocks.destroyAsteroid_medium_eq g i h hsz,
      SpaceRocks.createAsteroid_pos _ _ _, SpaceRocks.createAsteroid_size _ _ _,
      SpaceRocks.createAsteroid_pos _ _ _, SpaceRocks.createAsteroid_size _ _ _⟩
  · intro hsz
    simp only [SpaceRocks.destroyAsteroid]
    rw [hsz, if_neg (by decide), if_neg (by decide)]
    refine ⟨?_, ?_, rfl, ?_⟩
    · show ((SpaceRocks.createExplosion _ _ _).asteroids).eraseIdx i = _
      rw [SpaceRocks.createExplosion_asteroids]
    · show (SpaceRocks.createExplosion _ _ _).score = _
      rw [SpaceRocks.createExplosion_score]
    · intro s; cases s <;> simp [SpaceRocks.scoreMap]

/-- Witness for `asteroid_split_spec`: one large asteroid at (3, 4) splits
into exactly two medium children at (3, 4). -/
theorem asteroid_split_spec_witness :
    ∃ c1 c2 : SpaceRocks.Asteroid,
      (SpaceRocks.destroyAsteroid
          { ship := { pos := ⟨0, 0⟩, vel := ⟨0, 0⟩, angle := 0, thrust := false,
                      radius := 15 },
            asteroids := [{ pos := ⟨3, 4⟩, vel := ⟨1, 0⟩, angle := 0,
                            rotationSpeed := 0, radius := 40,
                            size := SpaceRocks.Size.large, points := [] }],
            bullets := [], particles := [], gameOver := false, paused := false,
            lastShot := 0, score := 0, lives := 3, level := 1,
            gameOverState := false,
            keys := ⟨false, false, false, false, false, false⟩,
            canvasW := 800, canvasH := 600, rand := fun _ => 0, ridx := 0,
            cosF := fun _ => 1, sinF := fun _ => 0 } 0).asteroids = [c1, c2] ∧
      c1.pos = ⟨3, 4⟩ ∧ c1.size = SpaceRocks.Size.medium ∧
      c2.pos = ⟨3, 4⟩ ∧ c2.size = SpaceRocks.Size.medium :=
  (asteroid_split_spec _ 0 (by decide)).1 (by decide)

namespace Invaders

/-- The inner scan of the player-bullets-versus-invaders pass hits exactly
the first (in storage order) active overlapping invader: it is deactivated
in place and its type reported. -/
theorem invaderHitScan_first (b : Bullet) (invs : List Invader) (j : Nat)
    (hj : j < invs.length)
    (hhit : (invs.getD j defInvader).active = true ∧
      checkCollision b.rect (invs.getD j defInvader).rect = true)
    (hmin : ∀ k, k < j →
      ¬((invs.getD k defInvader).active = true ∧
        checkCollision b.rect (invs.getD k defInvader).rect = true)) :
    invaderHitScan b invs =
      some (invs.set j { invs.getD j defInvader with active := false },
        (invs.getD j defInvader).type) := by
  induction invs generalizing j with
  | nil => cases hj
  | cons inv rest ih =>
    cases j with
    | zero =>
      simp only [List.getD_cons_zero] at hhit
      unfold invaderHitScan
      rw [if_pos (by rw [hhit.1, hhit.2]; rfl)]
      simp
    | succ j' =>
      have h0 := hmin 0 (Nat.succ_pos _)
      simp only [List.getD_cons_zero] at h0
      have h1 : (inv.active && checkCollision b.rect inv.rect) = false := by
        cases hA : inv.active <;> cases hC : checkCollision b.rect inv.rect <;>
          simp_all
      unfold invaderHitScan
      rw [h1]
      simp only [Bool.false_eq_true, if_false]
      rw [ih j' (by simpa using hj)
        (by simpa only [List.getD_cons_succ] using hhit)
        (fun k hk => by
          have := hmin (k + 1) (by omega)
          simpa only [List.getD_cons_succ] using this)]
      simp

end Invaders

/-- C5: in the invaders game's projectile-versus-obstacle pass, projectiles
are iterated in reverse insertion order (the last-pushed bullet `b` is
handled before all earlier bullets `bs`), obstacles are scanned in storage
order stopping at the first detected overlap with an active invader, that
invader absorbs the hit (it alone is deactivated), and the hitting
projectile is removed before the pass continues with the earlier
projectiles against the updated state. -/
theorem projectile_first_match_spec (bs : List Invaders.Bullet)
    (b : Invaders.Bullet) (invs : List Invaders.Invader) (sc : Int)
    (isp asp : ℚ) (j : Nat) (hj : j < invs.length)
    (hhit : (invs.getD j Invaders.defInvader).active = true ∧
      Invaders.checkCollision b.rect (invs.getD j Invaders.defInvader).rect = true)
    (hmin : ∀ k, k < j →
      ¬((invs.getD k Invaders.defInvader).active = true ∧
        Invaders.checkCollision b.rect (invs.getD k Invaders.defInvader).rect = true)) :
    Invaders.bulletsInvadersPass (bs ++ [b]) invs sc isp asp =
      Invaders.bulletsInvadersPass bs
        (invs.set j { invs.getD j Invaders.defInvader with active := false })
        (sc + Invaders.invaderPoints (invs.getD j Invaders.defInvader).type)
        (isp + 1 / 2) (max 300 (asp - 10)) := by
  unfold Invaders.bulletsInvadersPass
  rw [List.reverse_append]
  simp only [List.reverse_cons, List.reverse_nil, List.nil_append,
    List.singleton_append]
  conv_lhs => rw [Invaders.bulletsInvadersAux]
  rw [Invaders.invaderHitScan_first b invs j hj hhit hmin]

/-- Witness for `projectile_first_match_spec`: one bullet overlapping three
invaders; the first is inactive and the second (the earliest active
overlapping obstacle in storage order) absorbs the hit. -/
theorem projectile_first_match_spec_witness :
    Invaders.bulletsInvadersPass
        [{ x := 5, y := 5, width := 2, height := 2, active := true, speed := 6 }]
        [{ x := 0, y := 0, width := 10, height := 10, active := false, type := 0,
           animFrame := 0 },
         { x := 2, y := 0, width := 10, height := 10, active := true, type := 1,
           animFrame := 0 },
         { x := 4, y := 0, width := 10, height := 10, active := true, type := 2,
           animFrame := 0 }] 0 12 1000 =
      Invaders.bulletsInvadersPass []
        [{ x := 0, y := 0, width := 10, height := 10, active := false, type := 0,
           animFrame := 0 },
         { x := 2, y := 0, width := 10, height := 10, active := false, type := 1,
           animFrame := 0 },
         { x := 4, y := 0, width := 10, height := 10, active := true, type := 2,
           animFrame := 0 }] (0 + Invaders.invaderPoints 1) (12 + 1 / 2)
        (max 300 (1000 - 10)) :=
  projectile_first_match_spec []
    { x := 5, y := 5, width := 2, height := 2, active := true, speed := 6 }
    [{ x := 0, y := 0, width := 10, height := 10, active := false, type := 0,
       animFrame := 0 },
     { x := 2, y := 0, width := 10, height := 10, active := true, type := 1,
       animFrame := 0 },
     { x := 4, y := 0, width := 10, height := 10, active := true, type := 2,
       animFrame := 0 }] 0 12 1000 1 (by decide)
    (by with_unfolding_all decide)
    (by
      intro k hk
      cases k with
      | zero => with_unfolding_all decide
      | succ n => omega)

/-- In-range `getD` of a mapped list. -/
theorem getD_map_lt {α β : Type _} (f : α → β) (l : List α) (i : Nat) (d : α)
    (e : β) (h : i < l.length) :
    (l.map f).getD i e = f (l.getD i d) := by
  rw [List.getD_eq_getElem _ _ (by simpa using h), List.getD_eq_getElem _ _ h,
    List.getElem_map]

namespace Invaders

/-- The boundary probe ignores the animation counter. -/
theorem probeCross_counter (g : Game) (c : ℚ) (inv : Invader) :
    probeCross { g with animationCounter := c } inv = probeCross g inv := rfl

end Invaders

/-- C4: on a movement tick of the invader formation (the animation gate has
elapsed), if any active invader's next horizontal step would cross the
horizontal boundary then the whole formation reverses direction once and
every active invader drops by the fixed vertical increment exactly once,
with the game becoming terminal exactly when a dropped invader's bottom
edge reaches the player's row; otherwise the direction is unchanged and
every active invader advances horizontally and toggles its animation
frame. -/
theorem invader_formation_spec (g : Invaders.Game) (delta : ℚ)
    (hgate : g.animationSpeed < g.animationCounter + delta) :
    ((∃ inv ∈ g.invaders, inv.active = true ∧ Invaders.probeCross g inv = true) →
      (Invaders.updateInvaders delta g).invaderDirection = -g.invaderDirection ∧
      (Invaders.updateInvaders delta g).gameOver =
        (g.gameOver || g.invaders.any fun inv =>
          inv.active && decide (g.player.y ≤
            inv.y + g.invaderDropAmount * g.scale + inv.height)) ∧
      (∀ i, i < g.invaders.length →
        (Invaders.updateInvaders delta g).invaders.getD i Invaders.defInvader =
          (if (g.invaders.getD i Invaders.defInvader).active then
            { g.invaders.getD i Invaders.defInvader with
              x := (g.invaders.getD i Invaders.defInvader).x +
                -g.invaderDirection * g.invaderSpeed * g.scale
              y := (g.invaders.getD i Invaders.defInvader).y +
                g.invaderDropAmount * g.scale
              animFrame := ((g.invaders.getD i Invaders.defInvader).animFrame + 1) % 2 }
          else g.invaders.getD i Invaders.defInvader))) ∧
    ((∀ inv ∈ g.invaders, inv.active = true → Invaders.probeCross g inv = false) →
      (Invaders.updateInvaders delta g).invaderDirection = g.invaderDirection ∧
      (Invaders.updateInvaders delta g).gameOver = g.gameOver ∧
      (∀ i, i < g.invaders.length →
        (Invaders.updateInvaders delta g).invaders.getD i Invaders.defInvader =
          (if (g.invaders.getD i Invaders.defInvader).active then
            { g.invaders.getD i Invaders.defInvader with
              x := (g.invaders.getD i Invaders.defInvader).x +
                g.invaderDirection * g.invaderSpeed * g.scale
              animFrame := ((g.invaders.getD i Invaders.defInvader).animFrame + 1) % 2 }
          else g.invaders.getD i Invaders.defInvader))) := by
  constructor
  · intro hsome
    have hdrop : (g.invaders.any fun inv =>
        inv.active && Invaders.probeCross { g with animationCounter := 0 } inv) = true := by
      rw [List.any_eq_true]
      obtain ⟨inv, hmem, hact, hprobe⟩ := hsome
      refine ⟨inv, hmem, ?_⟩
      rw [Invaders.probeCross_counter, hact, hprobe]
      rfl
    simp only [Invaders.updateInvaders]
    rw [if_pos hgate, hdrop]
    simp only [reduceIte]
    refine ⟨trivial, ?_, ?_⟩
    · rw [List.any_map]
      have hfun : ((fun inv => inv.active &&
            decide (g.player.y ≤ inv.y + inv.height)) ∘
          (fun inv => if inv.active = true then
            { inv with y := inv.y + g.invaderDropAmount * g.scale }
          else inv)) =
          (fun inv : Invaders.Invader => inv.active &&
            decide (g.player.y ≤ inv.y + g.invaderDropAmount * g.scale + inv.height)) := by
        funext x
        cases hx : x.active <;> simp [Function.comp, hx]
      rw [hfun]
    · intro i hi
      rw [getD_map_lt _ _ i Invaders.defInvader _ (by simpa using hi),
          getD_map_lt _ _ i Invaders.defInvader _ hi]
      generalize g.invaders.getD i Invaders.defInvader = inv
      cases hact : inv.active with
      | false => simp only [hact, Bool.false_eq_true, reduceIte]
      | true => simp only [hact, reduceIte]
  · intro hnone
    have hdrop : (g.invaders.any fun inv =>
        inv.active && Invaders.probeCross { g with animationCounter := 0 } inv) = false := by
      rw [List.any_eq_false]
      intro x hx
      rw [Invaders.probeCross_counter]
      cases hax : x.active with
      | false => simp [hax]
      | true => simp [hax, hnone x hx hax]
    simp only [Invaders.updateInvaders]
    rw [if_pos hgate, hdrop]
    simp only [Bool.false_eq_true, reduceIte]
    refine ⟨trivial, trivial, ?_⟩
    intro i hi
    rw [getD_map_lt _ _ i Invaders.defInvader _ hi]

/-- Witness for `invader_formation_spec`: the 3-invader row at
x = 0, 40, 80 with direction +1, speed 10 and right boundary 100 reverses
to direction −1 on the crossing tick. -/
theorem invader_formation_spec_witness :
    (Invaders.updateInvaders 1001
      { score := 0, lives := 3, level := 1, gameOver := false, paused := false,
        player := { x := 0, y := 400, width := 52, height := 32, active := true,
                    speed := 3 },
        invaders := [
          { x := 0, y := 0, width := 12, height := 10, active := true, type := 0,
            animFrame := 0 },
          { x := 40, y := 0, width := 12, height := 10, active := true, type := 0,
            animFrame := 0 },
          { x := 80, y := 0, width := 12, height := 10, active := true, type := 0,
            animFrame := 0 }],
        invaderDirection := 1, invaderSpeed := 10, baseInvaderSpeed := 12,
        invaderDropAmount := 16, animationCounter := 0, animationSpeed := 1000,
        baseAnimationSpeed := 1000,
        motherShip := { x := -50, y := 30, width := 32, height := 14,
                        active := false, direction := 1, points := 0 },
        playerBullets := [], invaderBullets := [], barriers := [],
        keys := ⟨false, false, false, false⟩, lastTime := 0,
        invaderShootTimer := 0, motherShipTimer := 0, scale := 1,
        canvasW := 800, canvasH := 600, barrierLeftBoundary := 0,
        barrierRightBoundary := 100, rand := fun _ => 0,
        ridx := 0 }).invaderDirection = -1 := by
  have T := invader_formation_spec
    ({ score := 0, lives := 3, level := 1, gameOver := false, paused := false,
        player := { x := 0, y := 400, width := 52, height := 32, active := true,
                    speed := 3 },
        invaders := [
          { x := 0, y := 0, width := 12, height := 10, active := true, type := 0,
            animFrame := 0 },
          { x := 40, y := 0, width := 12, height := 10, active := true, type := 0,
            animFrame := 0 },
          { x := 80, y := 0, width := 12, height := 10, active := true, type := 0,
            animFrame := 0 }],
        invaderDirection := 1, invaderSpeed := 10, baseInvaderSpeed := 12,
        invaderDropAmount := 16, animationCounter := 0, animationSpeed := 1000,
        baseAnimationSpeed := 1000,
        motherShip := { x := -50, y := 30, width := 32, height := 14,
                        active := false, direction := 1, points := 0 },
        playerBullets := [], invaderBullets := [], barriers := [],
        keys := ⟨false, false, false, false⟩, lastTime := 0,
        invaderShootTimer := 0, motherShipTimer := 0, scale := 1,
        canvasW := 800, canvasH := 600, barrierLeftBoundary := 0,
        barrierRightBoundary := 100, rand := fun _ => 0,
        ridx := 0 } : Invaders.Game) 1001 (by with_unfolding_all decide)
  rw [(T.1 (by with_unfolding_all decide)).1]

namespace Invaders

/-- `invaderPoints` is always positive (`[10, 20, 40]` with default 10). -/
theorem invaderPoints_pos (t : Nat) : 0 < invaderPoints t := by
  rcases t with _ | _ | _ | t <;> simp [invaderPoints, List.getD]

/-- The invaders pass only raises the score. -/
theorem bulletsInvadersAux_score (l : List Bullet) :
    ∀ invs sc isp asp, sc ≤ (bulletsInvadersAux l invs sc isp asp).2.2.1 := by
  induction l with
  | nil => intro invs sc isp asp; exact le_refl _
  | cons b rest ih =>
    intro invs sc isp asp
    unfold bulletsInvadersAux
    cases h : invaderHitScan b invs with
    | some p =>
      calc sc ≤ sc + invaderPoints p.2 := by
            have := invaderPoints_pos p.2; omega
        _ ≤ _ := ih _ _ _ _
    | none => exact ih _ _ _ _

/-- The invaders pass never lengthens the bullet list. -/
theorem bulletsInvadersAux_len (l : List Bullet) :
    ∀ invs sc isp asp,
      (bulletsInvadersAux l invs sc isp asp).1.length ≤ l.length := by
  induction l with
  | nil => intro invs sc isp asp; exact Nat.le_refl _
  | cons b rest ih =>
    intro invs sc isp asp
    unfold bulletsInvadersAux
    cases h : invaderHitScan b invs with
    | some p =>
      calc (bulletsInvadersAux rest _ _ _ _).1.length ≤ rest.length := ih _ _ _ _
        _ ≤ (b :: rest).length := by simp
    | none =>
      have := ih invs sc isp asp
      simp only [List.length_append, List.length_cons, List.length_nil]
      omega

/-- The mother-ship pass adds a nonnegative bounty to the score. -/
theorem bulletsMotherShipAux_score (l : List Bullet) :
    ∀ ms sc, 0 ≤ ms.points → sc ≤ (bulletsMotherShipAux l ms sc).2.2 := by
  induction l with
  | nil => intro ms sc _; exact le_refl _
  | cons b rest ih =>
    intro ms sc hp
    unfold bulletsMotherShipAux
    cases h : ms.active && checkCollision b.rect ms.rect with
    | true => simp only [h, if_true]; omega
    | false =>
      simp only [h, Bool.false_eq_true, if_false]
      exact ih _ _ hp

/-- The mother-ship pass keeps the bounty value. -/
theorem bulletsMotherShipAux_points (l : List Bullet) :
    ∀ ms sc, (bulletsMotherShipAux l ms sc).2.1.points = ms.points := by
  induction l with
  | nil => intro ms sc; rfl
  | cons b rest ih =>
    intro ms sc
    unfold bulletsMotherShipAux
    cases h : ms.active && checkCollision b.rect ms.rect with
    | true => simp only [h, if_true]
    | false =>
      simp only [h, Bool.false_eq_true, if_false]
      exact ih _ _

/-- The mother-ship pass never lengthens the bullet list. -/
theorem bulletsMotherShipAux_len (l : List Bullet) :
    ∀ ms sc, (bulletsMotherShipAux l ms sc).1.length ≤ l.length := by
  induction l with
  | nil => intro ms sc; exact Nat.le_refl _
  | cons b rest ih =>
    intro ms sc
    unfold bulletsMotherShipAux
    cases h : ms.active && checkCollision b.rect ms.rect with
    | true => simp [h]
    | false =>
      have := ih ms sc
      simp only [h, Bool.false_eq_true, if_false, List.length_append,
        List.length_cons, List.length_nil]
      omega

/-- The barrier passes never lengthen the bullet list. -/
theorem bulletsBarriersAux_len (l : List Bullet) :
    ∀ bars, (bulletsBarriersAux l bars).1.length ≤ l.length := by
  induction l with
  | nil => intro bars; exact Nat.le_refl _
  | cons b rest ih =>
    intro bars
    unfold bulletsBarriersAux
    cases h : barrierHitScan b bars with
    | some bars2 =>
      calc (bulletsBarriersAux rest bars2).1.length ≤ rest.length := ih _
        _ ≤ (b :: rest).length := by simp
    | none =>
      have := ih bars
      simp only [List.length_append, List.length_cons, List.length_nil]
      omega

/-- The player pass only lowers the life count. -/
theorem invaderBulletsPlayerAux_lives (l : List Bullet) :
    ∀ p lives over, (invaderBulletsPlayerAux l p lives over).2.1 ≤ lives := by
  induction l with
  | nil => intro p lives over; exact le_refl _
  | cons b rest ih =>
    intro p lives over
    unfold invaderBulletsPlayerAux
    cases h : checkCollision b.rect p.rect with
    | true => simp only [h, if_true]; omega
    | false =>
      simp only [h, Bool.false_eq_true, if_false]
      exact ih _ _ _

/-- The player pass never lengthens the bullet list. -/
theorem invaderBulletsPlayerAux_len (l : List Bullet) :
    ∀ p lives over, (invaderBulletsPlayerAux l p lives over).1.length ≤ l.length := by
  induction l with
  | nil => intro p lives over; exact Nat.le_refl _
  | cons b rest ih =>
    intro p lives over
    unfold invaderBulletsPlayerAux
    cases h : checkCollision b.rect p.rect with
    | true => simp [h]
    | false =>
      have := ih p lives over
      simp only [h, Bool.false_eq_true, if_false, List.length_append,
        List.length_cons, List.length_nil]
      omega

end Invaders

namespace Invaders

/-- The invader movement step leaves score, lives, level, the bullets, the
mother ship and the pause flag unchanged. -/
theorem updateInvaders_fields (delta : ℚ) (g : Game) :
    (updateInvaders delta g).score = g.score ∧
    (updateInvaders delta g).lives = g.lives ∧
    (updateInvaders delta g).level = g.level ∧
    (updateInvaders delta g).playerBullets = g.playerBullets ∧
    (updateInvaders delta g).invaderBullets = g.invaderBullets ∧
    (updateInvaders delta g).motherShip = g.motherShip ∧
    (updateInvaders delta g).invaderShootTimer = g.invaderShootTimer ∧
    (updateInvaders delta g).motherShipTimer = g.motherShipTimer := by
  simp only [updateInvaders]
  split <;> exact ⟨rfl, rfl, rfl, rfl, rfl, rfl, rfl, rfl⟩

end Invaders

namespace Invaders

/-- The spawn phase leaves score, lives, level and both bullet lists
unchanged and keeps the bounty nonnegative. -/
theorem motherShipSpawn_fields (delta : ℚ) (g : Game) :
    (motherShipSpawn delta g).score = g.score ∧
    (motherShipSpawn delta g).lives = g.lives ∧
    (motherShipSpawn delta g).level = g.level ∧
    (motherShipSpawn delta g).playerBullets = g.playerBullets ∧
    (motherShipSpawn delta g).invaderBullets = g.invaderBullets ∧
    (0 ≤ g.motherShip.points → 0 ≤ (motherShipSpawn delta g).motherShip.points) := by
  have hbounty : ∀ n : Nat, (0 : Int) ≤ ([50, 100, 150, 300] : List Int).getD n 0 := by
    intro n
    rcases n with _ | _ | _ | _ | n <;> simp [List.getD]
  refine ⟨?_, ?_, ?_, ?_, ?_, ?_⟩ <;>
    · simp only [motherShipSpawn]
      split
      · split
        · first
          | exact fun _ => hbounty _
          | rfl
        · first
          | exact fun hp => hp
          | rfl
      · first
        | exact fun hp => hp
        | rfl

/-- The movement phase leaves score, lives, level and both bullet lists
unchanged and keeps the bounty value. -/
theorem motherShipMove_fields (g : Game) :
    (motherShipMove g).score = g.score ∧
    (motherShipMove g).lives = g.lives ∧
    (motherShipMove g).level = g.level ∧
    (motherShipMove g).playerBullets = g.playerBullets ∧
    (motherShipMove g).invaderBullets = g.invaderBullets ∧
    (motherShipMove g).motherShip.points = g.motherShip.points := by
  refine ⟨?_, ?_, ?_, ?_, ?_, ?_⟩ <;>
    · simp only [motherShipMove]
      split
      · first
        | rfl
        | · show (if _ then _ else _ : MotherShip).points = _
            split <;> rfl
      · rfl

/-- `updateBullets` leaves score, lives, level and the mother ship
unchanged and never lengthens the player-bullet list. -/
theorem updateBullets_fields (g : Game) :
    (updateBullets g).score = g.score ∧
    (updateBullets g).lives = g.lives ∧
    (updateBullets g).level = g.level ∧
    (updateBullets g).motherShip = g.motherShip ∧
    (updateBullets g).playerBullets.length ≤ g.playerBullets.length := by
  refine ⟨rfl, rfl, rfl, rfl, ?_⟩
  show (List.filter _ (List.map _ g.playerBullets)).length ≤ _
  calc (List.filter _ (List.map _ g.playerBullets)).length
      ≤ (List.map _ g.playerBullets).length := List.length_filter_le _ _
    _ = g.playerBullets.length := List.length_map _ _

/-- `invaderShoot` leaves score, lives, level, the player bullets and the
mother ship unchanged. -/
theorem invaderShoot_fields (g : Game) :
    (invaderShoot g).score = g.score ∧
    (invaderShoot g).lives = g.lives ∧
    (invaderShoot g).level = g.level ∧
    (invaderShoot g).playerBullets = g.playerBullets ∧
    (invaderShoot g).motherShip = g.motherShip := by
  simp only [invaderShoot]
  split
  · exact ⟨rfl, rfl, rfl, rfl, rfl⟩
  · split
    · exact ⟨rfl, rfl, rfl, rfl, rfl⟩
    · exact ⟨rfl, rfl, rfl, rfl, rfl⟩

/-- `nextLevel` raises the level by one and leaves score, lives, the
player bullets and the mother ship unchanged. -/
theorem nextLevel_fields (g : Game) :
    (nextLevel g).score = g.score ∧
    (nextLevel g).lives = g.lives ∧
    (nextLevel g).level = g.level + 1 ∧
    (nextLevel g).playerBullets = g.playerBullets ∧
    (nextLevel g).motherShip = g.motherShip := by
  exact ⟨rfl, rfl, rfl, rfl, rfl⟩

/-- `checkCollisions` only raises the score (when the bounty is
nonnegative), only lowers the lives, keeps the level and the bounty, and
never lengthens the player-bullet list. -/
theorem checkCollisions_fields (g : Game) (hp : 0 ≤ g.motherShip.points) :
    g.score ≤ (checkCollisions g).score ∧
    (checkCollisions g).lives ≤ g.lives ∧
    (checkCollisions g).level = g.level ∧
    0 ≤ (checkCollisions g).motherShip.points ∧
    (checkCollisions g).playerBullets.length ≤ g.playerBullets.length := by
  simp only [checkCollisions, bulletsInvadersPass, bulletsMotherShipPass,
    bulletsBarriersPass, invaderBulletsPlayerPass]
  refine ⟨?_, ?_, trivial, ?_, ?_⟩
  · calc g.score
        ≤ (bulletsInvadersAux g.playerBullets.reverse g.invaders g.score
            g.invaderSpeed g.animationSpeed).2.2.1 :=
          bulletsInvadersAux_score _ _ _ _ _
      _ ≤ _ := bulletsMotherShipAux_score _ _ _ hp
  · exact invaderBulletsPlayerAux_lives _ _ _ _
  · rw [bulletsMotherShipAux_points]
    exact hp
  · have h1 := bulletsInvadersAux_len g.playerBullets.reverse g.invaders
      g.score g.invaderSpeed g.animationSpeed
    have h2 := bulletsMotherShipAux_len (bulletsInvadersAux
      g.playerBullets.reverse g.invaders g.score g.invaderSpeed
      g.animationSpeed).1.reverse g.motherShip (bulletsInvadersAux
      g.playerBullets.reverse g.invaders g.score g.invaderSpeed
      g.animationSpeed).2.2.1
    have h3 := bulletsBarriersAux_len (bulletsMotherShipAux (bulletsInvadersAux
      g.playerBullets.reverse g.invaders g.score g.invaderSpeed
      g.animationSpeed).1.reverse g.motherShip (bulletsInvadersAux
      g.playerBullets.reverse g.invaders g.score g.invaderSpeed
      g.animationSpeed).2.2.1).1.reverse g.barriers
    simp only [List.length_reverse] at h1 h2 h3 ⊢
    omega

end Invaders

namespace Invaders

/-- Player movement changes only the player. -/
theorem updatePlayer_fields (g : Game) :
    (updatePlayer g).score = g.score ∧
    (updatePlayer g).lives = g.lives ∧
    (updatePlayer g).level = g.level ∧
    (updatePlayer g).playerBullets = g.playerBullets ∧
    (updatePlayer g).motherShip = g.motherShip := by
  exact ⟨rfl, rfl, rfl, rfl, rfl⟩

/-- The shoot-timer block leaves score, lives, level, the player bullets
and the mother ship unchanged. -/
theorem shootTimerStep_fields (delta : ℚ) (g : Game) :
    (shootTimerStep delta g).score = g.score ∧
    (shootTimerStep delta g).lives = g.lives ∧
    (shootTimerStep delta g).level = g.level ∧
    (shootTimerStep delta g).playerBullets = g.playerBullets ∧
    (shootTimerStep delta g).motherShip = g.motherShip := by
  obtain ⟨h1, h2, h3, h4, h5⟩ := invaderShoot_fields g
  refine ⟨?_, ?_, ?_, ?_, ?_⟩ <;>
    · simp only [shootTimerStep]
      split
      · first
        | exact h1
        | exact h2
        | exact h3
        | exact h4
        | exact h5
      · rfl

/-- The wave check leaves score, lives, the player bullets and the mother
ship unchanged and never lowers the level. -/
theorem winCheck_fields (g : Game) :
    (winCheck g).score = g.score ∧
    (winCheck g).lives = g.lives ∧
    g.level ≤ (winCheck g).level ∧
    (winCheck g).playerBullets = g.playerBullets ∧
    (winCheck g).motherShip = g.motherShip := by
  obtain ⟨h1, h2, h3, h4, h5⟩ := nextLevel_fields g
  refine ⟨?_, ?_, ?_, ?_, ?_⟩ <;>
    · simp only [winCheck]
      split
      · first
        | exact h1
        | exact h2
        | exact h4
        | exact h5
        | (rw [h3]; omega)
      · rfl

/-- `update` only raises the score and the level, only lowers the lives,
keeps the bounty nonnegative, and never lengthens the player-bullet
list. -/
theorem update_fields (delta : ℚ) (g : Game) (hp : 0 ≤ g.motherShip.points) :
    g.score ≤ (update delta g).score ∧
    (update delta g).lives ≤ g.lives ∧
    g.level ≤ (update delta g).level ∧
    0 ≤ (update delta g).motherShip.points ∧
    (update delta g).playerBullets.length ≤ g.playerBullets.length := by
  obtain ⟨P1, P2, P3, P4, P5⟩ := updatePlayer_fields g
  obtain ⟨I1, I2, I3, I4, I5, I6, I7, I8⟩ :=
    updateInvaders_fields delta (updatePlayer g)
  obtain ⟨S1, S2, S3, S4, S5, S6⟩ :=
    motherShipSpawn_fields delta (updateInvaders delta (updatePlayer g))
  obtain ⟨M1, M2, M3, M4, M5, M6⟩ :=
    motherShipMove_fields (motherShipSpawn delta (updateInvaders delta (updatePlayer g)))
  obtain ⟨B1, B2, B3, Bms, B5⟩ :=
    updateBullets_fields (motherShipMove (motherShipSpawn delta
      (updateInvaders delta (updatePlayer g))))
  have hp5 : 0 ≤ (updateBullets (motherShipMove (motherShipSpawn delta
      (updateInvaders delta (updatePlayer g))))).motherShip.points := by
    rw [Bms, M6]
    apply S6
    rw [I6, P5]
    exact hp
  obtain ⟨C1, C2, C3, C4, C5⟩ :=
    checkCollisions_fields (updateBullets (motherShipMove (motherShipSpawn delta
      (updateInvaders delta (updatePlayer g))))) hp5
  obtain ⟨T1, T2, T3, T4, T5⟩ :=
    shootTimerStep_fields delta (checkCollisions (updateBullets (motherShipMove
      (motherShipSpawn delta (updateInvaders delta (updatePlayer g))))))
  obtain ⟨W1, W2, W3, W4, W5⟩ :=
    winCheck_fields (shootTimerStep delta (checkCollisions (updateBullets
      (motherShipMove (motherShipSpawn delta (updateInvaders delta
        (updatePlayer g)))))))
  simp only [update, updateMotherShip]
  refine ⟨by omega, by omega, by omega, ?_, ?_⟩
  · rw [W5, T5]
    exact C4
  · rw [W4, T4]
    rw [M4, S4, I4, P4] at B5
    omega

/-- The collision passes never lengthen the player-bullet list, with no
side condition. -/
theorem checkCollisions_len (g : Game) :
    (checkCollisions g).playerBullets.length ≤ g.playerBullets.length := by
  simp only [checkCollisions, bulletsInvadersPass, bulletsMotherShipPass,
    bulletsBarriersPass, invaderBulletsPlayerPass]
  have h1 := bulletsInvadersAux_len g.playerBullets.reverse g.invaders
    g.score g.invaderSpeed g.animationSpeed
  have h2 := bulletsMotherShipAux_len (bulletsInvadersAux
    g.playerBullets.reverse g.invaders g.score g.invaderSpeed
    g.animationSpeed).1.reverse g.motherShip (bulletsInvadersAux
    g.playerBullets.reverse g.invaders g.score g.invaderSpeed
    g.animationSpeed).2.2.1
  have h3 := bulletsBarriersAux_len (bulletsMotherShipAux (bulletsInvadersAux
    g.playerBullets.reverse g.invaders g.score g.invaderSpeed
    g.animationSpeed).1.reverse g.motherShip (bulletsInvadersAux
    g.playerBullets.reverse g.invaders g.score g.invaderSpeed
    g.animationSpeed).2.2.1).1.reverse g.barriers
  simp only [List.length_reverse] at h1 h2 h3 ⊢
  omega

/-- A whole frame update never lengthens the player-bullet list. -/
theorem update_len (delta : ℚ) (g : Game) :
    (update delta g).playerBullets.length ≤ g.playerBullets.length := by
  have P4 := (updatePlayer_fields g).2.2.2.1
  have I4 := (updateInvaders_fields delta (updatePlayer g)).2.2.2.1
  have S4 := (motherShipSpawn_fields delta
    (updateInvaders delta (updatePlayer g))).2.2.2.1
  have M4 := (motherShipMove_fields (motherShipSpawn delta
    (updateInvaders delta (updatePlayer g)))).2.2.2.1
  have B5 := (updateBullets_fields (motherShipMove (motherShipSpawn delta
    (updateInvaders delta (updatePlayer g))))).2.2.2.2
  have C5 := checkCollisions_len (updateBullets (motherShipMove
    (motherShipSpawn delta (updateInvaders delta (updatePlayer g)))))
  have T4 := (shootTimerStep_fields delta (checkCollisions (updateBullets
    (motherShipMove (motherShipSpawn delta (updateInvaders delta
      (updatePlayer g))))))).2.2.2.1
  have W4 := (winCheck_fields (shootTimerStep delta (checkCollisions
    (updateBullets (motherShipMove (motherShipSpawn delta (updateInvaders
      delta (updatePlayer g)))))))).2.2.2.1
  simp only [update, updateMotherShip]
  rw [W4, T4]
  rw [M4, S4, I4, P4] at B5
  omega

/-- Shooting preserves the one-bullet cap. -/
theorem shootPlayerBullet_len (g : Game)
    (h : g.playerBullets.length ≤ 1) :
    (shootPlayerBullet g).playerBullets.length ≤ 1 := by
  simp only [shootPlayerBullet]
  split
  · rename_i hc
    simp only [List.length_append, List.length_cons, List.length_nil]
    omega
  · exact h

end Invaders

/-- C10: the player-bullet collection never exceeds one bullet: shooting
appends a bullet only when the collection is empty and is a no-op
otherwise, a frame update can only shorten the collection, and the cap
`length ≤ 1` is preserved by every session operation. -/
theorem player_bullet_cap_spec :
    (∀ g : Invaders.Game, g.playerBullets = [] →
        (Invaders.shootPlayerBullet g).playerBullets.length = 1) ∧
    (∀ g : Invaders.Game, g.playerBullets ≠ [] →
        Invaders.shootPlayerBullet g = g) ∧
    (∀ delta : ℚ, ∀ g : Invaders.Game,
        (Invaders.update delta g).playerBullets.length ≤
          g.playerBullets.length) ∧
    (∀ op : Invaders.Op, ∀ g : Invaders.Game,
        g.playerBullets.length ≤ 1 →
        (Invaders.step op g).playerBullets.length ≤ 1) := by
  refine ⟨?_, ?_, ?_, ?_⟩
  · intro g h
    simp [Invaders.shootPlayerBullet, h]
  · intro g h
    have hlen : ¬ g.playerBullets.length < 1 := by
      cases hpb : g.playerBullets with
      | nil => exact absurd hpb h
      | cons a l => simp [hpb]
    simp only [Invaders.shootPlayerBullet, if_neg hlen]
  · intro delta g
    exact Invaders.update_len delta g
  · intro op g h
    cases op with
    | tick t =>
      simp only [Invaders.step, Invaders.gameLoopStep]
      split
      · calc (Invaders.update _ _).playerBullets.length
            ≤ ({ g with lastTime := t } : Invaders.Game).playerBullets.length :=
              Invaders.update_len _ _
          _ ≤ 1 := h
      · exact h
    | keyDown k =>
      simp only [Invaders.step, Invaders.handleKeyDown]
      cases k
      case space =>
        split
        · split
          · apply Invaders.shootPlayerBullet_len
            exact h
          · exact h
        · rename_i heq
          exact Invaders.Key.noConfusion heq
        · rename_i hne _
          exact absurd rfl hne
      all_goals exact h
    | keyUp k =>
      exact h
    | pauseButton =>
      exact h

theorem player_bullet_cap_spec_witness :
    (Invaders.shootPlayerBullet
      { score := 0, lives := 3, level := 1, gameOver := false, paused := false,
        player := { x := 100, y := 400, width := 52, height := 32,
                    active := true, speed := 3 },
        invaders := [], invaderDirection := 1, invaderSpeed := 10,
        baseInvaderSpeed := 12, invaderDropAmount := 16,
        animationCounter := 0, animationSpeed := 1000,
        baseAnimationSpeed := 1000,
        motherShip := { x := -50, y := 30, width := 32, height := 14,
                        active := false, direction := 1, points := 0 },
        playerBullets := [], invaderBullets := [], barriers := [],
        keys := ⟨false, false, false, false⟩, lastTime := 0,
        invaderShootTimer := 0, motherShipTimer := 0, scale := 1,
        canvasW := 800, canvasH := 600, barrierLeftBoundary := 0,
        barrierRightBoundary := 100, rand := fun _ => 0,
        ridx := 0 }).playerBullets.length = 1 ∧
    Invaders.shootPlayerBullet
      { score := 0, lives := 3, level := 1, gameOver := false, paused := false,
        player := { x := 100, y := 400, width := 52, height := 32,
                    active := true, speed := 3 },
        invaders := [], invaderDirection := 1, invaderSpeed := 10,
        baseInvaderSpeed := 12, invaderDropAmount := 16,
        animationCounter := 0, animationSpeed := 1000,
        baseAnimationSpeed := 1000,
        motherShip := { x := -50, y := 30, width := 32, height := 14,
                        active := false, direction := 1, points := 0 },
        playerBullets := [{ x := 125, y := 400, width := 2, height := 8,
                            active := true, speed := 6 }],
        invaderBullets := [], barriers := [],
        keys := ⟨false, false, false, false⟩, lastTime := 0,
        invaderShootTimer := 0, motherShipTimer := 0, scale := 1,
        canvasW := 800, canvasH := 600, barrierLeftBoundary := 0,
        barrierRightBoundary := 100, rand := fun _ => 0, ridx := 0 } =
      { score := 0, lives := 3, level := 1, gameOver := false, paused := false,
        player := { x := 100, y := 400, width := 52, height := 32,
                    active := true, speed := 3 },
        invaders := [], invaderDirection := 1, invaderSpeed := 10,
        baseInvaderSpeed := 12, invaderDropAmount := 16,
        animationCounter := 0, animationSpeed := 1000,
        baseAnimationSpeed := 1000,
        motherShip := { x := -50, y := 30, width := 32, height := 14,
                        active := false, direction := 1, points := 0 },
        playerBullets := [{ x := 125, y := 400, width := 2, height := 8,
                            active := true, speed := 6 }],
        invaderBullets := [], barriers := [],
        keys := ⟨false, false, false, false⟩, lastTime := 0,
        invaderShootTimer := 0, motherShipTimer := 0, scale := 1,
        canvasW := 800, canvasH := 600, barrierLeftBoundary := 0,
        barrierRightBoundary := 100, rand := fun _ => 0, ridx := 0 } ∧
    (Invaders.step (Invaders.Op.keyDown Invaders.Key.space)
      { score := 0, lives := 3, level := 1, gameOver := false, paused := false,
        player := { x := 100, y := 400, width := 52, height := 32,
                    active := true, speed := 3 },
        invaders := [], invaderDirection := 1, invaderSpeed := 10,
        baseInvaderSpeed := 12, invaderDropAmount := 16,
        animationCounter := 0, animationSpeed := 1000,
        baseAnimationSpeed := 1000,
        motherShip := { x := -50, y := 30, width := 32, height := 14,
                        active := false, direction := 1, points := 0 },
        playerBullets := [{ x := 125, y := 400, width := 2, height := 8,
                            active := true, speed := 6 }],
        invaderBullets := [], barriers := [],
        keys := ⟨false, false, false, false⟩, lastTime := 0,
        invaderShootTimer := 0, motherShipTimer := 0, scale := 1,
        canvasW := 800, canvasH := 600, barrierLeftBoundary := 0,
        barrierRightBoundary := 100, rand := fun _ => 0,
        ridx := 0 }).playerBullets.length ≤ 1 :=
  ⟨player_bullet_cap_spec.1 _ rfl,
   player_bullet_cap_spec.2.1 _ (List.cons_ne_nil _ _),
   player_bullet_cap_spec.2.2.2 _ _ (by decide)⟩

namespace ShapeDrop

/-- The line-clear score table holds no negative entry. -/
theorem clearPoints_nonneg (n : Nat) : 0 ≤ clearPoints n := by
  rcases n with _ | _ | _ | _ | _ | n <;> simp [clearPoints, List.getD]

/-- Spawning the next piece leaves score, lines and level unchanged. -/
theorem spawnPiece_fields (g : Game) :
    (spawnPiece g).score = g.score ∧ (spawnPiece g).lines = g.lines ∧
    (spawnPiece g).level = g.level := by
  simp only [spawnPiece]
  split <;> exact ⟨rfl, rfl, rfl⟩

/-- Locking a piece only raises the score and the level. -/
theorem lockPiece_mono (g : Game) (hl : 0 ≤ g.level) :
    g.score ≤ (lockPiece g).score ∧ g.level ≤ (lockPiece g).level := by
  simp only [lockPiece]
  rw [(spawnPiece_fields _).1, (spawnPiece_fields _).2.2]
  split
  · split
    · rename_i hlt
      constructor
      · exact le_add_of_nonneg_right (mul_nonneg (clearPoints_nonneg _) hl)
      · exact le_of_lt hlt
    · constructor
      · exact le_add_of_nonneg_right (mul_nonneg (clearPoints_nonneg _) hl)
      · exact le_refl _
  · exact ⟨le_refl _, le_refl _⟩

/-- The horizontal moves leave score and level unchanged. -/
theorem moveLeft_fields (g : Game) :
    (moveLeft g).score = g.score ∧ (moveLeft g).level = g.level := by
  simp only [moveLeft]
  split <;> exact ⟨rfl, rfl⟩

theorem moveRight_fields (g : Game) :
    (moveRight g).score = g.score ∧ (moveRight g).level = g.level := by
  simp only [moveRight]
  split <;> exact ⟨rfl, rfl⟩

/-- One descent step only raises the score and the level. -/
theorem moveDown_mono (g : Game) (hl : 0 ≤ g.level) :
    g.score ≤ (moveDown g).score ∧ g.level ≤ (moveDown g).level := by
  simp only [moveDown]
  split
  · exact ⟨le_refl _, le_refl _⟩
  · exact lockPiece_mono g hl

/-- A hard drop only raises the score and the level. -/
theorem hardDrop_mono (g : Game) (hl : 0 ≤ g.level) :
    g.score ≤ (hardDrop g).score ∧ g.level ≤ (hardDrop g).level := by
  simp only [hardDrop]
  split
  · exact ⟨le_trans (le_add_of_nonneg_right (by positivity))
      (lockPiece_mono _ (by exact hl)).1,
      (lockPiece_mono _ (by exact hl)).2⟩
  · exact lockPiece_mono _ (by exact hl)

/-- One frame update only raises the score and the level. -/
theorem updateSD_mono (delta : ℚ) (g : Game) (hl : 0 ≤ g.level) :
    g.score ≤ (update delta g).score ∧ g.level ≤ (update delta g).level := by
  simp only [update]
  split
  · exact ⟨le_refl _, le_refl _⟩
  · split
    · exact ⟨(moveDown_mono g hl).1, (moveDown_mono g hl).2⟩
    · exact ⟨le_refl _, le_refl _⟩

/-- One key event only raises the score and the level. -/
theorem handleKeyDownSD_mono (k : Key) (g : Game) (hl : 0 ≤ g.level) :
    g.score ≤ (handleKeyDown k g).score ∧
    g.level ≤ (handleKeyDown k g).level := by
  simp only [handleKeyDown]
  split
  · exact ⟨le_refl _, le_refl _⟩
  · cases k
    case left =>
      exact ⟨le_of_eq (moveLeft_fields g).1.symm,
        le_of_eq (moveLeft_fields g).2.symm⟩
    case right =>
      exact ⟨le_of_eq (moveRight_fields g).1.symm,
        le_of_eq (moveRight_fields g).2.symm⟩
    case down => exact moveDown_mono g hl
    case up => exact ⟨le_refl _, le_refl _⟩
    case space => exact hardDrop_mono g hl
    case pause => exact ⟨le_refl _, le_refl _⟩
    case other => exact ⟨le_refl _, le_refl _⟩

/-- One frame tick only raises the score and the level. -/
theorem gameLoopStep_mono (t : ℚ) (g : Game) (hl : 0 ≤ g.level) :
    g.score ≤ (gameLoopStep t g).score ∧
    g.level ≤ (gameLoopStep t g).level := by
  simp only [gameLoopStep]
  split
  · exact ⟨le_refl _, le_refl _⟩
  · exact updateSD_mono _ _ (by exact hl)

/-- One session operation only raises the score and the level. -/
theorem stepSD_mono (op : Op) (g : Game) (hl : 0 ≤ g.level) :
    g.score ≤ (step op g).score ∧ g.level ≤ (step op g).level := by
  cases op with
  | tick t => exact gameLoopStep_mono t g hl
  | key k => exact handleKeyDownSD_mono k g hl
  | pauseButton => exact ⟨le_refl _, le_refl _⟩

/-- Along any operation sequence the score and the level never decrease. -/
theorem stepsSD_mono (ops : List Op) :
    ∀ g : Game, 0 ≤ g.level →
      g.score ≤ (ops.foldl (fun s op => step op s) g).score ∧
      g.level ≤ (ops.foldl (fun s op => step op s) g).level := by
  induction ops with
  | nil => intro g _; exact ⟨le_refl _, le_refl _⟩
  | cons op rest ih =>
    intro g hl
    obtain ⟨h1, h2⟩ := stepSD_mono op g hl
    obtain ⟨h3, h4⟩ := ih (step op g) (le_trans hl h2)
    exact ⟨le_trans h1 h3, le_trans h2 h4⟩

end ShapeDrop

namespace Invaders

/-- Shooting leaves score, lives, level and the mother ship unchanged. -/
theorem shootPlayerBullet_fields (g : Game) :
    (shootPlayerBullet g).score = g.score ∧
    (shootPlayerBullet g).lives = g.lives ∧
    (shootPlayerBullet g).level = g.level ∧
    (shootPlayerBullet g).motherShip = g.motherShip := by
  simp only [shootPlayerBullet]
  split <;> exact ⟨rfl, rfl, rfl, rfl⟩

/-- One session operation only raises the score and the level, only lowers
the lives, and keeps the mother-ship bounty nonnegative. -/
theorem stepInv_mono (op : Op) (g : Game) (hp : 0 ≤ g.motherShip.points) :
    g.score ≤ (step op g).score ∧ (step op g).lives ≤ g.lives ∧
    g.level ≤ (step op g).level ∧ 0 ≤ (step op g).motherShip.points := by
  cases op with
  | tick t =>
    simp only [step, gameLoopStep]
    split
    · have h := update_fields (t - g.lastTime) { g with lastTime := t }
        (by exact hp)
      exact ⟨h.1, h.2.1, h.2.2.1, h.2.2.2.1⟩
    · exact ⟨le_refl _, le_refl _, le_refl _, hp⟩
  | keyDown k =>
    simp only [step, handleKeyDown]
    cases k
    case space =>
      split
      · split
        · refine ⟨le_of_eq ((shootPlayerBullet_fields _).1).symm,
            le_of_eq ((shootPlayerBullet_fields _).2.1),
            le_of_eq ((shootPlayerBullet_fields _).2.2.1).symm, ?_⟩
          rw [(shootPlayerBullet_fields _).2.2.2]
          exact hp
        · exact ⟨le_refl _, le_refl _, le_refl _, hp⟩
      · rename_i heq
        exact Invaders.Key.noConfusion heq
      · rename_i hne _
        exact absurd rfl hne
    all_goals exact ⟨le_refl _, le_refl _, le_refl _, hp⟩
  | keyUp k => exact ⟨le_refl _, le_refl _, le_refl _, hp⟩
  | pauseButton => exact ⟨le_refl _, le_refl _, le_refl _, hp⟩

/-- Along any operation sequence — started with a nonnegative mother-ship
bounty, as in every reachable state — the score and the level never
decrease and the lives never increase. -/
theorem stepsInv_mono (ops : List Op) :
    ∀ g : Game, 0 ≤ g.motherShip.points →
      g.score ≤ (ops.foldl (fun s op => step op s) g).score ∧
      (ops.foldl (fun s op => step op s) g).lives ≤ g.lives ∧
      g.level ≤ (ops.foldl (fun s op => step op s) g).level := by
  induction ops with
  | nil => intro g _; exact ⟨le_refl _, le_refl _, le_refl _⟩
  | cons op rest ih =>
    intro g hp
    obtain ⟨h1, h2, h3, h4⟩ := stepInv_mono op g hp
    obtain ⟨h5, h6, h7⟩ := ih (step op g) h4
    exact ⟨le_trans h1 h5, le_trans h6 h2, le_trans h3 h7⟩

end Invaders

namespace SpaceRocks

/-- Every entry of the size score table is nonnegative. -/
theorem scoreMap_nonneg (s : Size) : 0 ≤ scoreMap s := by
  cases s <;> decide

/-- An explosion never touches the lives. -/
theorem createExplosion_lives (g : Game) (pos : Vec) (n : Nat) :
    (createExplosion g pos n).lives = g.lives := by
  unfold createExplosion
  refine foldl_proj _ (fun s => s.lives) (fun s a => ?_) _ g
  rfl

/-- An explosion never touches the level. -/
theorem createExplosion_level (g : Game) (pos : Vec) (n : Nat) :
    (createExplosion g pos n).level = g.level := by
  unfold createExplosion
  refine foldl_proj _ (fun s => s.level) (fun s a => ?_) _ g
  rfl

/-- The point-fan fold never touches the lives. -/
theorem asteroidPointsFold_lives (size : Size) (l : List Nat)
    (acc : List Vec × Game) :
    (l.foldl (asteroidPointsStep size) acc).2.lives = acc.2.lives := by
  refine foldl_proj _ (fun s => s.2.lives) (fun s a => ?_) _ acc
  rfl

/-- The point-fan fold never touches the level. -/
theorem asteroidPointsFold_level (size : Size) (l : List Nat)
    (acc : List Vec × Game) :
    (l.foldl (asteroidPointsStep size) acc).2.level = acc.2.level := by
  refine foldl_proj _ (fun s => s.2.level) (fun s a => ?_) _ acc
  rfl

/-- Creating an asteroid value does not touch the lives. -/
theorem createAsteroid_lives (g : Game) (pos : Vec) (size : Size) :
    (createAsteroid g pos size).2.lives = g.lives := by
  unfold createAsteroid
  simp only [draw1]
  exact asteroidPointsFold_lives size _ _

/-- Creating an asteroid value does not touch the level. -/
theorem createAsteroid_level (g : Game) (pos : Vec) (size : Size) :
    (createAsteroid g pos size).2.level = g.level := by
  unfold createAsteroid
  simp only [draw1]
  exact asteroidPointsFold_level size _ _

set_option maxHeartbeats 1000000 in
/-- Destroying an asteroid only raises the score and leaves lives and
level unchanged. -/
theorem destroyAsteroid_mono (g : Game) (i : Nat) :
    g.score ≤ (destroyAsteroid g i).score ∧
    (destroyAsteroid g i).lives = g.lives ∧
    (destroyAsteroid g i).level = g.level := by
  refine ⟨?_, ?_, ?_⟩ <;>
    · cases hsz : (g.asteroids.getD i defAsteroid).size
      case large =>
        simp only [destroyAsteroid, hsz, reduceCtorEq, if_true, if_false]
        first
        | (rw [createAsteroid_score, createAsteroid_score, createExplosion_score]
           exact le_add_of_nonneg_right (scoreMap_nonneg _))
        | (rw [createAsteroid_lives, createAsteroid_lives, createExplosion_lives])
        | (rw [createAsteroid_level, createAsteroid_level, createExplosion_level])
      case medium =>
        simp only [destroyAsteroid, hsz, reduceCtorEq, if_true, if_false]
        first
        | (rw [createAsteroid_score, createAsteroid_score, createExplosion_score]
           exact le_add_of_nonneg_right (scoreMap_nonneg _))
        | (rw [createAsteroid_lives, createAsteroid_lives, createExplosion_lives])
        | (rw [createAsteroid_level, createAsteroid_level, createExplosion_level])
      case small =>
        simp only [destroyAsteroid, hsz, reduceCtorEq, if_true, if_false]
        first
        | (rw [createExplosion_score]
           exact le_add_of_nonneg_right (scoreMap_nonneg _))
        | (rw [createExplosion_lives])
        | (rw [createExplosion_level])

/-- Destroying the ship only lowers the lives and leaves score and level
unchanged. -/
theorem destroyShip_mono (g : Game) :
    (destroyShip g).score = g.score ∧ (destroyShip g).lives ≤ g.lives ∧
    (destroyShip g).level = g.level := by
  refine ⟨?_, ?_, ?_⟩ <;>
    · simp only [destroyShip]
      split
      · first
        | (show (createExplosion _ _ _).score = g.score
           rw [createExplosion_score])
        | (show (createExplosion _ _ _).lives - 1 ≤ g.lives
           rw [createExplosion_lives]
           omega)
        | (show (createExplosion _ _ _).level = g.level
           rw [createExplosion_level])
      · first
        | (show (createExplosion _ _ _).score = g.score
           rw [createExplosion_score])
        | (show (createExplosion _ _ _).lives - 1 ≤ g.lives
           rw [createExplosion_lives]
           omega)
        | (show (createExplosion _ _ _).level = g.level
           rw [createExplosion_level])

/-- The bullet-asteroid outer loop only raises the score and leaves lives
and level unchanged. -/
theorem bulletsAsteroidsAux_mono (l : List Bullet) :
    ∀ g : Game, g.score ≤ (bulletsAsteroidsAux l g).2.score ∧
      (bulletsAsteroidsAux l g).2.lives = g.lives ∧
      (bulletsAsteroidsAux l g).2.level = g.level := by
  induction l with
  | nil => intro g; exact ⟨le_refl _, rfl, rfl⟩
  | cons b rest ih =>
    intro g
    unfold bulletsAsteroidsAux
    cases h : findAsteroidHit b g.asteroids with
    | some j =>
      simp only [h]
      obtain ⟨d1, d2, d3⟩ := destroyAsteroid_mono g j
      obtain ⟨i1, i2, i3⟩ := ih (destroyAsteroid g j)
      exact ⟨le_trans d1 i1, by rw [i2, d2], by rw [i3, d3]⟩
    | none =>
      simp only [h]
      exact ⟨(ih g).1, (ih g).2.1, (ih g).2.2⟩

/-- The bullet-asteroid pass only raises the score and leaves lives and
level unchanged. -/
theorem bulletsAsteroidsPass_mono (g : Game) :
    g.score ≤ (bulletsAsteroidsPass g).score ∧
    (bulletsAsteroidsPass g).lives = g.lives ∧
    (bulletsAsteroidsPass g).level = g.level := by
  unfold bulletsAsteroidsPass
  exact ⟨(bulletsAsteroidsAux_mono g.bullets.reverse g).1,
    (bulletsAsteroidsAux_mono g.bullets.reverse g).2.1,
    (bulletsAsteroidsAux_mono g.bullets.reverse g).2.2⟩

/-- The ship-asteroid pass only raises the score, only lowers the lives,
and leaves the level unchanged. -/
theorem shipAsteroidsPass_mono (g : Game) :
    g.score ≤ (shipAsteroidsPass g).score ∧
    (shipAsteroidsPass g).lives ≤ g.lives ∧
    (shipAsteroidsPass g).level = g.level := by
  unfold shipAsteroidsPass
  cases h : (g.asteroids.enum.reverse).find? (fun p =>
      checkCircleCollision g.ship.pos g.ship.radius p.2.pos p.2.radius) with
  | some p =>
    simp only [h]
    obtain ⟨s1, s2, s3⟩ := destroyShip_mono g
    obtain ⟨d1, d2, d3⟩ := destroyAsteroid_mono (destroyShip g) p.1
    exact ⟨le_trans (le_of_eq s1.symm) d1, le_trans (le_of_eq d2) s2,
      by rw [d3, s3]⟩
  | none =>
    simp only [h]
    exact ⟨le_refl _, le_refl _, trivial⟩

/-- The collision pass only raises the score, only lowers the lives, and
leaves the level unchanged. -/
theorem checkCollisionsSR_mono (g : Game) :
    g.score ≤ (checkCollisions g).score ∧
    (checkCollisions g).lives ≤ g.lives ∧
    (checkCollisions g).level = g.level := by
  unfold checkCollisions
  obtain ⟨b1, b2, b3⟩ := bulletsAsteroidsPass_mono g
  obtain ⟨s1, s2, s3⟩ := shipAsteroidsPass_mono (bulletsAsteroidsPass g)
  exact ⟨le_trans b1 s1, b2 ▸ s2, by rw [s3, b3]⟩

/-- A position draw leaves score, lives and level unchanged. -/
theorem pickPos_fields (fuel : Nat) :
    ∀ g : Game, (pickPos g fuel).2.score = g.score ∧
      (pickPos g fuel).2.lives = g.lives ∧
      (pickPos g fuel).2.level = g.level := by
  induction fuel with
  | zero => intro g; exact ⟨rfl, rfl, rfl⟩
  | succ n ih =>
    intro g
    simp only [pickPos, draw1]
    split
    · exact ih _
    · exact ⟨rfl, rfl, rfl⟩

/-- The wave generator leaves score, lives and level unchanged. -/
theorem createAsteroids_fields (g : Game) (n : Nat) :
    (createAsteroids g n).score = g.score ∧
    (createAsteroids g n).lives = g.lives ∧
    (createAsteroids g n).level = g.level := by
  unfold createAsteroids
  refine ⟨?_, ?_, ?_⟩
  · refine foldl_proj _ (fun s => s.score) (fun s a => ?_) _ g
    show (createAsteroid (pickPos s 64).2 (pickPos s 64).1 Size.large).2.score
      = s.score
    rw [createAsteroid_score, (pickPos_fields 64 s).1]
  · refine foldl_proj _ (fun s => s.lives) (fun s a => ?_) _ g
    show (createAsteroid (pickPos s 64).2 (pickPos s 64).1 Size.large).2.lives
      = s.lives
    rw [createAsteroid_lives, (pickPos_fields 64 s).2.1]
  · refine foldl_proj _ (fun s => s.level) (fun s a => ?_) _ g
    show (createAsteroid (pickPos s 64).2 (pickPos s 64).1 Size.large).2.level
      = s.level
    rw [createAsteroid_level, (pickPos_fields 64 s).2.2]

/-- One frame update only raises the score and the level and only lowers
the lives. -/
theorem updateSR_mono (g : Game) :
    g.score ≤ (update g).score ∧ (update g).lives ≤ g.lives ∧
    g.level ≤ (update g).level := by
  simp only [update]
  obtain ⟨c1, c2, c3⟩ := checkCollisionsSR_mono
    (updateParticles (updateAsteroids (updateBullets (updateShip g))))
  have hUs : (updateParticles (updateAsteroids (updateBullets
      (updateShip g)))).score = g.score := rfl
  have hUl : (updateParticles (updateAsteroids (updateBullets
      (updateShip g)))).lives = g.lives := rfl
  have hUv : (updateParticles (updateAsteroids (updateBullets
      (updateShip g)))).level = g.level := rfl
  split
  · obtain ⟨a1, a2, a3⟩ := createAsteroids_fields
      { checkCollisions (updateParticles (updateAsteroids (updateBullets
          (updateShip g)))) with
        level := (checkCollisions (updateParticles (updateAsteroids
          (updateBullets (updateShip g))))).level + 1 }
      ((4 + ((checkCollisions (updateParticles (updateAsteroids (updateBullets
          (updateShip g))))).level + 1)).toNat)
    refine ⟨?_, ?_, ?_⟩
    · rw [a1]
      exact hUs ▸ c1
    · rw [a2]
      exact le_of_le_of_eq c2 hUl
    · rw [a3]
      calc g.level
          = (checkCollisions (updateParticles (updateAsteroids (updateBullets
              (updateShip g))))).level := (c3.trans hUv).symm
        _ ≤ (checkCollisions (updateParticles (updateAsteroids (updateBullets
              (updateShip g))))).level + 1 := by omega
        _ = _ := rfl
  · exact ⟨hUs ▸ c1, le_of_le_of_eq c2 hUl, le_of_eq (c3.trans hUv).symm⟩

/-- Shooting leaves score, lives and level unchanged. -/
theorem shoot_fields (now : ℚ) (g : Game) :
    (shoot now g).score = g.score ∧ (shoot now g).lives = g.lives ∧
    (shoot now g).level = g.level := by
  simp only [shoot]
  split
  · exact ⟨rfl, rfl, rfl⟩
  · split
    · exact ⟨rfl, rfl, rfl⟩
    · exact ⟨rfl, rfl, rfl⟩

/-- One session operation only raises the score and the level and only
lowers the lives. -/
theorem stepSR_mono (op : Op) (g : Game) :
    g.score ≤ (step op g).score ∧ (step op g).lives ≤ g.lives ∧
    g.level ≤ (step op g).level := by
  cases op with
  | tick =>
    simp only [step, gameLoopStep]
    split
    · exact updateSR_mono g
    · exact ⟨le_refl _, le_refl _, le_refl _⟩
  | keyDown k now =>
    simp only [step, handleKeyDown]
    cases k
    case space =>
      split
      · exact ⟨le_of_eq (shoot_fields _ _).1.symm,
          le_of_eq (shoot_fields _ _).2.1, le_of_eq (shoot_fields _ _).2.2.symm⟩
      · rename_i heq
        exact SpaceRocks.Key.noConfusion heq
      · rename_i hne _
        exact absurd rfl hne
    all_goals exact ⟨le_refl _, le_refl _, le_refl _⟩
  | keyUp k => exact ⟨le_refl _, le_refl _, le_refl _⟩

/-- Along any operation sequence the score and the level never decrease
and the lives never increase. -/
theorem stepsSR_mono (ops : List Op) :
    ∀ g : Game,
      g.score ≤ (ops.foldl (fun s op => step op s) g).score ∧
      (ops.foldl (fun s op => step op s) g).lives ≤ g.lives ∧
      g.level ≤ (ops.foldl (fun s op => step op s) g).level := by
  induction ops with
  | nil => intro g; exact ⟨le_refl _, le_refl _, le_refl _⟩
  | cons op rest ih =>
    intro g
    obtain ⟨h1, h2, h3⟩ := stepSR_mono op g
    obtain ⟨h4, h5, h6⟩ := ih (step op g)
    exact ⟨le_trans h1 h4, le_trans h5 h2, le_trans h3 h6⟩

end SpaceRocks

namespace Snake

/-- The apple re-draw loop never touches the score. -/
theorem spawnAppleAux_score (fuel : Nat) :
    ∀ g : Game, (spawnAppleAux g fuel).score = g.score := by
  induction fuel with
  | zero => intro g; rfl
  | succ n ih =>
    intro g
    simp only [spawnAppleAux, draw1]
    split
    · exact ih _
    · rfl

/-- `spawnApple` never touches the score. -/
theorem spawnApple_score (g : Game) : (spawnApple g).score = g.score :=
  spawnAppleAux_score 4096 g

/-- Ending the game never touches the score. -/
theorem endGame_score (g : Game) (st : Store) :
    (endGame g st).1.score = g.score := by
  simp only [endGame, saveHighScore]
  split <;> rfl

/-- One movement update never lowers the score. -/
theorem update_score_mono (g : Game) (st : Store) :
    g.score ≤ (update g st).1.score := by
  simp only [update]
  split
  · refine le_of_eq (Eq.symm ?_)
    exact endGame_score _ _
  · split
    · refine le_of_eq (Eq.symm ?_)
      exact endGame_score _ _
    · split
      · split
        · rw [spawnApple_score]
          exact le_add_of_nonneg_right (by decide)
        · rw [spawnApple_score]
          exact le_add_of_nonneg_right (by decide)
      · exact le_refl _

/-- `pauseGame` never touches the score. -/
theorem pauseGame_score (g : Game) : (pauseGame g).score = g.score := by
  simp only [pauseGame]
  split <;> rfl

/-- `resumeGame` never touches the score. -/
theorem resumeGame_score (g : Game) : (resumeGame g).score = g.score := by
  simp only [resumeGame]
  split <;> rfl

/-- A key event never touches the score. -/
theorem onKeyDown_score (k : Key) (g : Game) :
    (onKeyDown k g).score = g.score := by
  cases hgs : g.gameState
  case ready =>
    simp only [onKeyDown, hgs]
    split <;> rfl
  case playing =>
    simp only [onKeyDown, hgs]
    split <;>
      first
        | rfl
        | (split <;> rfl)
        | (simp only [pauseGame]; split <;> rfl)
  case pausedS =>
    simp only [onKeyDown, hgs]
    split
    · exact resumeGame_score g
    · rfl
  case over => simp only [onKeyDown, hgs]

/-- One session operation never lowers the score. -/
theorem step_score_mono (op : Op) (p : Game × Store) :
    p.1.score ≤ (step op p).1.score := by
  obtain ⟨g, st⟩ := p
  cases op with
  | tick => exact update_score_mono g st
  | key k => exact le_of_eq (onKeyDown_score k g).symm

/-- Along any operation sequence the score never decreases. -/
theorem steps_score_mono (ops : List Op) :
    ∀ p : Game × Store,
      p.1.score ≤ ((ops.foldl (fun q op => step op q) p)).1.score := by
  induction ops with
  | nil => intro p; exact le_refl _
  | cons op rest ih =>
    intro p
    exact le_trans (step_score_mono op p) (ih (step op p))

end Snake

namespace Hopper

/-- Losing a life never touches score or level and never raises lives. -/
theorem loseLife_fields (g : Game) :
    (loseLife g).score = g.score ∧ (loseLife g).lives ≤ g.lives ∧
    (loseLife g).level = g.level := by
  refine ⟨?_, ?_, ?_⟩ <;>
    · simp only [loseLife]
      split
      · first
        | rfl
        | (show g.lives - 1 ≤ g.lives; omega)
      · first
        | rfl
        | (show g.lives - 1 ≤ g.lives; omega)

/-- The fixed-obstacle stage never touches score, lives or level. -/
theorem baseObstacles_fields (g : Game) :
    (baseObstacles g).score = g.score ∧ (baseObstacles g).lives = g.lives ∧
    (baseObstacles g).level = g.level :=
  ⟨rfl, rfl, rfl⟩

/-- The alligator stage never touches score, lives or level. -/
theorem alligatorSetup_fields (g0 : Game) :
    (alligatorSetup g0).score = g0.score ∧
    (alligatorSetup g0).lives = g0.lives ∧
    (alligatorSetup g0).level = g0.level := by
  refine ⟨?_, ?_, ?_⟩
  · simp only [alligatorSetup, draw1]
    split
    · show (List.foldl _ ({ g0 with alligators := [] } : Game) _).score = ({ g0 with alligators := [] } : Game).score
      refine foldl_proj _ (fun s => s.score) (fun s a => ?_) _ ({ g0 with alligators := [] } : Game)
      rfl
    · rfl
  · simp only [alligatorSetup, draw1]
    split
    · show (List.foldl _ ({ g0 with alligators := [] } : Game) _).lives = ({ g0 with alligators := [] } : Game).lives
      refine foldl_proj _ (fun s => s.lives) (fun s a => ?_) _ ({ g0 with alligators := [] } : Game)
      rfl
    · rfl
  · simp only [alligatorSetup, draw1]
    split
    · show (List.foldl _ ({ g0 with alligators := [] } : Game) _).level = ({ g0 with alligators := [] } : Game).level
      refine foldl_proj _ (fun s => s.level) (fun s a => ?_) _ ({ g0 with alligators := [] } : Game)
      rfl
    · rfl

/-- The female-frog stage never touches score, lives or level. -/
theorem femaleFrogSetup_fields (g2 : Game) :
    (femaleFrogSetup g2).score = g2.score ∧
    (femaleFrogSetup g2).lives = g2.lives ∧
    (femaleFrogSetup g2).level = g2.level := by
  refine ⟨?_, ?_, ?_⟩ <;>
    · simp only [femaleFrogSetup, draw1]
      repeat' split
      all_goals rfl

/-- Obstacle regeneration never touches score, lives or level. -/
theorem createObstacles_fields (g : Game) :
    (createObstacles g).score = g.score ∧
    (createObstacles g).lives = g.lives ∧
    (createObstacles g).level = g.level := by
  unfold createObstacles
  obtain ⟨f1, f2, f3⟩ := femaleFrogSetup_fields
    { alligatorSetup (baseObstacles g) with femaleFrog := none }
  obtain ⟨a1, a2, a3⟩ := alligatorSetup_fields (baseObstacles g)
  obtain ⟨b1, b2, b3⟩ := baseObstacles_fields g
  exact ⟨f1.trans (a1.trans b1), f2.trans (a2.trans b2), f3.trans (a3.trans b3)⟩

/-- A fold that at worst loses lives never touches score or level and
never raises lives. -/
theorem loseLifeFold_mono {α : Type} (p : Game → α → Bool) (l : List α) :
    ∀ s : Game,
      ((l.foldl (fun gi a => if p gi a then loseLife gi else gi) s)).score
          = s.score ∧
      ((l.foldl (fun gi a => if p gi a then loseLife gi else gi) s)).lives
          ≤ s.lives ∧
      ((l.foldl (fun gi a => if p gi a then loseLife gi else gi) s)).level
          = s.level := by
  induction l with
  | nil => intro s; exact ⟨rfl, le_refl _, rfl⟩
  | cons a rest ih =>
    intro s
    simp only [List.foldl_cons]
    obtain ⟨l1, l2, l3⟩ := loseLife_fields s
    cases hp : p s a
    · simp only [hp, Bool.false_eq_true, if_false]
      exact ih s
    · simp only [hp, if_true]
      obtain ⟨i1, i2, i3⟩ := ih (loseLife s)
      exact ⟨i1.trans l1, le_trans i2 l2, i3.trans l3⟩

/-- Resetting the frog never touches score, lives or level. -/
theorem resetFrog_score (g : Game) : (resetFrog g).score = g.score := rfl

theorem resetFrog_lives (g : Game) : (resetFrog g).lives = g.lives := rfl

theorem resetFrog_level (g : Game) : (resetFrog g).level = g.level := rfl

/-- The goal-row branch only raises score and level and only lowers
lives. -/
theorem goalRowCheck_mono (g : Game) :
    g.score ≤ (goalRowCheck g).score ∧ (goalRowCheck g).lives ≤ g.lives ∧
    g.level ≤ (goalRowCheck g).level := by
  refine ⟨?_, ?_, ?_⟩
  · simp only [goalRowCheck]
    repeat' split
    all_goals
      first
        | exact le_refl _
        | ((rw [(loseLife_fields _).1]) <;> exact le_refl _)
        | (rw [resetFrog_score, (createObstacles_fields _).1] <;>
            first
              | (show g.score ≤ g.score + 100 + 500; omega)
              | (show g.score ≤ g.score + 100 + 0; omega))
        | (rw [resetFrog_score] <;>
            first
              | (show g.score ≤ g.score + 100 + 500; omega)
              | (show g.score ≤ g.score + 100 + 0; omega))
  · simp only [goalRowCheck]
    repeat' split
    all_goals
      first
        | exact le_refl _
        | exact le_trans ((loseLife_fields _).2.1) (le_refl _)
        | (rw [resetFrog_lives, (createObstacles_fields _).2.1] <;> exact le_refl _)
        | (rw [resetFrog_lives] <;> exact le_refl _)
  · simp only [goalRowCheck]
    repeat' split
    all_goals
      first
        | exact le_refl _
        | ((rw [(loseLife_fields _).2.2]) <;> exact le_refl _)
        | (rw [resetFrog_level, (createObstacles_fields _).2.2] <;>
            (show g.level ≤ g.level + 1; omega))
        | (rw [resetFrog_level] <;> exact le_refl _)

/-- The river branch only lowers lives and never touches score or level. -/
theorem riverRowCheck_mono (g : Game) :
    (riverRowCheck g).score = g.score ∧ (riverRowCheck g).lives ≤ g.lives ∧
    (riverRowCheck g).level = g.level := by
  refine ⟨?_, ?_, ?_⟩ <;>
    · simp only [riverRowCheck]
      split
      · first
        | (rw [(loseLife_fields _).1])
        | exact le_trans ((loseLife_fields _).2.1) (le_refl _)
        | (rw [(loseLife_fields _).2.2])
      · first
        | exact Eq.trans ((loseLifeFold_mono _ _ _).1) rfl
        | exact le_trans ((loseLifeFold_mono _ _ _).2.1) (le_refl _)
        | exact Eq.trans ((loseLifeFold_mono _ _ _).2.2) rfl

/-- The road branch only lowers lives and never touches score or level. -/
theorem roadRowCheck_mono (g : Game) :
    (roadRowCheck g).score = g.score ∧ (roadRowCheck g).lives ≤ g.lives ∧
    (roadRowCheck g).level = g.level := by
  refine ⟨?_, ?_, ?_⟩ <;>
    · simp only [roadRowCheck]
      first
        | exact (loseLifeFold_mono _ _ _).1
        | exact (loseLifeFold_mono _ _ _).2.1
        | exact (loseLifeFold_mono _ _ _).2.2

/-- The collision dispatch only raises score and level and only lowers
lives. -/
theorem checkCollisionsHop_mono (g : Game) :
    g.score ≤ (checkCollisions g).score ∧
    (checkCollisions g).lives ≤ g.lives ∧
    g.level ≤ (checkCollisions g).level := by
  simp only [checkCollisions]
  split
  · exact goalRowCheck_mono g
  · split
    · obtain ⟨r1, r2, r3⟩ := riverRowCheck_mono g
      exact ⟨le_of_eq r1.symm, r2, le_of_eq r3.symm⟩
    · split
      · obtain ⟨r1, r2, r3⟩ := roadRowCheck_mono g
        exact ⟨le_of_eq r1.symm, r2, le_of_eq r3.symm⟩
      · exact ⟨le_refl _, le_refl _, le_refl _⟩

set_option maxHeartbeats 1600000 in
/-- One frame update only raises score and level and only lowers lives. -/
theorem updateHop_mono (g : Game) :
    g.score ≤ (update g).score ∧ (update g).lives ≤ g.lives ∧
    g.level ≤ (update g).level := by
  simp only [update]
  split
  · exact ⟨le_refl _, le_refl _, le_refl _⟩
  · repeat' split
    all_goals
      (refine ⟨le_trans ?_ ((checkCollisionsHop_mono _).1),
          le_trans ((checkCollisionsHop_mono _).2.1) ?_,
          le_trans ?_ ((checkCollisionsHop_mono _).2.2)⟩ <;>
        exact le_refl _)

/-- One key event only raises score and level and only lowers lives. -/
theorem handleKeyDownHop_mono (k : Key) (g : Game) :
    g.score ≤ (handleKeyDown k g).score ∧
    (handleKeyDown k g).lives ≤ g.lives ∧
    g.level ≤ (handleKeyDown k g).level := by
  refine ⟨?_, ?_, ?_⟩
  · simp only [handleKeyDown]
    repeat' split
    all_goals
      first
        | exact le_refl _
        | (rw [resetFrog_score, (createObstacles_fields _).1] <;> exact le_refl _)
        | (show g.score ≤ g.score + 10; omega)
  · simp only [handleKeyDown]
    repeat' split
    all_goals
      first
        | exact le_refl _
        | (rw [resetFrog_lives, (createObstacles_fields _).2.1] <;> exact le_refl _)
  · simp only [handleKeyDown]
    repeat' split
    all_goals
      first
        | exact le_refl _
        | (rw [resetFrog_level, (createObstacles_fields _).2.2] <;>
            (show g.level ≤ g.level + 1; omega))

/-- One session operation only raises score and level and only lowers
lives. -/
theorem stepHop_mono (op : Op) (g : Game) :
    g.score ≤ (step op g).score ∧ (step op g).lives ≤ g.lives ∧
    g.level ≤ (step op g).level := by
  cases op with
  | tick => exact updateHop_mono g
  | key k => exact handleKeyDownHop_mono k g

/-- Along any operation sequence the score and the level never decrease
and the lives never increase. -/
theorem stepsHop_mono (ops : List Op) :
    ∀ g : Game,
      g.score ≤ (ops.foldl (fun s op => step op s) g).score ∧
      (ops.foldl (fun s op => step op s) g).lives ≤ g.lives ∧
      g.level ≤ (ops.foldl (fun s op => step op s) g).level := by
  induction ops with
  | nil => intro g; exact ⟨le_refl _, le_refl _, le_refl _⟩
  | cons op rest ih =>
    intro g
    obtain ⟨h1, h2, h3⟩ := stepHop_mono op g
    obtain ⟨h4, h5, h6⟩ := ih (step op g)
    exact ⟨le_trans h1 h4, le_trans h5 h2, le_trans h3 h6⟩

end Hopper

namespace Bustout

/-- Every fresh brick wall carries only nonnegative point values. -/
theorem initBricks_WF (g : Game) :
    ∀ b ∈ (initBricks g).bricks, 0 ≤ b.points := by
  intro b hb
  simp only [initBricks, List.mem_flatMap, List.mem_map, List.mem_range] at hb
  obtain ⟨row, hrow, col, hcol, rfl⟩ := hb
  simp only []
  omega

/-- A brick hit reports nonnegative points and keeps the wall
nonnegative. -/
theorem brickScan_points (b : Ball) (l : List Brick) :
    ∀ l' p, brickScan b l = some (l', p) → (∀ x ∈ l, 0 ≤ x.points) →
      0 ≤ p ∧ ∀ x ∈ l', 0 ≤ x.points := by
  induction l with
  | nil =>
    intro l' p h _
    exact absurd h (by simp [brickScan])
  | cons br rest ih =>
    intro l' p h hal
    simp only [brickScan] at h
    split at h
    · simp only [Option.some.injEq, Prod.mk.injEq] at h
      obtain ⟨h1, h2⟩ := h
      constructor
      · rw [← h2]
        exact hal br (by simp)
      · intro x hx
        rw [← h1] at hx
        rcases List.mem_cons.mp hx with hx1 | hx2
        · rw [hx1]
          exact hal br (by simp)
        · exact hal x (List.mem_cons_of_mem br hx2)
    · split at h
      · rename_i rest' pts heq
        simp only [Option.some.injEq, Prod.mk.injEq] at h
        obtain ⟨h1, h2⟩ := h
        obtain ⟨hp, hl⟩ := ih rest' pts heq
          (fun x hx => hal x (List.mem_cons_of_mem br hx))
        constructor
        · rw [← h2]
          exact hp
        · intro x hx
          rw [← h1] at hx
          rcases List.mem_cons.mp hx with hx1 | hx2
          · rw [hx1]
            exact hal br (by simp)
          · exact hl x hx2
      · exact absurd h (by simp)

/-- The ball loop only raises the score, only lowers the lives, never
touches the level, and keeps the wall nonnegative. -/
theorem ballsAux_mono (l : List Ball) :
    ∀ (kept : List Ball) (g : Game), (∀ x ∈ g.bricks, 0 ≤ x.points) →
      g.score ≤ (ballsAux l kept g).score ∧
      (ballsAux l kept g).lives ≤ g.lives ∧
      (ballsAux l kept g).level = g.level ∧
      ∀ x ∈ (ballsAux l kept g).bricks, 0 ≤ x.points := by
  induction l with
  | nil =>
    intro kept g hWF
    exact ⟨le_refl _, le_refl _, rfl, by exact hWF⟩
  | cons b0 rest ih =>
    intro kept g hWF
    simp only [ballsAux]
    split
    · split
      · split
        · refine ⟨le_trans ?_ ((ih kept _ (by exact hWF)).1),
            le_trans ((ih kept _ (by exact hWF)).2.1) ?_,
            Eq.trans ((ih kept _ (by exact hWF)).2.2.1) rfl,
            (ih kept _ (by exact hWF)).2.2.2⟩
          · exact le_refl _
          · show g.lives - 1 ≤ g.lives
            omega
        · refine ⟨le_trans ?_ ((ih _ _ (by exact hWF)).1),
            le_trans ((ih _ _ (by exact hWF)).2.1) ?_,
            Eq.trans ((ih _ _ (by exact hWF)).2.2.1) rfl,
            (ih _ _ (by exact hWF)).2.2.2⟩
          · exact le_refl _
          · show g.lives - 1 ≤ g.lives
            omega
      · exact ih kept g hWF
    · split
      · rename_i bricks2 pts heq
        obtain ⟨hp, hwf2⟩ := brickScan_points _ _ _ _ heq hWF
        refine ⟨le_trans ?_ ((ih _ _ (by exact hwf2)).1),
          le_trans ((ih _ _ (by exact hwf2)).2.1) ?_,
          Eq.trans ((ih _ _ (by exact hwf2)).2.2.1) rfl,
          (ih _ _ (by exact hwf2)).2.2.2⟩
        · show g.score ≤ g.score + pts
          omega
        · exact le_refl _
      · exact ih _ g hWF

/-- A fresh ball draw leaves every game field except `ridx` unchanged. -/
theorem freshBall_fields (g : Game) :
    (freshBall g).2.score = g.score ∧ (freshBall g).2.lives = g.lives ∧
    (freshBall g).2.level = g.level ∧ (freshBall g).2.bricks = g.bricks :=
  ⟨rfl, rfl, rfl, rfl⟩

/-- The level-up stage keeps score and lives, can only raise the level,
and keeps the wall nonnegative. -/
theorem levelUp_mono (g1 : Game) (h : ∀ x ∈ g1.bricks, 0 ≤ x.points) :
    (levelUp g1).score = g1.score ∧ (levelUp g1).lives = g1.lives ∧
    g1.level ≤ (levelUp g1).level ∧
    ∀ x ∈ (levelUp g1).bricks, 0 ≤ x.points := by
  simp only [levelUp]
  split
  · refine ⟨rfl, rfl, ?_, ?_⟩
    · show g1.level ≤ g1.level + 1
      omega
    · have hb := initBricks_WF
        ({ g1 with level := g1.level + 1, ballSpeed := g1.ballSpeed + 1 / 2 } : Game)
      exact hb
  · exact ⟨rfl, rfl, le_refl _, by exact h⟩

/-- One frame update only raises the score and the level, only lowers the
lives, and keeps the wall nonnegative. -/
theorem updateBust_mono (g : Game) (hWF : ∀ x ∈ g.bricks, 0 ≤ x.points) :
    g.score ≤ (update g).score ∧ (update g).lives ≤ g.lives ∧
    g.level ≤ (update g).level ∧ ∀ x ∈ (update g).bricks, 0 ≤ x.points := by
  simp only [update]
  obtain ⟨b1, b2, b3, b4⟩ :=
    ballsAux_mono g.balls.reverse [] (paddleStep g) (by exact hWF)
  obtain ⟨l1, l2, l3, l4⟩ :=
    levelUp_mono (ballsAux g.balls.reverse [] (paddleStep g)) b4
  exact ⟨le_trans b1 (le_of_eq l1.symm), le_trans (le_of_eq l2) b2,
    le_trans (le_of_eq b3.symm) l3, l4⟩

/-- Starting the game leaves score, lives, level and the wall
unchanged. -/
theorem startGame_fields (g : Game) :
    (startGame g).score = g.score ∧ (startGame g).lives = g.lives ∧
    (startGame g).level = g.level ∧ (startGame g).bricks = g.bricks :=
  ⟨rfl, rfl, rfl, rfl⟩

/-- One session operation only raises the score and the level, only lowers
the lives, and keeps the wall nonnegative. -/
theorem stepBust_mono (op : Op) (g : Game) (hWF : ∀ x ∈ g.bricks, 0 ≤ x.points) :
    g.score ≤ (step op g).score ∧ (step op g).lives ≤ g.lives ∧
    g.level ≤ (step op g).level ∧ ∀ x ∈ (step op g).bricks, 0 ≤ x.points := by
  cases op with
  | tick => exact updateBust_mono g hWF
  | keyDown k =>
    cases k
    case space =>
      simp only [step, handleKeyDown]
      split
      · exact ⟨le_refl _, le_refl _, le_refl _, by exact hWF⟩
      · exact ⟨le_refl _, le_refl _, le_refl _, by exact hWF⟩
    all_goals exact ⟨le_refl _, le_refl _, le_refl _, by exact hWF⟩
  | keyUp k =>
    cases k <;> exact ⟨le_refl _, le_refl _, le_refl _, by exact hWF⟩
  | mouseMove x =>
    simp only [step, handleMouseMove]
    split
    · exact ⟨le_refl _, le_refl _, le_refl _, by exact hWF⟩
    · exact ⟨le_refl _, le_refl _, le_refl _, by exact hWF⟩

/-- Along any operation sequence that starts with a nonnegative brick
wall — as every reachable state has — the score and the level never
decrease and the lives never increase. -/
theorem stepsBust_mono (ops : List Op) :
    ∀ g : Game, (∀ x ∈ g.bricks, 0 ≤ x.points) →
      g.score ≤ (ops.foldl (fun s op => step op s) g).score ∧
      (ops.foldl (fun s op => step op s) g).lives ≤ g.lives ∧
      g.level ≤ (ops.foldl (fun s op => step op s) g).level := by
  induction ops with
  | nil => intro g _; exact ⟨le_refl _, le_refl _, le_refl _⟩
  | cons op rest ih =>
    intro g hWF
    obtain ⟨h1, h2, h3, h4⟩ := stepBust_mono op g hWF
    obtain ⟨h5, h6, h7⟩ := ih (step op g) h4
    exact ⟨le_trans h1 h5, le_trans h6 h2, le_trans h3 h7⟩

end Bustout

/-- C9: in every game, along any sequence of session operations within a
single session, the score never decreases, the level counter never
decreases, and the lives counter never increases.  The invaders start
condition (nonnegative mother-ship bounty), the falling-block start
condition (nonnegative level) and the breakout start condition
(nonnegative brick values) hold in every reachable state. -/
theorem session_monotonicity_spec :
    (∀ (ops : List ShapeDrop.Op) (g : ShapeDrop.Game), 0 ≤ g.level →
      g.score ≤ (ops.foldl (fun s op => ShapeDrop.step op s) g).score ∧
      g.level ≤ (ops.foldl (fun s op => ShapeDrop.step op s) g).level) ∧
    (∀ (ops : List Invaders.Op) (g : Invaders.Game),
      0 ≤ g.motherShip.points →
      g.score ≤ (ops.foldl (fun s op => Invaders.step op s) g).score ∧
      (ops.foldl (fun s op => Invaders.step op s) g).lives ≤ g.lives ∧
      g.level ≤ (ops.foldl (fun s op => Invaders.step op s) g).level) ∧
    (∀ (ops : List SpaceRocks.Op) (g : SpaceRocks.Game),
      g.score ≤ (ops.foldl (fun s op => SpaceRocks.step op s) g).score ∧
      (ops.foldl (fun s op => SpaceRocks.step op s) g).lives ≤ g.lives ∧
      g.level ≤ (ops.foldl (fun s op => SpaceRocks.step op s) g).level) ∧
    (∀ (ops : List Snake.Op) (p : Snake.Game × Snake.Store),
      p.1.score ≤ ((ops.foldl (fun q op => Snake.step op q) p)).1.score) ∧
    (∀ (ops : List Hopper.Op) (g : Hopper.Game),
      g.score ≤ (ops.foldl (fun s op => Hopper.step op s) g).score ∧
      (ops.foldl (fun s op => Hopper.step op s) g).lives ≤ g.lives ∧
      g.level ≤ (ops.foldl (fun s op => Hopper.step op s) g).level) ∧
    (∀ (ops : List Bustout.Op) (g : Bustout.Game),
      (∀ b ∈ g.bricks, 0 ≤ b.points) →
      g.score ≤ (ops.foldl (fun s op => Bustout.step op s) g).score ∧
      (ops.foldl (fun s op => Bustout.step op s) g).lives ≤ g.lives ∧
      g.level ≤ (ops.foldl (fun s op => Bustout.step op s) g).level) :=
  ⟨fun ops g h => ShapeDrop.stepsSD_mono ops g h,
   fun ops g h => Invaders.stepsInv_mono ops g h,
   fun ops g => SpaceRocks.stepsSR_mono ops g,
   fun ops p => Snake.steps_score_mono ops p,
   fun ops g => Hopper.stepsHop_mono ops g,
   fun ops g h => Bustout.stepsBust_mono ops g h⟩

theorem session_monotonicity_spec_witness :
    (({ board := [], pattern := [], color := 0, posX := 4, posY := 0,
        nextPattern := [], nextColor := 0, pieceStream := fun _ => (0 : Fin 7),
        pieceIdx := 0, score := 0, lines := 0, level := 1, gameOver := false,
        paused := false, dropCounter := 0, dropInterval := 1000,
        lastTime := 0 } : ShapeDrop.Game).score ≤
      ([ShapeDrop.Op.key ShapeDrop.Key.pause].foldl
        (fun s op => ShapeDrop.step op s)
        { board := [], pattern := [], color := 0, posX := 4, posY := 0,
          nextPattern := [], nextColor := 0, pieceStream := fun _ => (0 : Fin 7),
          pieceIdx := 0, score := 0, lines := 0, level := 1, gameOver := false,
          paused := false, dropCounter := 0, dropInterval := 1000,
          lastTime := 0 }).score) ∧
    (({ score := 0, lives := 3, level := 1, gameOver := false, paused := false,
        player := { x := 100, y := 400, width := 52, height := 32,
                    active := true, speed := 3 },
        invaders := [], invaderDirection := 1, invaderSpeed := 10,
        baseInvaderSpeed := 12, invaderDropAmount := 16,
        animationCounter := 0, animationSpeed := 1000,
        baseAnimationSpeed := 1000,
        motherShip := { x := -50, y := 30, width := 32, height := 14,
                        active := false, direction := 1, points := 0 },
        playerBullets := [], invaderBullets := [], barriers := [],
        keys := ⟨false, false, false, false⟩, lastTime := 0,
        invaderShootTimer := 0, motherShipTimer := 0, scale := 1,
        canvasW := 800, canvasH := 600, barrierLeftBoundary := 0,
        barrierRightBoundary := 100, rand := fun _ => 0,
        ridx := 0 } : Invaders.Game).score ≤
      ([Invaders.Op.pauseButton].foldl (fun s op => Invaders.step op s)
        { score := 0, lives := 3, level := 1, gameOver := false,
          paused := false,
          player := { x := 100, y := 400, width := 52, height := 32,
                      active := true, speed := 3 },
          invaders := [], invaderDirection := 1, invaderSpeed := 10,
          baseInvaderSpeed := 12, invaderDropAmount := 16,
          animationCounter := 0, animationSpeed := 1000,
          baseAnimationSpeed := 1000,
          motherShip := { x := -50, y := 30, width := 32, height := 14,
                          active := false, direction := 1, points := 0 },
          playerBullets := [], invaderBullets := [], barriers := [],
          keys := ⟨false, false, false, false⟩, lastTime := 0,
          invaderShootTimer := 0, motherShipTimer := 0, scale := 1,
          canvasW := 800, canvasH := 600, barrierLeftBoundary := 0,
          barrierRightBoundary := 100, rand := fun _ => 0,
          ridx := 0 }).score) ∧
    (({ ship := { pos := ⟨400, 300⟩, vel := ⟨0, 0⟩, angle := 0,
                  thrust := false, radius := 10 },
        asteroids := [], bullets := [], particles := [], gameOver := false,
        paused := false, lastShot := 0, score := 0, lives := 3, level := 1,
        gameOverState := false,
        keys := ⟨false, false, false, false, false, false⟩,
        canvasW := 800, canvasH := 600, rand := fun _ => 0, ridx := 0,
        cosF := fun _ => 1, sinF := fun _ => 0 } : SpaceRocks.Game).score ≤
      ([SpaceRocks.Op.keyUp SpaceRocks.Key.keyA].foldl
        (fun s op => SpaceRocks.step op s)
        { ship := { pos := ⟨400, 300⟩, vel := ⟨0, 0⟩, angle := 0,
                    thrust := false, radius := 10 },
          asteroids := [], bullets := [], particles := [], gameOver := false,
          paused := false, lastShot := 0, score := 0, lives := 3, level := 1,
          gameOverState := false,
          keys := ⟨false, false, false, false, false, false⟩,
          canvasW := 800, canvasH := 600, rand := fun _ => 0, ridx := 0,
          cosF := fun _ => 1, sinF := fun _ => 0 }).score) ∧
    ((({ gameState := Snake.GState.ready, score := 0, highScore := 0,
         cols := 20, rows := 20, snake := [], direction := Snake.Direction.right,
         nextDirection := Snake.Direction.right, apple := ⟨0, 0⟩,
         currentSpeed := 150, rand := fun _ => 0, ridx := 0 } : Snake.Game),
       ({ val := none, reads := 0, writes := 0 } : Snake.Store)).1.score ≤
      ([Snake.Op.key Snake.Key.space].foldl (fun q op => Snake.step op q)
        (({ gameState := Snake.GState.ready, score := 0, highScore := 0,
            cols := 20, rows := 20, snake := [],
            direction := Snake.Direction.right,
            nextDirection := Snake.Direction.right, apple := ⟨0, 0⟩,
            currentSpeed := 150, rand := fun _ => 0, ridx := 0 } : Snake.Game),
         ({ val := none, reads := 0, writes := 0 } : Snake.Store))).1.score) ∧
    (({ frog := { x := 448, y := 448, width := 24, height := 24, speed := 0 },
        cars := [], logs := [], turtles := [], snakes := [], alligators := [],
        femaleFrog := none, score := 0, lives := 3, gameOver := false,
        won := false, level := 1, goals := [false, false, false, false, false],
        rand := fun _ => 0, ridx := 0 } : Hopper.Game).score ≤
      ([Hopper.Op.key Hopper.Key.left].foldl (fun s op => Hopper.step op s)
        { frog := { x := 448, y := 448, width := 24, height := 24, speed := 0 },
          cars := [], logs := [], turtles := [], snakes := [], alligators := [],
          femaleFrog := none, score := 0, lives := 3, gameOver := false,
          won := false, level := 1,
          goals := [false, false, false, false, false],
          rand := fun _ => 0, ridx := 0 }).score) ∧
    (({ gameStarted := false, gameOver := false, score := 0, lives := 3,
        level := 1, paddleWidth := 100, paddleHeight := 10, paddleX := 350,
        paddleSpeed := 7, rightPressed := false, leftPressed := false,
        balls := [], ballSpeed := 4, bricks := [], brickWidth := 53,
        canvasW := 800, canvasH := 600, rand := fun _ => 0,
        ridx := 0 } : Bustout.Game).score ≤
      ([Bustout.Op.keyDown Bustout.Key.right].foldl
        (fun s op => Bustout.step op s)
        { gameStarted := false, gameOver := false, score := 0, lives := 3,
          level := 1, paddleWidth := 100, paddleHeight := 10, paddleX := 350,
          paddleSpeed := 7, rightPressed := false, leftPressed := false,
          balls := [], ballSpeed := 4, bricks := [], brickWidth := 53,
          canvasW := 800, canvasH := 600, rand := fun _ => 0,
          ridx := 0 }).score) :=
  ⟨(session_monotonicity_spec.1 _ _ (by decide)).1,
   (session_monotonicity_spec.2.1 _ _ (by decide)).1,
   (session_monotonicity_spec.2.2.1 _ _).1,
   session_monotonicity_spec.2.2.2.1 _ _,
   (session_monotonicity_spec.2.2.2.2.1 _ _).1,
   (session_monotonicity_spec.2.2.2.2.2 _ _ (by simp)).1⟩

namespace Snake

/-- The apple re-draw loop never touches the high-score signal. -/
theorem spawnAppleAux_highScore (fuel : Nat) :
    ∀ g : Game, (spawnAppleAux g fuel).highScore = g.highScore := by
  induction fuel with
  | zero => intro g; rfl
  | succ n ih =>
    intro g
    simp only [spawnAppleAux, draw1]
    split
    · exact ih _
    · rfl

/-- A key event never touches the high-score signal. -/
theorem onKeyDown_highScore (k : Key) (g : Game) :
    (onKeyDown k g).highScore = g.highScore := by
  cases hgs : g.gameState
  case ready =>
    simp only [onKeyDown, hgs]
    split <;> rfl
  case playing =>
    simp only [onKeyDown, hgs]
    split <;>
      first
        | rfl
        | (split <;> rfl)
        | (simp only [pauseGame]; split <;> rfl)
  case pausedS =>
    simp only [onKeyDown, hgs]
    split
    · simp only [resumeGame]
      split <;> rfl
    · rfl
  case over => simp only [onKeyDown, hgs]

/-- Ending the game never reads the store. -/
theorem endGame_reads (g : Game) (st : Store) :
    (endGame g st).2.reads = st.reads := by
  simp only [endGame, saveHighScore, Store.setItem]
  split <;> rfl

/-- Ending the game either leaves the store alone or — exactly when the
score strictly exceeds the high-score signal — writes the score. -/
theorem endGame_cases (g : Game) (st : Store) :
    ((endGame g st).2 = st ∧ (endGame g st).1.highScore = g.highScore) ∨
    (g.highScore < g.score ∧ (endGame g st).1.gameState = GState.over ∧
     (endGame g st).1.highScore = g.score ∧
     (endGame g st).2 = st.setItem g.score) := by
  simp only [endGame, saveHighScore]
  split
  · rename_i h
    right
    exact ⟨h, rfl, rfl, rfl⟩
  · left
    exact ⟨rfl, rfl⟩

/-- One movement update never reads the store. -/
theorem update_reads (g : Game) (st : Store) :
    (update g st).2.reads = st.reads := by
  simp only [update]
  split
  · exact endGame_reads _ _
  · split
    · exact endGame_reads _ _
    · split
      · split <;> rfl
      · rfl

/-- One movement update either leaves the store alone or performs exactly
the game-end strict-exceed write. -/
theorem update_storage (g : Game) (st : Store) :
    ((update g st).2 = st ∧ (update g st).1.highScore = g.highScore) ∨
    (g.highScore < g.score ∧ (update g st).1.gameState = GState.over ∧
     (update g st).1.highScore = g.score ∧
     (update g st).2 = st.setItem g.score) := by
  simp only [update]
  split
  · exact endGame_cases _ _
  · split
    · exact endGame_cases _ _
    · split
      · split
        · left
          refine ⟨rfl, ?_⟩
          exact spawnAppleAux_highScore 4096 _
        · left
          refine ⟨rfl, ?_⟩
          exact spawnAppleAux_highScore 4096 _
      · left
        exact ⟨rfl, rfl⟩

end Snake

namespace Snake

/-- Startup performs exactly one read, no write, and installs the stored
value (default 0) into the high-score signal. -/
theorem startup_storage (st : Store) (cols rows : Int) (rand : Nat → ℚ) :
    (startup st cols rows rand).2.reads = st.reads + 1 ∧
    (startup st cols rows rand).2.writes = st.writes ∧
    (startup st cols rows rand).2.val = st.val ∧
    (startup st cols rows rand).1.highScore = st.val.getD 0 := by
  cases hv : st.val
  case none =>
    simp only [startup, construct, loadHighScore, Store.getItem, hv]
    refine ⟨?_, ?_, ?_, ?_⟩ <;>
      first
        | trivial
        | ((simp only [initGame, spawnApple]; rw [spawnAppleAux_highScore]) <;> rfl)
  case some n =>
    simp only [startup, construct, loadHighScore, Store.getItem, hv]
    refine ⟨?_, ?_, ?_, ?_⟩ <;>
      first
        | trivial
        | ((simp only [initGame, spawnApple]; rw [spawnAppleAux_highScore]) <;> rfl)

end Snake

/-- C8: the snake component reads the persisted high score exactly once,
at startup (installing the stored value, default 0, into the high-score
signal), never reads again during a session, and writes only at game end
and only when the running score strictly exceeds the high-score signal —
which itself tracks the stored value; in every other case the store is
left unchanged. -/
theorem snake_storage_spec :
    (∀ (st : Snake.Store) (cols rows : Int) (rand : Nat → ℚ),
      (Snake.startup st cols rows rand).2.reads = st.reads + 1 ∧
      (Snake.startup st cols rows rand).2.writes = st.writes ∧
      (Snake.startup st cols rows rand).2.val = st.val ∧
      (Snake.startup st cols rows rand).1.highScore = st.val.getD 0) ∧
    (∀ (op : Snake.Op) (p : Snake.Game × Snake.Store),
      (Snake.step op p).2.reads = p.2.reads) ∧
    (∀ (op : Snake.Op) (p : Snake.Game × Snake.Store),
      ((Snake.step op p).2 = p.2 ∧
       (Snake.step op p).1.highScore = p.1.highScore) ∨
      (p.1.highScore < p.1.score ∧
       (Snake.step op p).1.gameState = Snake.GState.over ∧
       (Snake.step op p).1.highScore = p.1.score ∧
       (Snake.step op p).2 = p.2.setItem p.1.score)) ∧
    (∀ (op : Snake.Op) (p : Snake.Game × Snake.Store),
      p.2.val = some p.1.highScore ∨ (p.2.val = none ∧ p.1.highScore = 0) →
      ((Snake.step op p).2.val = some (Snake.step op p).1.highScore ∨
       ((Snake.step op p).2.val = none ∧
        (Snake.step op p).1.highScore = 0))) ∧
    (∀ (op : Snake.Op) (p : Snake.Game × Snake.Store) (n : Int),
      p.2.val = some n → p.1.highScore = n →
      (Snake.step op p).2 ≠ p.2 → n < p.1.score) := by
  have hstep : ∀ (op : Snake.Op) (p : Snake.Game × Snake.Store),
      ((Snake.step op p).2 = p.2 ∧
       (Snake.step op p).1.highScore = p.1.highScore) ∨
      (p.1.highScore < p.1.score ∧
       (Snake.step op p).1.gameState = Snake.GState.over ∧
       (Snake.step op p).1.highScore = p.1.score ∧
       (Snake.step op p).2 = p.2.setItem p.1.score) := by
    intro op p
    obtain ⟨g, st⟩ := p
    cases op with
    | tick => exact Snake.update_storage g st
    | key k =>
      left
      exact ⟨rfl, Snake.onKeyDown_highScore k g⟩
  refine ⟨fun st cols rows rand => Snake.startup_storage st cols rows rand,
    ?_, hstep, ?_, ?_⟩
  · intro op p
    obtain ⟨g, st⟩ := p
    cases op with
    | tick => exact Snake.update_reads g st
    | key k => rfl
  · intro op p hsync
    rcases hstep op p with ⟨h1, h2⟩ | ⟨h1, h2, h3, h4⟩
    · rw [h1, h2]
      exact hsync
    · left
      rw [h3, h4]
      rfl
  · intro op p n hval hhs hne
    rcases hstep op p with ⟨h1, h2⟩ | ⟨h1, h2, h3, h4⟩
    · exact absurd h1 hne
    · rw [← hhs]
      exact h1

theorem snake_storage_spec_witness :
    (Snake.startup ⟨some 5, 0, 0⟩ 20 20 (fun _ => 0)).2.reads = 0 + 1 ∧
    (Snake.step Snake.Op.tick
      ({ gameState := Snake.GState.playing, score := 10, highScore := 5,
         cols := 20, rows := 20, snake := [⟨0, 0⟩],
         direction := Snake.Direction.left,
         nextDirection := Snake.Direction.left, apple := ⟨5, 5⟩,
         currentSpeed := 150, rand := fun _ => 0, ridx := 0 },
       ⟨some 5, 1, 0⟩)).2.reads =
      (({ gameState := Snake.GState.playing, score := 10, highScore := 5,
          cols := 20, rows := 20, snake := [⟨0, 0⟩],
          direction := Snake.Direction.left,
          nextDirection := Snake.Direction.left, apple := ⟨5, 5⟩,
          currentSpeed := 150, rand := fun _ => 0, ridx := 0 } : Snake.Game),
        (⟨some 5, 1, 0⟩ : Snake.Store)).2.reads ∧
    (((Snake.step (Snake.Op.key Snake.Key.other)
        ({ gameState := Snake.GState.ready, score := 0, highScore := 0,
           cols := 20, rows := 20, snake := [],
           direction := Snake.Direction.right,
           nextDirection := Snake.Direction.right, apple := ⟨0, 0⟩,
           currentSpeed := 150, rand := fun _ => 0, ridx := 0 },
         ⟨none, 1, 0⟩)).2.val =
       some (Snake.step (Snake.Op.key Snake.Key.other)
        ({ gameState := Snake.GState.ready, score := 0, highScore := 0,
           cols := 20, rows := 20, snake := [],
           direction := Snake.Direction.right,
           nextDirection := Snake.Direction.right, apple := ⟨0, 0⟩,
           currentSpeed := 150, rand := fun _ => 0, ridx := 0 },
         ⟨none, 1, 0⟩)).1.highScore) ∨
      ((Snake.step (Snake.Op.key Snake.Key.other)
        ({ gameState := Snake.GState.ready, score := 0, highScore := 0,
           cols := 20, rows := 20, snake := [],
           direction := Snake.Direction.right,
           nextDirection := Snake.Direction.right, apple := ⟨0, 0⟩,
           currentSpeed := 150, rand := fun _ => 0, ridx := 0 },
         ⟨none, 1, 0⟩)).2.val = none ∧
       (Snake.step (Snake.Op.key Snake.Key.other)
        ({ gameState := Snake.GState.ready, score := 0, highScore := 0,
           cols := 20, rows := 20, snake := [],
           direction := Snake.Direction.right,
           nextDirection := Snake.Direction.right, apple := ⟨0, 0⟩,
           currentSpeed := 150, rand := fun _ => 0, ridx := 0 },
         ⟨none, 1, 0⟩)).1.highScore = 0)) ∧
    (5 : Int) <
      (({ gameState := Snake.GState.playing, score := 10, highScore := 5,
          cols := 20, rows := 20, snake := [⟨0, 0⟩],
          direction := Snake.Direction.left,
          nextDirection := Snake.Direction.left, apple := ⟨5, 5⟩,
          currentSpeed := 150, rand := fun _ => 0, ridx := 0 } : Snake.Game),
       (⟨some 5, 1, 0⟩ : Snake.Store)).1.score :=
  ⟨(snake_storage_spec.1 ⟨some 5, 0, 0⟩ 20 20 (fun _ => 0)).1,
   snake_storage_spec.2.1 Snake.Op.tick
     ({ gameState := Snake.GState.playing, score := 10, highScore := 5,
        cols := 20, rows := 20, snake := [⟨0, 0⟩],
        direction := Snake.Direction.left,
        nextDirection := Snake.Direction.left, apple := ⟨5, 5⟩,
        currentSpeed := 150, rand := fun _ => 0, ridx := 0 },
      ⟨some 5, 1, 0⟩),
   snake_storage_spec.2.2.2.1 (Snake.Op.key Snake.Key.other)
     ({ gameState := Snake.GState.ready, score := 0, highScore := 0,
        cols := 20, rows := 20, snake := [],
        direction := Snake.Direction.right,
        nextDirection := Snake.Direction.right, apple := ⟨0, 0⟩,
        currentSpeed := 150, rand := fun _ => 0, ridx := 0 },
      ⟨none, 1, 0⟩)
     (Or.inr ⟨rfl, rfl⟩),
   snake_storage_spec.2.2.2.2 Snake.Op.tick
     ({ gameState := Snake.GState.playing, score := 10, highScore := 5,
        cols := 20, rows := 20, snake := [⟨0, 0⟩],
        direction := Snake.Direction.left,
        nextDirection := Snake.Direction.left, apple := ⟨5, 5⟩,
        currentSpeed := 150, rand := fun _ => 0, ridx := 0 },
      ⟨some 5, 1, 0⟩)
     5 rfl rfl (by decide)⟩

/-- Last element with default, pushed through a cons. -/
theorem getLastD_cons (t d : ℚ) (ts : List ℚ) :
    (t :: ts).getLast?.getD d = ts.getLast?.getD t := by
  induction ts generalizing t d with
  | nil => rfl
  | cons a l ih =>
    rw [List.getLast?_cons_cons]
    rw [ih a d, ih a t]

namespace ShapeDrop

/-- While paused, a tick only refreshes the frame clock. -/
theorem gameLoopStepSD_paused (t : ℚ) (g : Game) (h : g.paused = true) :
    gameLoopStep t g = { g with lastTime := t } := by
  simp only [gameLoopStep]
  rw [if_pos h]

/-- While paused, any number of ticks only refreshes the frame clock. -/
theorem pausedFoldSD (ts : List ℚ) :
    ∀ g : Game, g.paused = true →
      ts.foldl (fun s t => gameLoopStep t s) g =
        { g with lastTime := ts.getLast?.getD g.lastTime } := by
  induction ts with
  | nil => intro g _; rfl
  | cons t ts' ih =>
    intro g h
    simp only [List.foldl_cons]
    rw [gameLoopStepSD_paused t g h]
    rw [ih { g with lastTime := t } h]
    rw [getLastD_cons]

/-- Resuming after any paused stretch feeds `update` a delta measured from
the last paused frame, not from the pause start. -/
theorem resumeStepSD (t : ℚ) (ts : List ℚ) (g : Game) (h : g.paused = true) :
    gameLoopStep t (togglePause (ts.foldl (fun s t => gameLoopStep t s) g)) =
      update (t - ts.getLast?.getD g.lastTime)
        { g with paused := false, lastTime := t } := by
  rw [pausedFoldSD ts g h]
  simp only [togglePause, gameLoopStep, h, Bool.not_true, Bool.false_eq_true,
    if_false]

end ShapeDrop

namespace Invaders

/-- While paused, a tick only refreshes the frame clock. -/
theorem gameLoopStepInv_paused (t : ℚ) (g : Game) (h : g.paused = true) :
    gameLoopStep t g = { g with lastTime := t } := by
  simp only [gameLoopStep, h, Bool.not_true, Bool.false_and,
    Bool.false_eq_true, if_false]

/-- While paused, any number of ticks only refreshes the frame clock. -/
theorem pausedFoldInv (ts : List ℚ) :
    ∀ g : Game, g.paused = true →
      ts.foldl (fun s t => gameLoopStep t s) g =
        { g with lastTime := ts.getLast?.getD g.lastTime } := by
  induction ts with
  | nil => intro g _; rfl
  | cons t ts' ih =>
    intro g h
    simp only [List.foldl_cons]
    rw [gameLoopStepInv_paused t g h]
    rw [ih { g with lastTime := t } h]
    rw [getLastD_cons]

/-- Resuming after any paused stretch feeds `update` a delta measured from
the last paused frame, not from the pause start. -/
theorem resumeStepInv (t : ℚ) (ts : List ℚ) (g : Game) (h : g.paused = true)
    (hgo : g.gameOver = false) :
    gameLoopStep t (togglePause (ts.foldl (fun s t => gameLoopStep t s) g)) =
      update (t - ts.getLast?.getD g.lastTime)
        { g with paused := false, lastTime := t } := by
  rw [pausedFoldInv ts g h]
  simp only [togglePause, gameLoopStep, h, hgo, Bool.not_true, Bool.not_false,
    Bool.false_and, Bool.true_and, if_true]

end Invaders

namespace SpaceRocks

/-- While paused, a frame tick is the identity. -/
theorem gameLoopStepSR_paused (g : Game) (h : g.paused = true) :
    gameLoopStep g = g := by
  simp only [gameLoopStep, h, Bool.not_true, Bool.false_and,
    Bool.false_eq_true, if_false]

end SpaceRocks

/-- C6: while paused, scheduler ticks change nothing but the frame clock —
no board cell, entity position, score, or gameplay timer moves — in the
falling-block, invaders and asteroids games; and on resume the next tick
feeds the update exactly the delta from the last paused frame (the single
frame elapsed since the resume point), not the accumulated paused
duration. -/
theorem pause_freeze_resume_spec :
    (∀ (ts : List ℚ) (g : ShapeDrop.Game), g.paused = true →
      ts.foldl (fun s t => ShapeDrop.gameLoopStep t s) g =
        { g with lastTime := ts.getLast?.getD g.lastTime }) ∧
    (∀ (t : ℚ) (ts : List ℚ) (g : ShapeDrop.Game), g.paused = true →
      ShapeDrop.gameLoopStep t (ShapeDrop.togglePause
          (ts.foldl (fun s t => ShapeDrop.gameLoopStep t s) g)) =
        ShapeDrop.update (t - ts.getLast?.getD g.lastTime)
          { g with paused := false, lastTime := t }) ∧
    (∀ (ts : List ℚ) (g : Invaders.Game), g.paused = true →
      ts.foldl (fun s t => Invaders.gameLoopStep t s) g =
        { g with lastTime := ts.getLast?.getD g.lastTime }) ∧
    (∀ (t : ℚ) (ts : List ℚ) (g : Invaders.Game), g.paused = true →
      g.gameOver = false →
      Invaders.gameLoopStep t (Invaders.togglePause
          (ts.foldl (fun s t => Invaders.gameLoopStep t s) g)) =
        Invaders.update (t - ts.getLast?.getD g.lastTime)
          { g with paused := false, lastTime := t }) ∧
    (∀ g : SpaceRocks.Game, g.paused = true →
      SpaceRocks.gameLoopStep g = g) :=
  ⟨fun ts g h => ShapeDrop.pausedFoldSD ts g h,
   fun t ts g h => ShapeDrop.resumeStepSD t ts g h,
   fun ts g h => Invaders.pausedFoldInv ts g h,
   fun t ts g h hgo => Invaders.resumeStepInv t ts g h hgo,
   fun g h => SpaceRocks.gameLoopStepSR_paused g h⟩

theorem pause_freeze_resume_spec_witness :
    ([(100 : ℚ), 200].foldl (fun s t => ShapeDrop.gameLoopStep t s)
      { board := [], pattern := [], color := 0, posX := 4, posY := 0,
        nextPattern := [], nextColor := 0, pieceStream := fun _ => (0 : Fin 7),
        pieceIdx := 0, score := 0, lines := 0, level := 1, gameOver := false,
        paused := true, dropCounter := 0, dropInterval := 1000,
        lastTime := 0 } =
      { ({ board := [], pattern := [], color := 0, posX := 4, posY := 0,
           nextPattern := [], nextColor := 0,
           pieceStream := fun _ => (0 : Fin 7), pieceIdx := 0, score := 0,
           lines := 0, level := 1, gameOver := false, paused := true,
           dropCounter := 0, dropInterval := 1000,
           lastTime := 0 } : ShapeDrop.Game) with
        lastTime := ([(100 : ℚ), 200].getLast?.getD 0) }) ∧
    (ShapeDrop.gameLoopStep 216 (ShapeDrop.togglePause
        ([(100 : ℚ), 200].foldl (fun s t => ShapeDrop.gameLoopStep t s)
          { board := [], pattern := [], color := 0, posX := 4, posY := 0,
            nextPattern := [], nextColor := 0,
            pieceStream := fun _ => (0 : Fin 7), pieceIdx := 0, score := 0,
            lines := 0, level := 1, gameOver := false, paused := true,
            dropCounter := 0, dropInterval := 1000, lastTime := 0 })) =
      ShapeDrop.update (216 - ([(100 : ℚ), 200].getLast?.getD 0))
        { ({ board := [], pattern := [], color := 0, posX := 4, posY := 0,
             nextPattern := [], nextColor := 0,
             pieceStream := fun _ => (0 : Fin 7), pieceIdx := 0, score := 0,
             lines := 0, level := 1, gameOver := false, paused := true,
             dropCounter := 0, dropInterval := 1000,
             lastTime := 0 } : ShapeDrop.Game) with
          paused := false, lastTime := 216 }) ∧
    (Invaders.gameLoopStep 216 (Invaders.togglePause
        ([(100 : ℚ), 200].foldl (fun s t => Invaders.gameLoopStep t s)
          { score := 0, lives := 3, level := 1, gameOver := false,
            paused := true,
            player := { x := 100, y := 400, width := 52, height := 32,
                        active := true, speed := 3 },
            invaders := [], invaderDirection := 1, invaderSpeed := 10,
            baseInvaderSpeed := 12, invaderDropAmount := 16,
            animationCounter := 0, animationSpeed := 1000,
            baseAnimationSpeed := 1000,
            motherShip := { x := -50, y := 30, width := 32, height := 14,
                            active := false, direction := 1, points := 0 },
            playerBullets := [], invaderBullets := [], barriers := [],
            keys := ⟨false, false, false, false⟩, lastTime := 0,
            invaderShootTimer := 0, motherShipTimer := 0, scale := 1,
            canvasW := 800, canvasH := 600, barrierLeftBoundary := 0,
            barrierRightBoundary := 100, rand := fun _ => 0, ridx := 0 })) =
      Invaders.update (216 - ([(100 : ℚ), 200].getLast?.getD 0))
        { ({ score := 0, lives := 3, level := 1, gameOver := false,
             paused := true,
             player := { x := 100, y := 400, width := 52, height := 32,
                         active := true, speed := 3 },
             invaders := [], invaderDirection := 1, invaderSpeed := 10,
             baseInvaderSpeed := 12, invaderDropAmount := 16,
             animationCounter := 0, animationSpeed := 1000,
             baseAnimationSpeed := 1000,
             motherShip := { x := -50, y := 30, width := 32, height := 14,
                             active := false, direction := 1, points := 0 },
             playerBullets := [], invaderBullets := [], barriers := [],
             keys := ⟨false, false, false, false⟩, lastTime := 0,
             invaderShootTimer := 0, motherShipTimer := 0, scale := 1,
             canvasW := 800, canvasH := 600, barrierLeftBoundary := 0,
             barrierRightBoundary := 100, rand := fun _ => 0,
             ridx := 0 } : Invaders.Game) with
          paused := false, lastTime := 216 }) ∧
    SpaceRocks.gameLoopStep
      { ship := { pos := ⟨400, 300⟩, vel := ⟨0, 0⟩, angle := 0,
                  thrust := false, radius := 10 },
        asteroids := [], bullets := [], particles := [], gameOver := false,
        paused := true, lastShot := 0, score := 0, lives := 3, level := 1,
        gameOverState := false,
        keys := ⟨false, false, false, false, false, false⟩,
        canvasW := 800, canvasH := 600, rand := fun _ => 0, ridx := 0,
        cosF := fun _ => 1, sinF := fun _ => 0 } =
      { ship := { pos := ⟨400, 300⟩, vel := ⟨0, 0⟩, angle := 0,
                  thrust := false, radius := 10 },
        asteroids := [], bullets := [], particles := [], gameOver := false,
        paused := true, lastShot := 0, score := 0, lives := 3, level := 1,
        gameOverState := false,
        keys := ⟨false, false, false, false, false, false⟩,
        canvasW := 800, canvasH := 600, rand := fun _ => 0, ridx := 0,
        cosF := fun _ => 1, sinF := fun _ => 0 } :=
  ⟨pause_freeze_resume_spec.1 [100, 200] _ rfl,
   pause_freeze_resume_spec.2.1 216 [100, 200] _ rfl,
   pause_freeze_resume_spec.2.2.2.1 216 [100, 200] _ rfl rfl,
   pause_freeze_resume_spec.2.2.2.2 _ rfl⟩
